import Mathlib

/-!
# Optical-flow sample: colour mapper, vector post-processing and driver calls

A shallow embedding of `src/main.cpp` (the colour wheel, `ComputeColor`,
`postProcessVectors`, `calculateFlow`, the buffer sizes of `main`) and of
`src/flowvec.h`, `src/flowvec.cpp` (`API`, `NvOFCudaBuffer`), together with the
properties of the specification that concern them.

Conventions of the embedding

* C `int` values are `Int`; `/` and `%` on `int` are `Int.tdiv` and `Int.tmod`
  (truncation toward zero).
* `uint32_t` index expressions are `Nat` reduced modulo `2 ^ 32`.
* Arrays are total maps from an index to a value; a store is a point update.
* `for (i = 0; i < n; i++)` is a left fold over `List.range n`.
-/

namespace NvOF

/-! ## Generic loop and store helpers -/

/-- The loop `for (i = 0; i < n; ++i) body`, as a state transformer. -/
def forRange {σ : Type} (n : Nat) (body : Nat → σ → σ) (s : σ) : σ :=
  (List.range n).foldl (fun acc i => body i acc) s

/-- The store `arr[i] = v` on an array modelled as a total map. -/
def store {α : Type} (arr : Nat → α) (i : Nat) (v : α) : Nat → α :=
  fun j => if j = i then v else arr j

/-! ## The colour wheel (`main.cpp`, lines 13-14 and 38-68) -/

/-- The globals `m_ncols` and `m_colorwheel` of `main.cpp`.  The field `writes` is a
ghost trace: the row index of every call of `SetColors`, oldest first. -/
structure WheelState where
  m_ncols : Int
  m_colorwheel : Int → Int → Int
  writes : List Int

/-- The store `m_colorwheel[k][c] = v`. -/
def storeWheel (cw : Int → Int → Int) (k c v : Int) : Int → Int → Int :=
  fun k2 c2 => if k2 = k ∧ c2 = c then v else cw k2 c2

/-- `SetColors(r, g, b, k)`: three stores into row `k`. -/
def SetColors (r g b k : Int) (s : WheelState) : WheelState :=
  { s with
    m_colorwheel := storeWheel (storeWheel (storeWheel s.m_colorwheel k 0 r) k 1 g) k 2 b
    writes := s.writes ++ [k] }

/-- One band of `MakeColorWheel`: `for (i = 0; i < len; i++) SetColors(..., k++)`.
The loop state is the running index `k` and the globals. -/
def wheelBand (len : Nat) (rgb : Int → Int × Int × Int) (st : Int × WheelState) :
    Int × WheelState :=
  forRange len
    (fun i ks => (ks.1 + 1, SetColors (rgb i).1 (rgb i).2.1 (rgb i).2.2 ks.1 ks.2)) st

/-- `MakeColorWheel()`. -/
def MakeColorWheel (s : WheelState) : WheelState :=
  let RY : Int := 15
  let YG : Int := 6
  let GC : Int := 4
  let CB : Int := 11
  let BM : Int := 13
  let MR : Int := 6
  let s0 : WheelState := { s with m_ncols := RY + YG + GC + CB + BM + MR }
  let k : Int := 0
  let st := wheelBand RY.toNat (fun i => (255, Int.tdiv (255 * i) RY, 0)) (k, s0)
  let st := wheelBand YG.toNat (fun i => (255 - Int.tdiv (255 * i) YG, 255, 0)) st
  let st := wheelBand GC.toNat (fun i => (0, 255, Int.tdiv (255 * i) GC)) st
  let st := wheelBand CB.toNat (fun i => (0, 255 - Int.tdiv (255 * i) CB, 255)) st
  let st := wheelBand BM.toNat (fun i => (Int.tdiv (255 * i) BM, 0, 255)) st
  let st := wheelBand MR.toNat (fun i => (255, 0, 255 - Int.tdiv (255 * i) MR)) st
  st.2

/-- The globals at program start: zero-initialised, nothing written yet. -/
def initialWheel : WheelState :=
  { m_ncols := 0, m_colorwheel := fun _ _ => 0, writes := [] }

/-- Row `k` of the table as an RGB triple. -/
def wheelRow (s : WheelState) (k : Int) : Int × Int × Int :=
  (s.m_colorwheel k 0, s.m_colorwheel k 1, s.m_colorwheel k 2)

/-- Channel `c` of an RGB triple, in the layout `SetColors` stores it. -/
def chan (t : Int × Int × Int) (c : Int) : Int :=
  if c = 0 then t.1 else if c = 1 then t.2.1 else t.2.2

/-! ## Floating-point values

A `float` holds a number of a linearly ordered field `K` (`ℚ` to compute, `ℝ` for the
statements about exact arithmetic).  Every `float` operation is the exact operation of
`K` followed by the rounding `rnd`; the rounding and the C library functions the code
calls are parameters of the embedding, and exact arithmetic is the case where the
roundings are the identity.  Signed zeros and infinities are not represented;
not-a-number is, as a separate value, because `unknown_flow` tests for it. -/

/-- A `float` as stored in the decoded field: not-a-number, or a number. -/
inductive FVal (K : Type) where
  | nan : FVal K
  | num : K → FVal K

/-- The number held by a `float`; only used behind a failed `unknown_flow` test, where
the value is a number. -/
def FVal.val {K : Type} [Zero K] : FVal K → K
  | FVal.nan => 0
  | FVal.num x => x

/-- `std::isnan`. -/
def FVal.isnan {K : Type} : FVal K → Bool
  | FVal.nan => true
  | FVal.num _ => false

/-- The comparison `fabs(u) > t`; false on not-a-number, as every IEEE comparison is. -/
def FVal.fabsGt {K : Type} [LinearOrderedField K] (u : FVal K) (t : K) : Bool :=
  match u with
  | FVal.nan => false
  | FVal.num x => decide (t < |x|)

/-- The floating-point environment: the rounding of an exact result to `float` (`rnd`)
and to `double` (`rndd`), and the functions and the constant of `<math.h>` used by
`main.cpp`. -/
structure FloatEnv (K : Type) where
  rnd : K → K
  rndd : K → K
  sqrt : K → K
  sqrtf : K → K
  atan2f : K → K → K
  M_PI : K

/-- `#define UNKNOWN_FLOW_THRESH 1e9`. -/
def UNKNOWN_FLOW_THRESH {K : Type} [LinearOrderedField K] : K := 1000000000

/-- `unknown_flow(u, v)`. -/
def unknown_flow {K : Type} [LinearOrderedField K] (u v : FVal K) : Bool :=
  u.fabsGt UNKNOWN_FLOW_THRESH || v.fabsGt UNKNOWN_FLOW_THRESH || u.isnan || v.isnan

/-- `std::max(a, b)`, that is `(a < b) ? b : a`. -/
def std_max {K : Type} [LinearOrderedField K] (a b : K) : K := if a < b then b else a

/-- `std::min(a, b)`, that is `(b < a) ? b : a`. -/
def std_min {K : Type} [LinearOrderedField K] (a b : K) : K := if b < a then b else a

/-- The conversion `(int)x` of a `float`: truncation toward zero. -/
def truncToInt {K : Type} [LinearOrderedField K] [FloorRing K] (x : K) : Int :=
  if 0 ≤ x then ⌊x⌋ else ⌈x⌉

/-- The conversion of an `int` to `uint8_t`: reduction modulo 256. -/
def toU8 (v : Int) : Nat := (v % 256).toNat

/-- Reduction of a `uint32_t` expression modulo `2 ^ 32`. -/
def u32 (n : Nat) : Nat := n % 4294967296

/-! ## `ComputeColor` (`main.cpp`, lines 70-90) -/

section ComputeColor

variable {K : Type} [LinearOrderedField K] [FloorRing K]

/-- The local `rad` of `ComputeColor`. -/
def ComputeColor.rad (m : FloatEnv K) (fx fy : K) : K :=
  m.sqrtf (m.rnd (m.rnd (fx * fx) + m.rnd (fy * fy)))

/-- The local `a` of `ComputeColor`: the quotient by the `double` constant `M_PI` is taken
in `double` and then converted to `float`. -/
def ComputeColor.a (m : FloatEnv K) (fx fy : K) : K :=
  m.rnd (m.rndd (m.atan2f (-fy) (-fx) / m.M_PI))

/-- The local `fk` of `ComputeColor`. -/
def ComputeColor.fk (m : FloatEnv K) (s : WheelState) (fx fy : K) : K :=
  m.rnd (m.rnd (m.rnd (ComputeColor.a m fx fy + 1) / 2) * m.rnd ((s.m_ncols - 1 : Int) : K))

/-- The local `k0` of `ComputeColor`. -/
def ComputeColor.k0 (m : FloatEnv K) (s : WheelState) (fx fy : K) : Int :=
  truncToInt (ComputeColor.fk m s fx fy)

/-- The local `k1` of `ComputeColor`. -/
def ComputeColor.k1 (m : FloatEnv K) (s : WheelState) (fx fy : K) : Int :=
  Int.tmod (ComputeColor.k0 m s fx fy + 1) s.m_ncols

/-- The local `f` of `ComputeColor`. -/
def ComputeColor.f (m : FloatEnv K) (s : WheelState) (fx fy : K) : K :=
  m.rnd (ComputeColor.fk m s fx fy - m.rnd ((ComputeColor.k0 m s fx fy : Int) : K))

/-- The value of `col` after `col = (1 - f) * col0 + f * col1`, in iteration `b`. -/
def ComputeColor.interp (m : FloatEnv K) (s : WheelState) (fx fy : K) (b : Int) : K :=
  let col0 : K := m.rnd (m.rnd ((s.m_colorwheel (ComputeColor.k0 m s fx fy) b : Int) : K) / 255)
  let col1 : K := m.rnd (m.rnd ((s.m_colorwheel (ComputeColor.k1 m s fx fy) b : Int) : K) / 255)
  m.rnd (m.rnd (m.rnd (1 - ComputeColor.f m s fx fy) * col0) +
    m.rnd (ComputeColor.f m s fx fy * col1))

/-- The value of `col` after the radius adjustment, in iteration `b`. -/
def ComputeColor.col (m : FloatEnv K) (s : WheelState) (fx fy : K) (b : Int) : K :=
  let col := ComputeColor.interp m s fx fy b
  if ComputeColor.rad m fx fy ≤ 1 then
    m.rnd (1 - m.rnd (ComputeColor.rad m fx fy * m.rnd (1 - col)))
  else m.rnd (col * (3 / 4))

/-- `ComputeColor(fx, fy, pix)`: the three stores `pix[2 - b] = (int)(255.0f * col)`. -/
def ComputeColor (m : FloatEnv K) (s : WheelState) (fx fy : K) (pix : Nat → Nat) : Nat → Nat :=
  forRange 3
    (fun b p =>
      store p (2 - b) (toU8 (truncToInt (m.rnd (255 * ComputeColor.col m s fx fy (b : Int))))))
    pix

end ComputeColor

/-! ## `postProcessVectors` (`main.cpp`, lines 93-152) -/

/-- `NV_OF_FLOW_VECTOR`: two `int16_t` components in S10.5 format. -/
structure NV_OF_FLOW_VECTOR where
  flowx : Int
  flowy : Int

/-- The range of `int16_t`. -/
def isInt16 (x : Int) : Prop := -32768 ≤ x ∧ x ≤ 32767

/-- The locals of the statistics loop of `postProcessVectors`. -/
structure FlowStats (K : Type) where
  maxx : K
  maxy : K
  minx : K
  miny : K
  maxrad : K

/-- Memory that the code reads only after writing it: the fresh `new float[...]` block
and the local `pix[3]`. -/
structure Uninit (K : Type) where
  flowvec : Nat → FVal K
  pix : Nat → Nat

/-- What `postProcessVectors` can touch outside its locals: the colour-wheel globals
and the image behind `output`. -/
structure VisState where
  wheel : WheelState
  output : Nat → Nat

section PostProcess

variable {K : Type} [LinearOrderedField K] [FloorRing K]

/-- The decode loop (lines 98-105). -/
def decodeLoop (m : FloatEnv K) (_flowvectors : Nat → NV_OF_FLOW_VECTOR)
    (outwidth outheight : Nat) (flowvec : Nat → FVal K) : Nat → FVal K :=
  forRange outheight (fun y fvec =>
    forRange outwidth (fun x fvec =>
      let fvec := store fvec (u32 (u32 (u32 (y * 2) * outwidth) + u32 (2 * x)))
        (FVal.num
          (m.rnd (m.rnd ((_flowvectors (u32 (u32 (y * outwidth) + x))).flowx : K) / 32)))
      store fvec (u32 (u32 (u32 (u32 (y * 2) * outwidth) + u32 (2 * x)) + 1))
        (FVal.num
          (m.rnd (m.rnd ((_flowvectors (u32 (u32 (y * outwidth) + x))).flowy : K) / 32))))
      fvec)
    flowvec

/-- One iteration of the statistics loop (lines 116-126); `none` is the `return` of
line 120. -/
def statsStep (m : FloatEnv K) (flowvec : Nat → FVal K) (n : Nat) (st : FlowStats K) :
    Option (FlowStats K) :=
  let fx := flowvec (u32 (2 * n))
  let fy := flowvec (u32 (u32 (2 * n) + 1))
  if unknown_flow fx fy then none
  else
    let rad := m.sqrt (m.rnd (m.rnd (fx.val * fx.val) + m.rnd (fy.val * fy.val)))
    some { maxx := std_max st.maxx fx.val
           maxy := std_max st.maxy fy.val
           minx := std_min st.minx fx.val
           miny := std_min st.miny fy.val
           maxrad := std_max st.maxrad rad }

/-- The statistics loop (lines 110-127); once an iteration has returned, nothing more
runs. -/
def statsLoop (m : FloatEnv K) (flowvec : Nat → FVal K) (outwidth outheight : Nat) :
    Option (FlowStats K) :=
  forRange (u32 (outheight * outwidth))
    (fun n acc => acc.bind (statsStep m flowvec n))
    (some { maxx := -999, maxy := -999, minx := 999, miny := 999, maxrad := -1 })

/-- The value of `maxrad` after line 128; `none` when the function has returned. -/
def maxradOf (m : FloatEnv K) (flowvec : Nat → FVal K) (outwidth outheight : Nat) : Option K :=
  (statsLoop m flowvec outwidth outheight).map (fun st => std_max st.maxrad 1)

/-- The body of the colouring loop for one pixel (lines 135-145): the local `pix`. -/
def pixelOf (m : FloatEnv K) (wheel : WheelState) (maxrad : K) (fx fy : FVal K)
    (pix : Nat → Nat) : Nat → Nat :=
  if unknown_flow fx fy then store (store (store pix 2 0) 1 0) 0 0
  else ComputeColor m wheel (m.rnd (fx.val / maxrad)) (m.rnd (fy.val / maxrad)) pix

/-- One iteration of the colouring loop (lines 135-149), for row `y` and column `x`. -/
def colorStep (m : FloatEnv K) (pix0 : Nat → Nat) (wheel : WheelState) (flowvec : Nat → FVal K)
    (maxrad : K) (outwidth : Nat) (y x : Nat) (output : Nat → Nat) : Nat → Nat :=
  let fx := flowvec (u32 (u32 (u32 (y * outwidth) * 2) + u32 (2 * x)))
  let fy := flowvec (u32 (u32 (u32 (u32 (y * outwidth) * 2) + u32 (2 * x)) + 1))
  let pix := pixelOf m wheel maxrad fx fy pix0
  let out := store output (u32 (u32 (u32 (y * outwidth) * 3) + u32 (3 * x))) (pix 0)
  let out := store out (u32 (u32 (u32 (u32 (y * outwidth) * 3) + u32 (3 * x)) + 1)) (pix 1)
  store out (u32 (u32 (u32 (u32 (y * outwidth) * 3) + u32 (3 * x)) + 2)) (pix 2)

/-- The colouring loop (lines 131-151). -/
def colorLoop (m : FloatEnv K) (pix0 : Nat → Nat) (wheel : WheelState) (flowvec : Nat → FVal K)
    (maxrad : K) (outwidth outheight : Nat) (output : Nat → Nat) : Nat → Nat :=
  forRange outheight (fun y out =>
    forRange outwidth (fun x out =>
      colorStep m pix0 wheel flowvec maxrad outwidth y x out) out)
    output

/-- Lines 110-151 of `postProcessVectors`: everything after the decode loop, as a
function of the decoded array `flowvec`. -/
def postProcessDecoded (m : FloatEnv K) (pix0 : Nat → Nat) (flowvec : Nat → FVal K)
    (outwidth outheight : Nat) (st : VisState) : VisState :=
  match maxradOf m flowvec outwidth outheight with
  | none => st
  | some maxrad =>
    { st with
      output := colorLoop m pix0 st.wheel flowvec maxrad outwidth outheight st.output }

/-- `postProcessVectors(_flowvectors, output, outwidth, outheight)`. -/
def postProcessVectors (m : FloatEnv K) (u : Uninit K) (_flowvectors : Nat → NV_OF_FLOW_VECTOR)
    (outwidth outheight : Nat) (st : VisState) : VisState :=
  postProcessDecoded m u.pix (decodeLoop m _flowvectors outwidth outheight u.flowvec)
    outwidth outheight st

end PostProcess

/-! ## Named values used in the statements -/

section Cells

variable {K : Type} [LinearOrderedField K] [FloorRing K]

/-- The value the decode loop stores at position `j` of `flowvec`: component `j % 2` of
vector `j / 2`, converted to `float` and divided by 32. -/
def decodedCell (m : FloatEnv K) (_flowvectors : Nat → NV_OF_FLOW_VECTOR) (j : Nat) : FVal K :=
  if j % 2 = 0 then FVal.num (m.rnd (m.rnd ((_flowvectors (j / 2)).flowx : K) / 32))
  else FVal.num (m.rnd (m.rnd ((_flowvectors (j / 2)).flowy : K) / 32))

/-- Whether vector `n` of the decoded field is classified unknown. -/
def unknownAt (flowvec : Nat → FVal K) (n : Nat) : Bool :=
  unknown_flow (flowvec (2 * n)) (flowvec (2 * n + 1))

/-- The radius `sqrt(fx * fx + fy * fy)` of vector `n` of the decoded field. -/
def radAt (m : FloatEnv K) (flowvec : Nat → FVal K) (n : Nat) : K :=
  m.sqrt (m.rnd (m.rnd ((flowvec (2 * n)).val * (flowvec (2 * n)).val) +
    m.rnd ((flowvec (2 * n + 1)).val * (flowvec (2 * n + 1)).val)))

/-- The byte the colouring loop stores at position `j` of the image: entry `j % 3` of the
`pix` computed for vector `j / 3`. -/
def imageByte (m : FloatEnv K) (pix0 : Nat → Nat) (wheel : WheelState) (flowvec : Nat → FVal K)
    (maxrad : K) (j : Nat) : Nat :=
  pixelOf m wheel maxrad (flowvec (2 * (j / 3))) (flowvec (2 * (j / 3) + 1)) pix0 (j % 3)

/-- A number a binary32 `float` holds exactly: `mant * 2 ^ e` with a 24-bit significand
and an exponent in the binary32 range. -/
def isBinary32 (q : K) : Prop :=
  ∃ mant e : Int, |mant| < 16777216 ∧ -149 ≤ e ∧ e ≤ 104 ∧ q = (mant : K) * (2 : K) ^ e

/-- The rounding to `float` leaves a number that a `float` holds exactly as it is. -/
def RoundsToFloat (m : FloatEnv K) : Prop := ∀ q : K, isBinary32 q → m.rnd q = q

end Cells

/-- Exact arithmetic: nothing is rounded, and the library functions are the real square
root, the two-argument arctangent (the argument of `x + y i`, in `(-π, π]`) and the
number π. -/
def IsExact (m : FloatEnv ℝ) : Prop :=
  (∀ x : ℝ, m.rnd x = x) ∧ (∀ x : ℝ, m.rndd x = x) ∧
    m.sqrt = Real.sqrt ∧ m.sqrtf = Real.sqrt ∧
    (∀ y x : ℝ, m.atan2f y x = Complex.arg (Complex.mk x y)) ∧ m.M_PI = Real.pi

section FieldValues

variable {K : Type} [LinearOrderedField K] [FloorRing K]

/-- The radius of raw vector `n`: `sqrt(fx * fx + fy * fy)` as the statistics loop
computes it, with `fx`, `fy` the raw components divided by 32. -/
def fieldRadius (m : FloatEnv K) (_flowvectors : Nat → NV_OF_FLOW_VECTOR) (n : Nat) : K :=
  m.sqrt (m.rnd
    (m.rnd ((((_flowvectors n).flowx : K) / 32) * (((_flowvectors n).flowx : K) / 32)) +
      m.rnd ((((_flowvectors n).flowy : K) / 32) * (((_flowvectors n).flowy : K) / 32))))

/-- The maximum of 1 and the radii of the `w * h` raw vectors. -/
def fieldMaxrad (m : FloatEnv K) (_flowvectors : Nat → NV_OF_FLOW_VECTOR) (w h : Nat) : K :=
  ((List.range (w * h)).map (fieldRadius m _flowvectors)).foldl max 1

/-- Entry `j % 3` of the pixel `ComputeColor` produces for raw vector `j / 3`, decoded and
divided by the maximal radius. -/
def fieldByte (m : FloatEnv K) (wheel : WheelState) (_flowvectors : Nat → NV_OF_FLOW_VECTOR)
    (w h : Nat) (j : Nat) : Nat :=
  ComputeColor m wheel
    (m.rnd ((((_flowvectors (j / 3)).flowx : K) / 32) / fieldMaxrad m _flowvectors w h))
    (m.rnd ((((_flowvectors (j / 3)).flowy : K) / 32) / fieldMaxrad m _flowvectors w h))
    (fun _ => 0) (j % 3)

end FieldValues

/-! ## The driver interface (`nvOpticalFlowCommon.h`, `flowvec.h`, `flowvec.cpp`)

The optical-flow driver, the CUDA driver and the dynamic loader are external.  Every
call to them is recorded, in order, in a trace of `DriverOp`; what a call returns is
given by an oracle (`Driver`) that sees the trace so far.  Handles, streams and
pointers are numbers, 0 being the null pointer. -/

/-- `NV_OF_STATUS`. -/
inductive NV_OF_STATUS where
  | NV_OF_SUCCESS
  | NV_OF_ERR_OF_NOT_AVAILABLE
  | NV_OF_ERR_UNSUPPORTED_DEVICE
  | NV_OF_ERR_DEVICE_DOES_NOT_EXIST
  | NV_OF_ERR_INVALID_PTR
  | NV_OF_ERR_INVALID_PARAM
  | NV_OF_ERR_INVALID_CALL
  | NV_OF_ERR_INVALID_VERSION
  | NV_OF_ERR_OUT_OF_MEMORY
  | NV_OF_ERR_NOT_INITIALIZED
  | NV_OF_ERR_UNSUPPORTED_FEATURE
  | NV_OF_ERR_GENERIC
  deriving DecidableEq

/-- `NV_OF_BUFFER_USAGE`. -/
inductive NV_OF_BUFFER_USAGE where
  | NV_OF_BUFFER_USAGE_UNDEFINED
  | NV_OF_BUFFER_USAGE_INPUT
  | NV_OF_BUFFER_USAGE_OUTPUT
  | NV_OF_BUFFER_USAGE_HINT
  | NV_OF_BUFFER_USAGE_COST
  | NV_OF_BUFFER_USAGE_GLOBAL_FLOW
  | NV_OF_BUFFER_USAGE_MAX
  deriving DecidableEq

/-- `NV_OF_BUFFER_FORMAT`. -/
inductive NV_OF_BUFFER_FORMAT where
  | NV_OF_BUFFER_FORMAT_UNDEFINED
  | NV_OF_BUFFER_FORMAT_GRAYSCALE8
  | NV_OF_BUFFER_FORMAT_NV12
  | NV_OF_BUFFER_FORMAT_ABGR8
  | NV_OF_BUFFER_FORMAT_SHORT
  | NV_OF_BUFFER_FORMAT_SHORT2
  | NV_OF_BUFFER_FORMAT_UINT
  | NV_OF_BUFFER_FORMAT_UINT8
  | NV_OF_BUFFER_FORMAT_MAX
  deriving DecidableEq

/-- `NV_OF_BUFFER_DESCRIPTOR`. -/
structure NV_OF_BUFFER_DESCRIPTOR where
  width : Nat
  height : Nat
  bufferUsage : NV_OF_BUFFER_USAGE
  bufferFormat : NV_OF_BUFFER_FORMAT
  deriving DecidableEq

/-- Entry 0 of the `strideInfo` array of `NV_OF_CUDA_BUFFER_STRIDE_INFO`, the only part
of it the code reads. -/
structure NV_OF_CUDA_BUFFER_STRIDE_INFO where
  strideXInBytes : Nat
  strideYInBytes : Nat
  deriving DecidableEq

/-- `CUmemorytype`; `unset` is the value left by `memset(&cuCopy2d, 0, ...)`. -/
inductive CUmemorytype where
  | unset
  | CU_MEMORYTYPE_HOST
  | CU_MEMORYTYPE_DEVICE
  deriving DecidableEq

/-- `CUDA_MEMCPY2D`, without the two array members, which the code leaves null. -/
structure CUDA_MEMCPY2D where
  srcXInBytes : Nat
  srcY : Nat
  srcMemoryType : CUmemorytype
  srcHost : Nat
  srcDevice : Nat
  srcPitch : Nat
  dstXInBytes : Nat
  dstY : Nat
  dstMemoryType : CUmemorytype
  dstHost : Nat
  dstDevice : Nat
  dstPitch : Nat
  WidthInBytes : Nat
  Height : Nat
  deriving DecidableEq

/-- The structure after `memset(&cuCopy2d, 0, sizeof(cuCopy2d))`. -/
def CUDA_MEMCPY2D.zero : CUDA_MEMCPY2D :=
  { srcXInBytes := 0, srcY := 0, srcMemoryType := CUmemorytype.unset, srcHost := 0,
    srcDevice := 0, srcPitch := 0, dstXInBytes := 0, dstY := 0,
    dstMemoryType := CUmemorytype.unset, dstHost := 0, dstDevice := 0, dstPitch := 0,
    WidthInBytes := 0, Height := 0 }

/-- `NvOFException`: the status it carries (the message text is not modelled). -/
structure NvOFException where
  m_errorCode : NV_OF_STATUS
  deriving DecidableEq

/-- A call to the loader, to the optical-flow driver or to the CUDA driver. -/
inductive DriverOp where
  | dlopen
  | dlsymCreateInstanceCuda
  | dlsymGetMaxSupportedApiVersion
  | NvOFGetMaxSupportedApiVersion
  | NvOFAPICreateInstanceCuda (apiVer : Nat)
  | nvCreateOpticalFlowCuda (ctx : Nat)
  | nvOFSetIOCudaStreams (handle input output : Nat)
  | nvOFInit (handle : Nat)
  | nvOFCreateGPUBufferCuda (handle : Nat) (desc : NV_OF_BUFFER_DESCRIPTOR)
  | nvOFGPUBufferGetCUdeviceptr (buffer : Nat)
  | nvOFGPUBufferGetStrideInfo (buffer : Nat)
  | nvOFExecute (handle inputFrame referenceFrame outputBuffer : Nat)
  | nvOFDestroyGPUBufferCuda (buffer : Nat)
  | nvOFDestroy (handle : Nat)
  | cuMemcpy2DAsync (p : CUDA_MEMCPY2D) (stream : Nat)
  | cuStreamSynchronize (stream : Nat)
  deriving DecidableEq

/-- What the external calls return, given the calls made so far.  A `CUresult` is a
number, 0 being `CUDA_SUCCESS`; a pointer or handle is a number, 0 being null. -/
structure Driver where
  dlopen : List DriverOp → Nat
  dlsymCreateInstanceCuda : List DriverOp → Nat
  dlsymGetMaxSupportedApiVersion : List DriverOp → Nat
  maxSupportedApiVersion : List DriverOp → Nat
  createInstanceCuda : List DriverOp → Nat → NV_OF_STATUS
  createOpticalFlowCuda : List DriverOp → Nat → NV_OF_STATUS × Nat
  setIOCudaStreams : List DriverOp → Nat → Nat → Nat → NV_OF_STATUS
  init : List DriverOp → Nat → NV_OF_STATUS
  createGPUBufferCuda : List DriverOp → Nat → NV_OF_BUFFER_DESCRIPTOR → NV_OF_STATUS × Nat
  getCUdeviceptr : List DriverOp → Nat → Nat
  getStrideInfo : List DriverOp → Nat → NV_OF_STATUS × NV_OF_CUDA_BUFFER_STRIDE_INFO
  execute : List DriverOp → Nat → Nat → Nat → Nat → NV_OF_STATUS
  destroyGPUBufferCuda : List DriverOp → Nat → NV_OF_STATUS
  destroy : List DriverOp → Nat → NV_OF_STATUS
  memcpy2DAsync : List DriverOp → CUDA_MEMCPY2D → Nat → Nat
  streamSynchronize : List DriverOp → Nat → Nat

/-- How a function ends: it returns a value, it leaves by a thrown `NvOFException`, or
its behaviour is undefined (a call through a null pointer). -/
inductive Outcome (α : Type) where
  | returned (a : α) : Outcome α
  | thrown (e : NvOFException) : Outcome α
  | undefined : Outcome α

/-- The state of `API::nvofFuncList`: a null `unique_ptr`, a value-initialised table whose
entries are all null, or a table filled by `NvOFAPICreateInstanceCuda`. -/
inductive FunctionList where
  | null
  | unbound
  | bound
  deriving DecidableEq

/-- The members of `class API`. -/
structure API where
  libHandle : Nat
  nvofFuncList : FunctionList
  ctx : Nat
  inputFrame : Nat
  outputFrame : Nat
  handle : Nat
  deriving DecidableEq

/-- The members of `class NvOFCudaBuffer`, apart from the pointer `apihandler`, which is
passed along as an `API`. -/
structure NvOFCudaBuffer where
  m_width : Nat
  m_elementSize : Nat
  m_height : Nat
  m_eBufUsage : NV_OF_BUFFER_USAGE
  m_eBufFmt : NV_OF_BUFFER_FORMAT
  m_hGPUBuffer : Nat
  m_devicePtr : Nat
  m_strideInfo : NV_OF_CUDA_BUFFER_STRIDE_INFO
  deriving DecidableEq

/-- Reduction of a `uint16_t` value modulo `2 ^ 16`. -/
def u16 (n : Nat) : Nat := n % 65536

/-- Reduction of a `size_t` expression modulo `2 ^ 64`. -/
def u64 (n : Nat) : Nat := n % 18446744073709551616

/-- `NV_OF_API_VERSION`, that is `(uint16_t)((5 << 4) | 0)`. -/
def NV_OF_API_VERSION : Nat := u16 ((5 <<< 4) ||| 0)

/-- `H_BUFF`. -/
def H_BUFF : Int := 1080

/-- `W_BUFF`. -/
def W_BUFF : Int := 1920

/-- `calculateOutputDimensions(outwidth, outheight)` for the value `gridsize` of the global:
the pair `(outwidth, outheight)`; the `int` quotients are converted to `uint32_t`.  A
division by zero has no defined result: `none`. -/
def calculateOutputDimensions (gridsize : Nat) : Option (Nat × Nat) :=
  if gridsize = 0 then none
  else
    let outheight := ((Int.tdiv H_BUFF (gridsize : Int)) % 4294967296).toNat
    let outwidth := ((Int.tdiv W_BUFF (gridsize : Int)) % 4294967296).toNat
    some (outwidth, outheight)

/-- `API::getAPI()`: the pointer held by `nvofFuncList`. -/
def API.getAPI (api : API) : FunctionList := api.nvofFuncList

/-- `API::getCudaStream(use)`. -/
def API.getCudaStream (api : API) (use : NV_OF_BUFFER_USAGE) : Nat :=
  if use = NV_OF_BUFFER_USAGE.NV_OF_BUFFER_USAGE_INPUT then api.inputFrame
  else api.outputFrame

/-- `NvOFCudaBuffer::UploadData(data)`, from trace `tr` on: the trace afterwards and how
the call ends.  `CUDA_DRVAPI_CALL` throws `NV_OF_ERR_GENERIC` on a non-zero result. -/
def NvOFCudaBuffer.UploadData (drv : Driver) (api : API) (buf : NvOFCudaBuffer)
    (data : Nat) (tr : List DriverOp) : List DriverOp × Outcome Unit :=
  let stream := api.getCudaStream buf.m_eBufUsage
  let c : CUDA_MEMCPY2D := CUDA_MEMCPY2D.zero
  let c := { c with WidthInBytes := u32 (buf.m_width * buf.m_elementSize) }
  let c := { c with srcMemoryType := CUmemorytype.CU_MEMORYTYPE_HOST }
  let c := { c with srcHost := data }
  let c := { c with srcPitch := c.WidthInBytes }
  let c := { c with dstMemoryType := CUmemorytype.CU_MEMORYTYPE_DEVICE }
  let c := { c with dstDevice := buf.m_devicePtr }
  let c := { c with dstPitch := buf.m_strideInfo.strideXInBytes }
  let c := { c with Height := buf.m_height }
  let tr1 := tr ++ [DriverOp.cuMemcpy2DAsync c stream]
  if drv.memcpy2DAsync tr c stream ≠ 0 then
    (tr1, Outcome.thrown { m_errorCode := NV_OF_STATUS.NV_OF_ERR_GENERIC })
  else if buf.m_eBufFmt = NV_OF_BUFFER_FORMAT.NV_OF_BUFFER_FORMAT_NV12 then
    let c := { c with Height := u32 (buf.m_height + 1) / 2 }
    let c := { c with srcHost := u64 (data + u64 (c.srcPitch * c.Height)) }
    let c := { c with dstY := buf.m_strideInfo.strideYInBytes }
    let tr2 := tr1 ++ [DriverOp.cuMemcpy2DAsync c stream]
    if drv.memcpy2DAsync tr1 c stream ≠ 0 then
      (tr2, Outcome.thrown { m_errorCode := NV_OF_STATUS.NV_OF_ERR_GENERIC })
    else (tr2, Outcome.returned ())
  else (tr1, Outcome.returned ())

/-- `NvOFCudaBuffer::DownloadData(data)`, from trace `tr` on. -/
def NvOFCudaBuffer.DownloadData (drv : Driver) (api : API) (buf : NvOFCudaBuffer)
    (data : Nat) (tr : List DriverOp) : List DriverOp × Outcome Unit :=
  let stream := api.getCudaStream buf.m_eBufUsage
  let c : CUDA_MEMCPY2D := CUDA_MEMCPY2D.zero
  let c := { c with WidthInBytes := u32 (buf.m_width * buf.m_elementSize) }
  let c := { c with dstMemoryType := CUmemorytype.CU_MEMORYTYPE_HOST }
  let c := { c with dstHost := data }
  let c := { c with dstPitch := c.WidthInBytes }
  let c := { c with srcMemoryType := CUmemorytype.CU_MEMORYTYPE_DEVICE }
  let c := { c with srcDevice := buf.m_devicePtr }
  let c := { c with srcPitch := buf.m_strideInfo.strideXInBytes }
  let c := { c with
    Height :=
      if buf.m_eBufFmt = NV_OF_BUFFER_FORMAT.NV_OF_BUFFER_FORMAT_NV12 then
        u32 (buf.m_height + buf.m_height / 2)
      else buf.m_height }
  let tr1 := tr ++ [DriverOp.cuMemcpy2DAsync c stream]
  if drv.memcpy2DAsync tr c stream ≠ 0 then
    (tr1, Outcome.thrown { m_errorCode := NV_OF_STATUS.NV_OF_ERR_GENERIC })
  else if buf.m_eBufFmt = NV_OF_BUFFER_FORMAT.NV_OF_BUFFER_FORMAT_NV12 then
    let c := { c with Height := u32 (buf.m_height + 1) / 2 }
    let c := { c with dstHost := u64 (data + u64 (c.dstPitch * c.Height)) }
    let c := { c with srcY := buf.m_strideInfo.strideYInBytes }
    let tr2 := tr1 ++ [DriverOp.cuMemcpy2DAsync c stream]
    if drv.memcpy2DAsync tr1 c stream ≠ 0 then
      (tr2, Outcome.thrown { m_errorCode := NV_OF_STATUS.NV_OF_ERR_GENERIC })
    else
      let tr3 := tr2 ++ [DriverOp.cuStreamSynchronize stream]
      if drv.streamSynchronize tr2 stream ≠ 0 then
        (tr3, Outcome.thrown { m_errorCode := NV_OF_STATUS.NV_OF_ERR_GENERIC })
      else (tr3, Outcome.returned ())
  else
    let tr3 := tr1 ++ [DriverOp.cuStreamSynchronize stream]
    if drv.streamSynchronize tr1 stream ≠ 0 then
      (tr3, Outcome.thrown { m_errorCode := NV_OF_STATUS.NV_OF_ERR_GENERIC })
    else (tr3, Outcome.returned ())

/-- The constructor `NvOFCudaBuffer(api, desc)`, from trace `tr` on.  The member
`m_elementSize` has no initialiser: `junkElementSize` is what its storage holds when the
body starts.  `NVOF_API_CALL` throws the status it gets when it is not `NV_OF_SUCCESS`. -/
def NvOFCudaBuffer.ctor (drv : Driver) (api : API) (desc : NV_OF_BUFFER_DESCRIPTOR)
    (junkElementSize : Nat) (tr : List DriverOp) : List DriverOp × Outcome NvOFCudaBuffer :=
  match api.getAPI with
  | FunctionList.null => (tr, Outcome.undefined)
  | FunctionList.unbound => (tr, Outcome.undefined)
  | FunctionList.bound =>
    let created := drv.createGPUBufferCuda tr api.handle desc
    let tr1 := tr ++ [DriverOp.nvOFCreateGPUBufferCuda api.handle desc]
    if created.1 ≠ NV_OF_STATUS.NV_OF_SUCCESS then
      (tr1, Outcome.thrown { m_errorCode := created.1 })
    else
      let m_hGPUBuffer := created.2
      let m_devicePtr := drv.getCUdeviceptr tr1 m_hGPUBuffer
      let tr2 := tr1 ++ [DriverOp.nvOFGPUBufferGetCUdeviceptr m_hGPUBuffer]
      let stride := drv.getStrideInfo tr2 m_hGPUBuffer
      let tr3 := tr2 ++ [DriverOp.nvOFGPUBufferGetStrideInfo m_hGPUBuffer]
      if stride.1 ≠ NV_OF_STATUS.NV_OF_SUCCESS then
        (tr3, Outcome.thrown { m_errorCode := stride.1 })
      else
        let m_elementSize :=
          if desc.bufferFormat = NV_OF_BUFFER_FORMAT.NV_OF_BUFFER_FORMAT_ABGR8 then 4
          else if desc.bufferFormat = NV_OF_BUFFER_FORMAT.NV_OF_BUFFER_FORMAT_SHORT2 then 4
          else if desc.bufferFormat = NV_OF_BUFFER_FORMAT.NV_OF_BUFFER_FORMAT_NV12 then 1
          else junkElementSize
        (tr3, Outcome.returned
          { m_width := desc.width
            m_elementSize := m_elementSize
            m_height := desc.height
            m_eBufUsage := desc.bufferUsage
            m_eBufFmt := desc.bufferFormat
            m_hGPUBuffer := m_hGPUBuffer
            m_devicePtr := m_devicePtr
            m_strideInfo := stride.2 })

/-- `NvOFCudaBuffer::getElementSize()`. -/
def NvOFCudaBuffer.getElementSize (buf : NvOFCudaBuffer) : Nat := buf.m_elementSize

/-- How the `try` block of the constructor `API::API` is left. -/
inductive TryExit where
  | completed
  | threw (e : NvOFException)
  | undefined
  deriving DecidableEq

/-- The `try` block of `API::API(context, input, output)` (lines 12-35), from trace `tr`
on: the trace afterwards, the members when the block is left, and how it is left.  The
members `libHandle` and `handle` have no initialiser: `junkLib` and `junkHandle` are what
their storage holds at the start. -/
def API.tryBlock (drv : Driver) (context input output : Nat) (junkLib junkHandle : Nat)
    (tr : List DriverOp) : List DriverOp × API × TryExit :=
  let api : API :=
    { libHandle := junkLib, nvofFuncList := FunctionList.null, ctx := context,
      inputFrame := input, outputFrame := output, handle := junkHandle }
  let nvofhandle := drv.dlopen tr
  let tr1 := tr ++ [DriverOp.dlopen]
  if nvofhandle = 0 then
    (tr1, api, TryExit.threw { m_errorCode := NV_OF_STATUS.NV_OF_ERR_OF_NOT_AVAILABLE })
  else
    let api := { api with libHandle := nvofhandle }
    let NvOFAPICreateInstanceCuda := drv.dlsymCreateInstanceCuda tr1
    let tr2 := tr1 ++ [DriverOp.dlsymCreateInstanceCuda]
    let NvOFGetMaxSupportedApiVersion := drv.dlsymGetMaxSupportedApiVersion tr2
    let tr3 := tr2 ++ [DriverOp.dlsymGetMaxSupportedApiVersion]
    if NvOFAPICreateInstanceCuda = 0 then
      (tr3, api, TryExit.threw { m_errorCode := NV_OF_STATUS.NV_OF_ERR_OF_NOT_AVAILABLE })
    else
      let api := { api with nvofFuncList := FunctionList.unbound }
      if NvOFGetMaxSupportedApiVersion = 0 then (tr3, api, TryExit.undefined)
      else
        let version := u32 (drv.maxSupportedApiVersion tr3)
        let tr4 := tr3 ++ [DriverOp.NvOFGetMaxSupportedApiVersion]
        let status := drv.createInstanceCuda tr4 version
        let tr5 := tr4 ++ [DriverOp.NvOFAPICreateInstanceCuda version]
        if status ≠ NV_OF_STATUS.NV_OF_SUCCESS then
          (tr5, api, TryExit.threw { m_errorCode := status })
        else
          let api := { api with nvofFuncList := FunctionList.bound }
          let session := drv.createOpticalFlowCuda tr5 api.ctx
          let tr6 := tr5 ++ [DriverOp.nvCreateOpticalFlowCuda api.ctx]
          if session.1 ≠ NV_OF_STATUS.NV_OF_SUCCESS then
            (tr6, api, TryExit.threw { m_errorCode := session.1 })
          else
            let api := { api with handle := session.2 }
            let status := drv.setIOCudaStreams tr6 api.handle api.inputFrame api.outputFrame
            let tr7 := tr6 ++
              [DriverOp.nvOFSetIOCudaStreams api.handle api.inputFrame api.outputFrame]
            if status ≠ NV_OF_STATUS.NV_OF_SUCCESS then
              (tr7, api, TryExit.threw { m_errorCode := status })
            else (tr7, api, TryExit.completed)

/-- The constructor `API::API(context, input, output)`: the `try` block followed by the
handler `catch (const std::exception& e)`, which prints the message and falls through to
the end of the constructor.  The result holds the object and the exception the handler
caught, if any. -/
def API.ctor (drv : Driver) (context input output : Nat) (junkLib junkHandle : Nat)
    (tr : List DriverOp) : List DriverOp × Outcome (API × Option NvOFException) :=
  match API.tryBlock drv context input output junkLib junkHandle tr with
  | (tr1, api, TryExit.completed) => (tr1, Outcome.returned (api, none))
  | (tr1, api, TryExit.threw e) => (tr1, Outcome.returned (api, some e))
  | (tr1, _, TryExit.undefined) => (tr1, Outcome.undefined)

/-- The statement `NVOF_API_CALL(nvofobj->getAPI()->nvOFInit(nvofobj->getHandle(),
&initparams))` of `calculateFlow` (line 244), from trace `tr` on.  A call through a null
table pointer, or through the null entry of a table that was never filled, is undefined. -/
def nvOFInitCall (drv : Driver) (nvofobj : API) (tr : List DriverOp) :
    List DriverOp × Outcome Unit :=
  match nvofobj.getAPI with
  | FunctionList.null => (tr, Outcome.undefined)
  | FunctionList.unbound => (tr, Outcome.undefined)
  | FunctionList.bound =>
    let status := drv.init tr nvofobj.handle
    let tr1 := tr ++ [DriverOp.nvOFInit nvofobj.handle]
    if status ≠ NV_OF_STATUS.NV_OF_SUCCESS then (tr1, Outcome.thrown { m_errorCode := status })
    else (tr1, Outcome.returned ())

/-- The start of `calculateFlow` (lines 239-244): `new API(cuContext, instream, outstream)`
followed by the call of `nvOFInit`; `initializeOFParameters` in between calls nothing.  The
result is the object `nvofobj` when both steps return. -/
def calculateFlowInit (drv : Driver) (cuContext instream outstream : Nat)
    (junkLib junkHandle : Nat) (tr : List DriverOp) : List DriverOp × Outcome API :=
  match API.ctor drv cuContext instream outstream junkLib junkHandle tr with
  | (tr1, Outcome.returned (nvofobj, _)) =>
    match nvOFInitCall drv nvofobj tr1 with
    | (tr2, Outcome.returned _) => (tr2, Outcome.returned nvofobj)
    | (tr2, Outcome.thrown e) => (tr2, Outcome.thrown e)
    | (tr2, Outcome.undefined) => (tr2, Outcome.undefined)
  | (tr1, Outcome.thrown e) => (tr1, Outcome.thrown e)
  | (tr1, Outcome.undefined) => (tr1, Outcome.undefined)

/-! ## Memory and the effect of a 2D copy -/

/-- Host memory and device memory, as arrays of bytes indexed by address. -/
structure Mem where
  host : Nat → Nat
  device : Nat → Nat

/-- The copy of `rows` rows of `width` bytes from array `src` to array `dst`, byte `b` of
row `r` going from address `srcAddr r b` to address `dstAddr r b`, rows in order. -/
def copyRows (rows width : Nat) (dstAddr srcAddr : Nat → Nat → Nat) (src dst : Nat → Nat) :
    Nat → Nat :=
  forRange rows (fun r d =>
    forRange width (fun b d => store d (dstAddr r b) (src (srcAddr r b))) d) dst

/-- Modelled from the spec: the effect of the copy `cuMemcpy2DAsync` requests (the CUDA
driver is not part of the repository), memory being byte arrays: byte `b` of row `r` goes
from `src + (srcY + r) * srcPitch + srcXInBytes + b` to
`dst + (dstY + r) * dstPitch + dstXInBytes + b`, for `Height` rows of `WidthInBytes`
bytes, between host and device memory as the two memory types say. -/
def execCopy (p : CUDA_MEMCPY2D) (mem : Mem) : Mem :=
  match p.srcMemoryType, p.dstMemoryType with
  | CUmemorytype.CU_MEMORYTYPE_HOST, CUmemorytype.CU_MEMORYTYPE_DEVICE =>
    { mem with
      device := copyRows p.Height p.WidthInBytes
        (fun r b => p.dstDevice + (p.dstY + r) * p.dstPitch + p.dstXInBytes + b)
        (fun r b => p.srcHost + (p.srcY + r) * p.srcPitch + p.srcXInBytes + b)
        mem.host mem.device }
  | CUmemorytype.CU_MEMORYTYPE_DEVICE, CUmemorytype.CU_MEMORYTYPE_HOST =>
    { mem with
      host := copyRows p.Height p.WidthInBytes
        (fun r b => p.dstHost + (p.dstY + r) * p.dstPitch + p.dstXInBytes + b)
        (fun r b => p.srcDevice + (p.srcY + r) * p.srcPitch + p.srcXInBytes + b)
        mem.device mem.host }
  | _, _ => mem

/-- Modelled from the spec: the effect on memory of a trace of calls, the copies executed
in submission order; the other calls leave memory as it is. -/
def execOps (ops : List DriverOp) (mem : Mem) : Mem :=
  ops.foldl (fun acc op =>
    match op with
    | DriverOp.cuMemcpy2DAsync p _ => execCopy p acc
    | _ => acc) mem

/-- The copies of a trace, in order, each with its stream. -/
def copiesOf (ops : List DriverOp) : List (CUDA_MEMCPY2D × Nat) :=
  ops.filterMap (fun op =>
    match op with
    | DriverOp.cuMemcpy2DAsync p s => some (p, s)
    | _ => none)

/-- The copy with source and destination exchanged. -/
def CUDA_MEMCPY2D.swapEnds (p : CUDA_MEMCPY2D) : CUDA_MEMCPY2D :=
  { srcXInBytes := p.dstXInBytes, srcY := p.dstY, srcMemoryType := p.dstMemoryType,
    srcHost := p.dstHost, srcDevice := p.dstDevice, srcPitch := p.dstPitch,
    dstXInBytes := p.srcXInBytes, dstY := p.srcY, dstMemoryType := p.srcMemoryType,
    dstHost := p.srcHost, dstDevice := p.srcDevice, dstPitch := p.srcPitch,
    WidthInBytes := p.WidthInBytes, Height := p.Height }

/-- A driver on a host where the library loads, both entry points are found and every
call succeeds; it reports `version` as its largest supported version and `stride` for
every buffer, and hands out the handle 1 and the device pointer 4096. -/
def goodDriver (version : Nat) (stride : NV_OF_CUDA_BUFFER_STRIDE_INFO) : Driver :=
  { dlopen := fun _ => 1
    dlsymCreateInstanceCuda := fun _ => 1
    dlsymGetMaxSupportedApiVersion := fun _ => 1
    maxSupportedApiVersion := fun _ => version
    createInstanceCuda := fun _ _ => NV_OF_STATUS.NV_OF_SUCCESS
    createOpticalFlowCuda := fun _ _ => (NV_OF_STATUS.NV_OF_SUCCESS, 1)
    setIOCudaStreams := fun _ _ _ _ => NV_OF_STATUS.NV_OF_SUCCESS
    init := fun _ _ => NV_OF_STATUS.NV_OF_SUCCESS
    createGPUBufferCuda := fun _ _ _ => (NV_OF_STATUS.NV_OF_SUCCESS, 1)
    getCUdeviceptr := fun _ _ => 4096
    getStrideInfo := fun _ _ => (NV_OF_STATUS.NV_OF_SUCCESS, stride)
    execute := fun _ _ _ _ _ => NV_OF_STATUS.NV_OF_SUCCESS
    destroyGPUBufferCuda := fun _ _ => NV_OF_STATUS.NV_OF_SUCCESS
    destroy := fun _ _ => NV_OF_STATUS.NV_OF_SUCCESS
    memcpy2DAsync := fun _ _ _ => 0
    streamSynchronize := fun _ _ => 0 }

/-! ## The copies `UploadData` and `DownloadData` request -/

/-- The parameters of the first copy of `UploadData(data)`. -/
def NvOFCudaBuffer.uploadFirst (buf : NvOFCudaBuffer) (data : Nat) : CUDA_MEMCPY2D :=
  { srcXInBytes := 0, srcY := 0, srcMemoryType := CUmemorytype.CU_MEMORYTYPE_HOST,
    srcHost := data, srcDevice := 0, srcPitch := u32 (buf.m_width * buf.m_elementSize),
    dstXInBytes := 0, dstY := 0, dstMemoryType := CUmemorytype.CU_MEMORYTYPE_DEVICE,
    dstHost := 0, dstDevice := buf.m_devicePtr, dstPitch := buf.m_strideInfo.strideXInBytes,
    WidthInBytes := u32 (buf.m_width * buf.m_elementSize), Height := buf.m_height }

/-- The parameters of the second copy of `UploadData(data)`, requested for NV12 only. -/
def NvOFCudaBuffer.uploadSecond (buf : NvOFCudaBuffer) (data : Nat) : CUDA_MEMCPY2D :=
  { srcXInBytes := 0, srcY := 0, srcMemoryType := CUmemorytype.CU_MEMORYTYPE_HOST,
    srcHost :=
      u64 (data + u64 (u32 (buf.m_width * buf.m_elementSize) * (u32 (buf.m_height + 1) / 2))),
    srcDevice := 0, srcPitch := u32 (buf.m_width * buf.m_elementSize),
    dstXInBytes := 0, dstY := buf.m_strideInfo.strideYInBytes,
    dstMemoryType := CUmemorytype.CU_MEMORYTYPE_DEVICE,
    dstHost := 0, dstDevice := buf.m_devicePtr, dstPitch := buf.m_strideInfo.strideXInBytes,
    WidthInBytes := u32 (buf.m_width * buf.m_elementSize),
    Height := u32 (buf.m_height + 1) / 2 }

/-- The parameters of the first copy of `DownloadData(data)`. -/
def NvOFCudaBuffer.downloadFirst (buf : NvOFCudaBuffer) (data : Nat) : CUDA_MEMCPY2D :=
  { srcXInBytes := 0, srcY := 0, srcMemoryType := CUmemorytype.CU_MEMORYTYPE_DEVICE,
    srcHost := 0, srcDevice := buf.m_devicePtr, srcPitch := buf.m_strideInfo.strideXInBytes,
    dstXInBytes := 0, dstY := 0, dstMemoryType := CUmemorytype.CU_MEMORYTYPE_HOST,
    dstHost := data, dstDevice := 0, dstPitch := u32 (buf.m_width * buf.m_elementSize),
    WidthInBytes := u32 (buf.m_width * buf.m_elementSize),
    Height :=
      if buf.m_eBufFmt = NV_OF_BUFFER_FORMAT.NV_OF_BUFFER_FORMAT_NV12 then
        u32 (buf.m_height + buf.m_height / 2)
      else buf.m_height }

/-- The parameters of the second copy of `DownloadData(data)`, requested for NV12 only. -/
def NvOFCudaBuffer.downloadSecond (buf : NvOFCudaBuffer) (data : Nat) : CUDA_MEMCPY2D :=
  { srcXInBytes := 0, srcY := buf.m_strideInfo.strideYInBytes,
    srcMemoryType := CUmemorytype.CU_MEMORYTYPE_DEVICE,
    srcHost := 0, srcDevice := buf.m_devicePtr, srcPitch := buf.m_strideInfo.strideXInBytes,
    dstXInBytes := 0, dstY := 0, dstMemoryType := CUmemorytype.CU_MEMORYTYPE_HOST,
    dstHost :=
      u64 (data + u64 (u32 (buf.m_width * buf.m_elementSize) * (u32 (buf.m_height + 1) / 2))),
    dstDevice := 0, dstPitch := u32 (buf.m_width * buf.m_elementSize),
    WidthInBytes := u32 (buf.m_width * buf.m_elementSize),
    Height := u32 (buf.m_height + 1) / 2 }

/-! ## `calculateFlow` (`main.cpp`, lines 174-202 and 237-282) -/

/-- The destructor `~NvOFCudaBuffer()`, from trace `tr` on. -/
def NvOFCudaBuffer.dtor (drv : Driver) (api : API) (buf : NvOFCudaBuffer)
    (tr : List DriverOp) : List DriverOp × Outcome Unit :=
  if buf.m_hGPUBuffer ≠ 0 then
    match api.getAPI with
    | FunctionList.null => (tr, Outcome.undefined)
    | FunctionList.unbound => (tr, Outcome.undefined)
    | FunctionList.bound =>
      let status := drv.destroyGPUBufferCuda tr buf.m_hGPUBuffer
      let tr1 := tr ++ [DriverOp.nvOFDestroyGPUBufferCuda buf.m_hGPUBuffer]
      if status ≠ NV_OF_STATUS.NV_OF_SUCCESS then
        (tr1, Outcome.thrown { m_errorCode := status })
      else (tr1, Outcome.returned ())
  else (tr, Outcome.returned ())

/-- `createAndUploadInputBuffer(nvofobj, frameData)`; `junkElementSize` is what the
storage of the new object's `m_elementSize` holds. -/
def createAndUploadInputBuffer (drv : Driver) (nvofobj : API) (frameData : Nat)
    (junkElementSize : Nat) (tr : List DriverOp) : List DriverOp × Outcome NvOFCudaBuffer :=
  let bufferDesc : NV_OF_BUFFER_DESCRIPTOR :=
    { width := W_BUFF.toNat, height := H_BUFF.toNat,
      bufferUsage := NV_OF_BUFFER_USAGE.NV_OF_BUFFER_USAGE_INPUT,
      bufferFormat := NV_OF_BUFFER_FORMAT.NV_OF_BUFFER_FORMAT_ABGR8 }
  match NvOFCudaBuffer.ctor drv nvofobj bufferDesc junkElementSize tr with
  | (tr1, Outcome.returned buffer) =>
    match NvOFCudaBuffer.UploadData drv nvofobj buffer frameData tr1 with
    | (tr2, Outcome.returned _) => (tr2, Outcome.returned buffer)
    | (tr2, Outcome.thrown e) => (tr2, Outcome.thrown e)
    | (tr2, Outcome.undefined) => (tr2, Outcome.undefined)
  | (tr1, Outcome.thrown e) => (tr1, Outcome.thrown e)
  | (tr1, Outcome.undefined) => (tr1, Outcome.undefined)

/-- `createOutputBuffer(nvofobj, outwidth, outheight)`. -/
def createOutputBuffer (drv : Driver) (nvofobj : API) (outwidth outheight : Nat)
    (junkElementSize : Nat) (tr : List DriverOp) : List DriverOp × Outcome NvOFCudaBuffer :=
  let outbufferDesc : NV_OF_BUFFER_DESCRIPTOR :=
    { width := outwidth, height := outheight,
      bufferUsage := NV_OF_BUFFER_USAGE.NV_OF_BUFFER_USAGE_OUTPUT,
      bufferFormat := NV_OF_BUFFER_FORMAT.NV_OF_BUFFER_FORMAT_SHORT2 }
  NvOFCudaBuffer.ctor drv nvofobj outbufferDesc junkElementSize tr

/-- The statement `nvofobj->getAPI()->nvOFExecute(nvofobj->getHandle(), &inparams,
&outparams)` of `calculateFlow` (line 266): the status the driver returns is dropped. -/
def nvOFExecuteCall (drv : Driver) (nvofobj : API) (inputFrame referenceFrame outputBuffer : Nat)
    (tr : List DriverOp) : List DriverOp × Outcome NV_OF_STATUS :=
  match nvofobj.getAPI with
  | FunctionList.null => (tr, Outcome.undefined)
  | FunctionList.unbound => (tr, Outcome.undefined)
  | FunctionList.bound =>
    (tr ++ [DriverOp.nvOFExecute nvofobj.handle inputFrame referenceFrame outputBuffer],
      Outcome.returned
        (drv.execute tr nvofobj.handle inputFrame referenceFrame outputBuffer))

/-- The statement `nvofobj->getAPI()->nvOFDestroy(nvofobj->getHandle())` of `calculateFlow`
(line 281): the status the driver returns is dropped. -/
def nvOFDestroyCall (drv : Driver) (nvofobj : API) (tr : List DriverOp) :
    List DriverOp × Outcome NV_OF_STATUS :=
  match nvofobj.getAPI with
  | FunctionList.null => (tr, Outcome.undefined)
  | FunctionList.unbound => (tr, Outcome.undefined)
  | FunctionList.bound =>
    (tr ++ [DriverOp.nvOFDestroy nvofobj.handle],
      Outcome.returned (drv.destroy tr nvofobj.handle))

/-- How `calculateFlow` ends: it returns, an `NvOFException` leaves it, its behaviour is
undefined, or `std::terminate` is called. -/
inductive FlowExit where
  | returned
  | thrown (e : NvOFException)
  | undefined
  | terminated
  deriving DecidableEq

/-- Sequencing inside `calculateFlow`, which has no handler and owns its objects through
plain pointers: when the step `r` returned, go on with `k` from its trace and value; an
exception the step threw leaves `calculateFlow` at once, nothing else running. -/
def andThen {α : Type} (r : List DriverOp × Outcome α)
    (k : List DriverOp → α → List DriverOp × FlowExit) : List DriverOp × FlowExit :=
  match r with
  | (tr, Outcome.returned a) => k tr a
  | (tr, Outcome.thrown e) => (tr, FlowExit.thrown e)
  | (tr, Outcome.undefined) => (tr, FlowExit.undefined)

/-- The expression `delete buffer` followed by `k`: the destructor runs; it is implicitly
`noexcept`, so an exception that leaves it calls `std::terminate`. -/
def deleteBuffer (drv : Driver) (api : API) (buf : NvOFCudaBuffer) (tr : List DriverOp)
    (k : List DriverOp → List DriverOp × FlowExit) : List DriverOp × FlowExit :=
  match NvOFCudaBuffer.dtor drv api buf tr with
  | (tr1, Outcome.returned _) => k tr1
  | (tr1, Outcome.thrown _) => (tr1, FlowExit.terminated)
  | (tr1, Outcome.undefined) => (tr1, FlowExit.undefined)

/-- `calculateFlow(frame1, frame2, vecframe, cuContext, instream, outstream)` for the value
`gridsize` of the global, from trace `tr` on: the calls it makes to the loader and the
drivers, and how it ends.  The picture it writes to `vecframe` is `postProcessVectors`
above and adds no call.  `flowdata` is the address of the `new NV_OF_FLOW_VECTOR[...]`
block; the `junk` arguments are what the storage of members without initialiser holds. -/
def calculateFlow (drv : Driver) (gridsize : Nat) (frame1 frame2 flowdata : Nat)
    (cuContext instream outstream : Nat)
    (junkLib junkHandle junkIn junkRef junkOut : Nat) (tr : List DriverOp) :
    List DriverOp × FlowExit :=
  andThen (API.ctor drv cuContext instream outstream junkLib junkHandle tr) fun tr obj =>
  andThen (nvOFInitCall drv obj.1 tr) fun tr _ =>
  andThen (createAndUploadInputBuffer drv obj.1 frame1 junkIn tr) fun tr inbuffer =>
  andThen (createAndUploadInputBuffer drv obj.1 frame2 junkRef tr) fun tr refbuffer =>
  match calculateOutputDimensions gridsize with
  | none => (tr, FlowExit.undefined)
  | some (outwidth, outheight) =>
    andThen (createOutputBuffer drv obj.1 outwidth outheight junkOut tr) fun tr outbuffer =>
    andThen (nvOFExecuteCall drv obj.1 inbuffer.m_hGPUBuffer refbuffer.m_hGPUBuffer
      outbuffer.m_hGPUBuffer tr) fun tr _ =>
    andThen (NvOFCudaBuffer.DownloadData drv obj.1 outbuffer flowdata tr) fun tr _ =>
    deleteBuffer drv obj.1 inbuffer tr fun tr =>
    deleteBuffer drv obj.1 refbuffer tr fun tr =>
    deleteBuffer drv obj.1 outbuffer tr fun tr =>
    andThen (nvOFDestroyCall drv obj.1 tr) fun tr _ => (tr, FlowExit.returned)

/-- A driver like `goodDriver` that hands out a new buffer handle at every creation (one
more than the number of calls made so far) and a device pointer derived from it. -/
def freshDriver (version : Nat) (stride : NV_OF_CUDA_BUFFER_STRIDE_INFO) : Driver :=
  { goodDriver version stride with
    createGPUBufferCuda := fun tr _ _ => (NV_OF_STATUS.NV_OF_SUCCESS, tr.length + 1)
    getCUdeviceptr := fun _ buffer => 4096 * buffer }

/-- The session handles the driver handed out along the calls `ops` made after trace
`tr`, oldest first: one for each call `nvCreateOpticalFlowCuda`. -/
def createdSessions (drv : Driver) : List DriverOp → List DriverOp → List Nat
  | _, [] => []
  | tr, DriverOp.nvCreateOpticalFlowCuda ctx :: ops =>
    (drv.createOpticalFlowCuda tr ctx).2 ::
      createdSessions drv (tr ++ [DriverOp.nvCreateOpticalFlowCuda ctx]) ops
  | tr, op :: ops => createdSessions drv (tr ++ [op]) ops

/-- The buffer handles the driver handed out along the calls `ops` made after trace `tr`,
oldest first: one for each call `nvOFCreateGPUBufferCuda`. -/
def createdBuffers (drv : Driver) : List DriverOp → List DriverOp → List Nat
  | _, [] => []
  | tr, DriverOp.nvOFCreateGPUBufferCuda handle desc :: ops =>
    (drv.createGPUBufferCuda tr handle desc).2 ::
      createdBuffers drv (tr ++ [DriverOp.nvOFCreateGPUBufferCuda handle desc]) ops
  | tr, op :: ops => createdBuffers drv (tr ++ [op]) ops

/-- The calls of a trace that destroy a buffer or a session, in order. -/
def releasesOf (ops : List DriverOp) : List DriverOp :=
  ops.filter (fun op =>
    match op with
    | DriverOp.nvOFDestroyGPUBufferCuda _ => true
    | DriverOp.nvOFDestroy _ => true
    | _ => false)

/-- No call fails: the library loads, both entry points are found, every driver call
returns `NV_OF_SUCCESS` or `CUDA_SUCCESS`, and a created buffer has a non-null handle. -/
structure Driver.Succeeds (drv : Driver) : Prop where
  dlopen : ∀ tr, drv.dlopen tr ≠ 0
  dlsymCreateInstanceCuda : ∀ tr, drv.dlsymCreateInstanceCuda tr ≠ 0
  dlsymGetMaxSupportedApiVersion : ∀ tr, drv.dlsymGetMaxSupportedApiVersion tr ≠ 0
  createInstanceCuda : ∀ tr v, drv.createInstanceCuda tr v = NV_OF_STATUS.NV_OF_SUCCESS
  createOpticalFlowCuda : ∀ tr c,
    (drv.createOpticalFlowCuda tr c).1 = NV_OF_STATUS.NV_OF_SUCCESS
  setIOCudaStreams : ∀ tr h i o, drv.setIOCudaStreams tr h i o = NV_OF_STATUS.NV_OF_SUCCESS
  init : ∀ tr h, drv.init tr h = NV_OF_STATUS.NV_OF_SUCCESS
  createGPUBufferCuda : ∀ tr h d,
    (drv.createGPUBufferCuda tr h d).1 = NV_OF_STATUS.NV_OF_SUCCESS ∧
      (drv.createGPUBufferCuda tr h d).2 ≠ 0
  getStrideInfo : ∀ tr b, (drv.getStrideInfo tr b).1 = NV_OF_STATUS.NV_OF_SUCCESS
  execute : ∀ tr h i r o, drv.execute tr h i r o = NV_OF_STATUS.NV_OF_SUCCESS
  destroyGPUBufferCuda : ∀ tr b, drv.destroyGPUBufferCuda tr b = NV_OF_STATUS.NV_OF_SUCCESS
  destroy : ∀ tr h, drv.destroy tr h = NV_OF_STATUS.NV_OF_SUCCESS
  memcpy2DAsync : ∀ tr p s, drv.memcpy2DAsync tr p s = 0
  streamSynchronize : ∀ tr s, drv.streamSynchronize tr s = 0

/-! ## The image buffer (`main.cpp`, lines 147-149, 313 and 352) -/

/-- The positions of `output` that the colouring loop of `postProcessVectors` (lines
131-151) stores to, in the order of the stores: the three of lines 147-149 for each `y`
and `x`, whichever branch computed `pix`. -/
def colorLoopWrites (outwidth outheight : Nat) : List Nat :=
  forRange outheight (fun y ws =>
    forRange outwidth (fun x ws =>
      ws ++ [u32 (u32 (u32 (y * outwidth) * 3) + u32 (3 * x)),
        u32 (u32 (u32 (u32 (y * outwidth) * 3) + u32 (3 * x)) + 1),
        u32 (u32 (u32 (u32 (y * outwidth) * 3) + u32 (3 * x)) + 2)]) ws) []

/-- The argument of the `malloc` for `vecframe` in `main` (line 313),
`H_BUFF / gridsize * W_BUFF / gridsize * 3 * sizeof(uint8_t)`: the `int` expression is
evaluated left to right and converted to `size_t` for the product with
`sizeof(uint8_t)`, which is 1.  A division by zero has no defined result: `none`. -/
def vecframeBytes (gridsize : Nat) : Option Nat :=
  if gridsize = 0 then none
  else
    some (u64 ((Int.tdiv (Int.tdiv H_BUFF (gridsize : Int) * W_BUFF) (gridsize : Int) * 3 %
      18446744073709551616).toNat * 1))

/-- The rows and the columns of the `cv::Mat` over `vecframe` that `main` displays (line
352), `H_BUFF / gridsize` and `W_BUFF / gridsize`; it has 3 bytes for each element. -/
def displayDimensions (gridsize : Nat) : Option (Nat × Nat) :=
  if gridsize = 0 then none
  else some ((Int.tdiv H_BUFF (gridsize : Int)).toNat, (Int.tdiv W_BUFF (gridsize : Int)).toNat)

/-! ## The colour wheel: lemmas -/

theorem wheelBand_succ (len : Nat) (rgb : Int → Int × Int × Int) (st : Int × WheelState) :
    wheelBand (len + 1) rgb st =
      ((wheelBand len rgb st).1 + 1,
        SetColors (rgb len).1 (rgb len).2.1 (rgb len).2.2 (wheelBand len rgb st).1
          (wheelBand len rgb st).2) := by
  simp [wheelBand, forRange, List.range_succ, List.foldl_append]

theorem wheelBand_zero (rgb : Int → Int × Int × Int) (st : Int × WheelState) :
    wheelBand 0 rgb st = st := by
  simp [wheelBand, forRange]

theorem wheelBand_fst (len : Nat) (rgb : Int → Int × Int × Int) (st : Int × WheelState) :
    (wheelBand len rgb st).1 = st.1 + len := by
  induction len with
  | zero => simp [wheelBand_zero]
  | succ n ih => rw [wheelBand_succ]; simp only [ih]; push_cast; ring

theorem wheelBand_ncols (len : Nat) (rgb : Int → Int × Int × Int) (st : Int × WheelState) :
    (wheelBand len rgb st).2.m_ncols = st.2.m_ncols := by
  induction len with
  | zero => simp [wheelBand_zero]
  | succ n ih => rw [wheelBand_succ]; simpa [SetColors] using ih

theorem wheelBand_writes (len : Nat) (rgb : Int → Int × Int × Int) (st : Int × WheelState) :
    (wheelBand len rgb st).2.writes =
      st.2.writes ++ (List.range len).map (fun i => st.1 + (i : Int)) := by
  induction len with
  | zero => simp [wheelBand_zero]
  | succ n ih =>
    rw [wheelBand_succ]
    simp [SetColors, ih, wheelBand_fst, List.range_succ]

/-- After a band, the rows `st.1 .. st.1 + len - 1` hold the band's ramp and every other
cell is as before. -/
theorem wheelBand_table (len : Nat) (rgb : Int → Int × Int × Int) (st : Int × WheelState)
    (k c : Int) :
    (wheelBand len rgb st).2.m_colorwheel k c =
      if st.1 ≤ k ∧ k < st.1 + len ∧ 0 ≤ c ∧ c ≤ 2 then chan (rgb (k - st.1)) c
      else st.2.m_colorwheel k c := by
  induction len with
  | zero =>
    rw [wheelBand_zero]
    have hno : ¬ (st.1 ≤ k ∧ k < st.1 + ((0 : Nat) : Int) ∧ 0 ≤ c ∧ c ≤ 2) := by
      push_cast; omega
    rw [if_neg hno]
  | succ n ih =>
    rw [wheelBand_succ]
    simp only [SetColors, storeWheel, wheelBand_fst, ih]
    by_cases hk : k = st.1 + n
    · subst hk
      by_cases h0 : c = 0
      · subst h0; simp [chan]
      · by_cases h1 : c = 1
        · subst h1; simp [chan]
        · by_cases h2 : c = 2
          · subst h2; simp [chan]
          · have hc : ¬ (0 ≤ c ∧ c ≤ 2) := by omega
            simp [h0, h1, h2, hc]
    · simp only [hk, false_and, if_false]
      have hiff : (st.1 ≤ k ∧ k < st.1 + ((n + 1 : Nat) : Int) ∧ 0 ≤ c ∧ c ≤ 2) ↔
          (st.1 ≤ k ∧ k < st.1 + (n : Int) ∧ 0 ≤ c ∧ c ≤ 2) := by
        push_cast; omega
      simp only [hiff]

/-- Closed form of the table after `MakeColorWheel`, for every initial content. -/
theorem MakeColorWheel_table (s : WheelState) (k c : Int) :
    (MakeColorWheel s).m_colorwheel k c =
      if 49 ≤ k ∧ k < 55 ∧ 0 ≤ c ∧ c ≤ 2 then chan (255, 0, 255 - Int.tdiv (255 * (k - 49)) 6) c
      else if 36 ≤ k ∧ k < 49 ∧ 0 ≤ c ∧ c ≤ 2 then chan (Int.tdiv (255 * (k - 36)) 13, 0, 255) c
      else if 25 ≤ k ∧ k < 36 ∧ 0 ≤ c ∧ c ≤ 2 then
        chan (0, 255 - Int.tdiv (255 * (k - 25)) 11, 255) c
      else if 21 ≤ k ∧ k < 25 ∧ 0 ≤ c ∧ c ≤ 2 then chan (0, 255, Int.tdiv (255 * (k - 21)) 4) c
      else if 15 ≤ k ∧ k < 21 ∧ 0 ≤ c ∧ c ≤ 2 then
        chan (255 - Int.tdiv (255 * (k - 15)) 6, 255, 0) c
      else if 0 ≤ k ∧ k < 15 ∧ 0 ≤ c ∧ c ≤ 2 then chan (255, Int.tdiv (255 * k) 15, 0) c
      else s.m_colorwheel k c := by
  simp only [MakeColorWheel, wheelBand_table, wheelBand_fst]
  norm_num

theorem MakeColorWheel_ncols (s : WheelState) : (MakeColorWheel s).m_ncols = 55 := by
  simp only [MakeColorWheel, wheelBand_ncols]
  norm_num

theorem MakeColorWheel_writes (s : WheelState) :
    (MakeColorWheel s).writes = s.writes ++ (List.range 55).map Int.ofNat := by
  simp only [MakeColorWheel, wheelBand_writes, wheelBand_fst]
  simp only [List.append_assoc]
  congr 1

/-- A row `k` of the table in `0..54` does not depend on the content before the call. -/
theorem MakeColorWheel_row (s : WheelState) (k : Int) (h0 : 0 ≤ k) (h1 : k < 55) :
    wheelRow (MakeColorWheel s) k = wheelRow (MakeColorWheel initialWheel) k := by
  have key : ∀ c : Int, 0 ≤ c → c ≤ 2 →
      (MakeColorWheel s).m_colorwheel k c = (MakeColorWheel initialWheel).m_colorwheel k c := by
    intro c hc0 hc2
    rw [MakeColorWheel_table, MakeColorWheel_table]
    by_cases a1 : 49 ≤ k
    · simp only [a1, h1, hc0, hc2, and_self, if_true]
    · have b1 : k < 49 := not_le.mp a1
      simp only [a1, false_and, if_false]
      by_cases a2 : 36 ≤ k
      · simp only [a2, b1, hc0, hc2, and_self, if_true]
      · have b2 : k < 36 := not_le.mp a2
        simp only [a2, false_and, if_false]
        by_cases a3 : 25 ≤ k
        · simp only [a3, b2, hc0, hc2, and_self, if_true]
        · have b3 : k < 25 := not_le.mp a3
          simp only [a3, false_and, if_false]
          by_cases a4 : 21 ≤ k
          · simp only [a4, b3, hc0, hc2, and_self, if_true]
          · have b4 : k < 21 := not_le.mp a4
            simp only [a4, false_and, if_false]
            by_cases a5 : 15 ≤ k
            · simp only [a5, b4, hc0, hc2, and_self, if_true]
            · have b5 : k < 15 := not_le.mp a5
              simp only [a5, false_and, if_false, h0, b5, hc0, hc2, and_self, if_true]
  simp only [wheelRow]
  rw [key 0 (by norm_num) (by norm_num), key 1 (by norm_num) (by norm_num),
    key 2 (by norm_num) (by norm_num)]

/-! ## Loops and stores: lemmas -/

theorem forRange_zero {σ : Type} (body : Nat → σ → σ) (s : σ) : forRange 0 body s = s := by
  simp [forRange]

theorem forRange_succ {σ : Type} (n : Nat) (body : Nat → σ → σ) (s : σ) :
    forRange (n + 1) body s = body n (forRange n body s) := by
  simp [forRange, List.range_succ, List.foldl_append]

/-- A loop whose iteration `i` overwrites exactly the cells `lo i .. lo (i+1) - 1` with
values that depend on the cell only fills `lo 0 .. lo n - 1` and leaves the rest. -/
theorem forRange_fill {α : Type} (n : Nat) (lo : Nat → Nat) (G : Nat → α)
    (body : Nat → (Nat → α) → (Nat → α))
    (hlo : ∀ i, i < n → lo i ≤ lo (i + 1))
    (hbody : ∀ i, i < n → ∀ arr j,
      body i arr j = if lo i ≤ j ∧ j < lo (i + 1) then G j else arr j)
    (arr : Nat → α) (j : Nat) :
    forRange n body arr j = if lo 0 ≤ j ∧ j < lo n then G j else arr j := by
  induction n with
  | zero =>
    rw [forRange_zero]
    have hno : ¬ (lo 0 ≤ j ∧ j < lo 0) := by omega
    rw [if_neg hno]
  | succ k ih =>
    have ihk := ih (fun i hi => hlo i (by omega)) (fun i hi => hbody i (by omega))
    have hmono : lo 0 ≤ lo k := by
      clear ihk ih hbody
      induction k with
      | zero => exact le_refl _
      | succ t iht =>
        exact le_trans (iht (fun i hi => hlo i (by omega))) (hlo t (by omega))
    have hstep := hlo k (by omega)
    rw [forRange_succ, hbody k (by omega), ihk]
    by_cases h1 : lo k ≤ j ∧ j < lo (k + 1)
    · rw [if_pos h1, if_pos ⟨by omega, h1.2⟩]
    · rw [if_neg h1]
      by_cases h2 : lo 0 ≤ j ∧ j < lo k
      · rw [if_pos h2, if_pos ⟨h2.1, by omega⟩]
      · rw [if_neg h2, if_neg (by omega)]

theorem u32_of_lt {n : Nat} (h : n < 4294967296) : u32 n = n :=
  Nat.mod_eq_of_lt h

/-- Cell `(y, x)` of a `w` by `h` field has a flat index below `w * h`. -/
theorem cell_lt {w h y x : Nat} (hy : y < h) (hx : x < w) : y * w + x < w * h := by
  calc y * w + x < y * w + w := by omega
    _ = (y + 1) * w := by ring
    _ ≤ h * w := Nat.mul_le_mul_right w hy
    _ = w * h := Nat.mul_comm h w

theorem row_le {w y x : Nat} (hx : x < w) : y ≤ y * w :=
  Nat.le_mul_of_pos_right y (by omega)

/-- The index `_flowvectors[y * outwidth + x]` does not wrap. -/
theorem src_idx {w h y x : Nat} (H : w * h * 2 < 2147483648) (hy : y < h) (hx : x < w) :
    u32 (u32 (y * w) + x) = y * w + x := by
  have hc := cell_lt hy hx
  rw [u32_of_lt (n := y * w) (by omega), u32_of_lt (by omega)]

/-- The index `(y * 2 * outwidth) + 2 * x` of the decode loop does not wrap. -/
theorem decode_idx {w h y x : Nat} (H : w * h * 2 < 2147483648) (hy : y < h) (hx : x < w) :
    u32 (u32 (u32 (y * 2) * w) + u32 (2 * x)) = 2 * (y * w + x) := by
  have hc := cell_lt hy hx
  have hr := row_le (y := y) hx
  have e2 : y * 2 * w = 2 * (y * w) := by ring
  rw [u32_of_lt (n := y * 2) (by omega), e2, u32_of_lt (n := 2 * (y * w)) (by omega),
    u32_of_lt (n := 2 * x) (by omega), u32_of_lt (by omega)]
  ring

/-- The index `(y * outwidth * 2) + (2 * x)` of the colouring loop does not wrap. -/
theorem read_idx {w h y x : Nat} (H : w * h * 2 < 2147483648) (hy : y < h) (hx : x < w) :
    u32 (u32 (u32 (y * w) * 2) + u32 (2 * x)) = 2 * (y * w + x) := by
  have hc := cell_lt hy hx
  rw [u32_of_lt (n := y * w) (by omega), u32_of_lt (n := y * w * 2) (by omega),
    u32_of_lt (n := 2 * x) (by omega), u32_of_lt (by omega)]
  ring

/-- The index `(y * outwidth * 3) + (3 * x)` of the colouring loop does not wrap. -/
theorem write_idx {w h y x : Nat} (H : w * h * 2 < 2147483648) (hy : y < h) (hx : x < w) :
    u32 (u32 (u32 (y * w) * 3) + u32 (3 * x)) = 3 * (y * w + x) := by
  have hc := cell_lt hy hx
  rw [u32_of_lt (n := y * w) (by omega), u32_of_lt (n := y * w * 3) (by omega),
    u32_of_lt (n := 3 * x) (by omega), u32_of_lt (by omega)]
  ring

section DecodeLemmas

variable {K : Type} [LinearOrderedField K]

/-- Closed form of the decoded array: the first `2 * (w * h)` cells hold the decoded
components, the others are untouched. -/
theorem decodeLoop_apply (m : FloatEnv K) (fv : Nat → NV_OF_FLOW_VECTOR) (w h : Nat)
    (H : w * h * 2 < 2147483648) (junk : Nat → FVal K) (j : Nat) :
    decodeLoop m fv w h junk j =
      if j < 2 * (w * h) then decodedCell m fv j else junk j := by
  have inner : ∀ y, y < h → ∀ arr j,
      forRange w (fun x fvec =>
        store (store fvec (u32 (u32 (u32 (y * 2) * w) + u32 (2 * x)))
            (FVal.num (m.rnd (m.rnd ((fv (u32 (u32 (y * w) + x))).flowx : K) / 32))))
          (u32 (u32 (u32 (u32 (y * 2) * w) + u32 (2 * x)) + 1))
          (FVal.num (m.rnd (m.rnd ((fv (u32 (u32 (y * w) + x))).flowy : K) / 32)))) arr j =
        if 2 * (y * w) ≤ j ∧ j < 2 * ((y + 1) * w) then decodedCell m fv j else arr j := by
    intro y hy arr j
    have hfill := forRange_fill w (fun x => 2 * (y * w + x)) (decodedCell m fv)
      (fun x fvec =>
        store (store fvec (u32 (u32 (u32 (y * 2) * w) + u32 (2 * x)))
            (FVal.num (m.rnd (m.rnd ((fv (u32 (u32 (y * w) + x))).flowx : K) / 32))))
          (u32 (u32 (u32 (u32 (y * 2) * w) + u32 (2 * x)) + 1))
          (FVal.num (m.rnd (m.rnd ((fv (u32 (u32 (y * w) + x))).flowy : K) / 32))))
      (fun i _ => by dsimp only; omega)
      (by
        intro x hx arr j
        have hc := cell_lt hy hx
        simp only [decode_idx H hy hx, src_idx H hy hx,
          u32_of_lt (n := 2 * (y * w + x) + 1) (by omega), store, decodedCell]
        by_cases h1 : j = 2 * (y * w + x) + 1
        · have e1 : j % 2 ≠ 0 := by omega
          have e2 : j / 2 = y * w + x := by omega
          rw [if_pos h1, if_pos (by omega), if_neg e1, e2]
        · rw [if_neg h1]
          by_cases h0 : j = 2 * (y * w + x)
          · have e1 : j % 2 = 0 := by omega
            have e2 : j / 2 = y * w + x := by omega
            rw [if_pos h0, if_pos (by omega), if_pos e1, e2]
          · rw [if_neg h0, if_neg (by omega)])
      arr j
    rw [hfill]
    have e : y * w + w = (y + 1) * w := by ring
    simp only [Nat.add_zero, e]
  have outer := forRange_fill h (fun y => 2 * (y * w)) (decodedCell m fv)
    (fun y fvec => forRange w (fun x fvec =>
        store (store fvec (u32 (u32 (u32 (y * 2) * w) + u32 (2 * x)))
            (FVal.num (m.rnd (m.rnd ((fv (u32 (u32 (y * w) + x))).flowx : K) / 32))))
          (u32 (u32 (u32 (u32 (y * 2) * w) + u32 (2 * x)) + 1))
          (FVal.num (m.rnd (m.rnd ((fv (u32 (u32 (y * w) + x))).flowy : K) / 32)))) fvec)
    (fun i _ => by
      have : i * w ≤ (i + 1) * w := Nat.mul_le_mul_right w (by omega)
      dsimp only
      omega)
    (fun y hy arr j => inner y hy arr j) junk j
  have e : h * w = w * h := Nat.mul_comm h w
  unfold decodeLoop
  rw [outer]
  simp only [Nat.zero_mul, Nat.mul_zero, Nat.zero_le, true_and, e]

end DecodeLemmas

/-! ## C1: size of the colour table -/

/-- C1, as stated, fails: after `MakeColorWheel` on the zero-initialised globals
`m_ncols` is not 60 and row 59 is never written. -/
theorem C1_counterexample :
    ¬ ((MakeColorWheel initialWheel).m_ncols = 60 ∧
        ∀ k ∈ (List.range 60).map Int.ofNat,
          (MakeColorWheel initialWheel).writes.count k = 1) := by
  decide

/-- C1 (amended): after `MakeColorWheel`, whatever the globals held before, `m_ncols`
is 55 = 15+6+4+11+13+6; the calls of `SetColors` made by it write every row index 0..54
exactly once and no other index; every cell of a row outside 0..54 keeps its content. -/
theorem C1_table_has_55_entries (s : WheelState) :
    (MakeColorWheel s).m_ncols = 55 ∧
    (15 + 6 + 4 + 11 + 13 + 6 : Int) = 55 ∧
    (∃ ws : List Int, (MakeColorWheel s).writes = s.writes ++ ws ∧
      ∀ k : Int, ws.count k = if 0 ≤ k ∧ k ≤ 54 then 1 else 0) ∧
    (∀ k c : Int, (0 ≤ k ∧ k ≤ 54) ∨
      (MakeColorWheel s).m_colorwheel k c = s.m_colorwheel k c) := by
  refine ⟨MakeColorWheel_ncols s, by norm_num, ⟨_, MakeColorWheel_writes s, ?_⟩, ?_⟩
  · intro k
    have hnd : ((List.range 55).map Int.ofNat).Nodup :=
      (List.nodup_range 55).map Int.ofNat_injective
    by_cases hk : 0 ≤ k ∧ k ≤ 54
    · rw [if_pos hk]
      apply List.count_eq_one_of_mem hnd
      rw [List.mem_map]
      refine ⟨k.toNat, ?_, ?_⟩
      · rw [List.mem_range]; omega
      · exact Int.toNat_of_nonneg hk.1
    · rw [if_neg hk]
      apply List.count_eq_zero_of_not_mem
      rw [List.mem_map]
      rintro ⟨n, hn, rfl⟩
      rw [List.mem_range] at hn
      apply hk
      constructor
      · exact Int.ofNat_nonneg n
      · show (n : Int) ≤ 54
        omega
  · intro k c
    by_cases hk : 0 ≤ k ∧ k ≤ 54
    · exact Or.inl hk
    · right
      rw [MakeColorWheel_table]
      have h1 : ¬ (49 ≤ k ∧ k < 55 ∧ 0 ≤ c ∧ c ≤ 2) := by omega
      have h2 : ¬ (36 ≤ k ∧ k < 49 ∧ 0 ≤ c ∧ c ≤ 2) := by omega
      have h3 : ¬ (25 ≤ k ∧ k < 36 ∧ 0 ≤ c ∧ c ≤ 2) := by omega
      have h4 : ¬ (21 ≤ k ∧ k < 25 ∧ 0 ≤ c ∧ c ≤ 2) := by omega
      have h5 : ¬ (15 ≤ k ∧ k < 21 ∧ 0 ≤ c ∧ c ≤ 2) := by omega
      have h6 : ¬ (0 ≤ k ∧ k < 15 ∧ 0 ≤ c ∧ c ≤ 2) := by omega
      simp only [h1, h2, h3, h4, h5, h6, if_false]

/-! ## C2: the six bands -/

/-- C2: for every content of the globals before the call, the table built by
`MakeColorWheel` consists of six consecutive bands of lengths 15, 6, 4, 11, 13, 6
starting at rows 0, 15, 21, 25, 36, 49, each holding its ramp, and the first row of each
band is the pure hue: red, yellow, green, cyan, blue, magenta. -/
theorem C2_six_bands (s : WheelState) :
    (∀ i ∈ List.range 15,
      wheelRow (MakeColorWheel s) (0 + i) = (255, Int.tdiv (255 * i) 15, 0)) ∧
    (∀ i ∈ List.range 6,
      wheelRow (MakeColorWheel s) (15 + i) = (255 - Int.tdiv (255 * i) 6, 255, 0)) ∧
    (∀ i ∈ List.range 4,
      wheelRow (MakeColorWheel s) (21 + i) = (0, 255, Int.tdiv (255 * i) 4)) ∧
    (∀ i ∈ List.range 11,
      wheelRow (MakeColorWheel s) (25 + i) = (0, 255 - Int.tdiv (255 * i) 11, 255)) ∧
    (∀ i ∈ List.range 13,
      wheelRow (MakeColorWheel s) (36 + i) = (Int.tdiv (255 * i) 13, 0, 255)) ∧
    (∀ i ∈ List.range 6,
      wheelRow (MakeColorWheel s) (49 + i) = (255, 0, 255 - Int.tdiv (255 * i) 6)) ∧
    wheelRow (MakeColorWheel s) 0 = (255, 0, 0) ∧
    wheelRow (MakeColorWheel s) 15 = (255, 255, 0) ∧
    wheelRow (MakeColorWheel s) 21 = (0, 255, 0) ∧
    wheelRow (MakeColorWheel s) 25 = (0, 255, 255) ∧
    wheelRow (MakeColorWheel s) 36 = (0, 0, 255) ∧
    wheelRow (MakeColorWheel s) 49 = (255, 0, 255) := by
  have base : ∀ k ∈ (List.range 55).map Int.ofNat,
      wheelRow (MakeColorWheel s) k = wheelRow (MakeColorWheel initialWheel) k := by
    intro k hk
    rw [List.mem_map] at hk
    obtain ⟨n, hn, rfl⟩ := hk
    rw [List.mem_range] at hn
    exact MakeColorWheel_row s _ (Int.ofNat_nonneg n) (by show (n : Int) < 55; omega)
  refine ⟨?_, ?_, ?_, ?_, ?_, ?_, ?_, ?_, ?_, ?_, ?_, ?_⟩
  · intro i hi
    have hi2 := List.mem_range.mp hi
    rw [MakeColorWheel_row s _ (by omega) (by omega)]
    clear hi2
    revert i; decide
  · intro i hi
    have hi2 := List.mem_range.mp hi
    rw [MakeColorWheel_row s _ (by omega) (by omega)]
    clear hi2
    revert i; decide
  · intro i hi
    have hi2 := List.mem_range.mp hi
    rw [MakeColorWheel_row s _ (by omega) (by omega)]
    clear hi2
    revert i; decide
  · intro i hi
    have hi2 := List.mem_range.mp hi
    rw [MakeColorWheel_row s _ (by omega) (by omega)]
    clear hi2
    revert i; decide
  · intro i hi
    have hi2 := List.mem_range.mp hi
    rw [MakeColorWheel_row s _ (by omega) (by omega)]
    clear hi2
    revert i; decide
  · intro i hi
    have hi2 := List.mem_range.mp hi
    rw [MakeColorWheel_row s _ (by omega) (by omega)]
    clear hi2
    revert i; decide
  · rw [base 0 (by decide)]; decide
  · rw [base 15 (by decide)]; decide
  · rw [base 21 (by decide)]; decide
  · rw [base 25 (by decide)]; decide
  · rw [base 36 (by decide)]; decide
  · rw [base 49 (by decide)]; decide

/-! ## C3: the band boundaries -/

/-- C3, as stated, fails: across the boundary 14/15 the green channel jumps from 238 to
255, so it is not true that every channel differs by at most 1 at every boundary. -/
theorem C3_counterexample :
    ¬ (∀ bd ∈ [((14 : Int), (15 : Int)), (20, 21), (24, 25), (35, 36), (48, 49)],
        ∀ c ∈ [(0 : Int), 1, 2],
          |(MakeColorWheel initialWheel).m_colorwheel bd.1 c -
            (MakeColorWheel initialWheel).m_colorwheel bd.2 c| ≤ 1) := by
  intro h
  have h14 := h (14, 15) (by simp) 1 (by simp)
  revert h14
  decide

/-- C3 (amended): at each of the five boundaries the last row of a band and the first row
of the next agree in two channels and differ in the third by one step of the ramp,
namely by 17, 43, 64, 24 and 20; the band stops one step short of the next pure hue. -/
theorem C3_boundary_steps (s : WheelState) :
    (wheelRow (MakeColorWheel s) 14 = (255, 238, 0) ∧
      wheelRow (MakeColorWheel s) 15 = (255, 238 + 17, 0)) ∧
    (wheelRow (MakeColorWheel s) 20 = (43, 255, 0) ∧
      wheelRow (MakeColorWheel s) 21 = (43 - 43, 255, 0)) ∧
    (wheelRow (MakeColorWheel s) 24 = (0, 255, 191) ∧
      wheelRow (MakeColorWheel s) 25 = (0, 255, 191 + 64)) ∧
    (wheelRow (MakeColorWheel s) 35 = (0, 24, 255) ∧
      wheelRow (MakeColorWheel s) 36 = (0, 24 - 24, 255)) ∧
    (wheelRow (MakeColorWheel s) 48 = (235, 0, 255) ∧
      wheelRow (MakeColorWheel s) 49 = (235 + 20, 0, 255)) := by
  have base : ∀ k ∈ (List.range 55).map Int.ofNat,
      wheelRow (MakeColorWheel s) k = wheelRow (MakeColorWheel initialWheel) k := by
    intro k hk
    rw [List.mem_map] at hk
    obtain ⟨n, hn, rfl⟩ := hk
    rw [List.mem_range] at hn
    exact MakeColorWheel_row s _ (Int.ofNat_nonneg n) (by show (n : Int) < 55; omega)
  rw [base 14 (by decide), base 15 (by decide), base 20 (by decide), base 21 (by decide),
    base 24 (by decide), base 25 (by decide), base 35 (by decide), base 36 (by decide),
    base 48 (by decide), base 49 (by decide)]
  decide

/-! ## The statistics loop: lemmas -/

section StatsLemmas

variable {K : Type} [LinearOrderedField K]

theorem std_max_eq_max (a b : K) : std_max a b = max a b := by
  unfold std_max
  split_ifs with h
  · exact (max_eq_right h.le).symm
  · exact (max_eq_left (not_lt.mp h)).symm

theorem statsStep_unknown (m : FloatEnv K) (flowvec : Nat → FVal K) (n : Nat)
    (st : FlowStats K) (hn : n < 1073741824) (hu : unknownAt flowvec n = true) :
    statsStep m flowvec n st = none := by
  unfold unknownAt at hu
  simp only [statsStep, u32_of_lt (n := 2 * n) (by omega),
    u32_of_lt (n := 2 * n + 1) (by omega), hu, if_true]

theorem statsStep_known (m : FloatEnv K) (flowvec : Nat → FVal K) (n : Nat)
    (st : FlowStats K) (hn : n < 1073741824) (hu : unknownAt flowvec n = false) :
    ∃ st2, statsStep m flowvec n st = some st2 ∧
      st2.maxrad = max st.maxrad (radAt m flowvec n) := by
  unfold unknownAt at hu
  have e : statsStep m flowvec n st = some
      { maxx := std_max st.maxx (flowvec (2 * n)).val
        maxy := std_max st.maxy (flowvec (2 * n + 1)).val
        minx := std_min st.minx (flowvec (2 * n)).val
        miny := std_min st.miny (flowvec (2 * n + 1)).val
        maxrad := std_max st.maxrad (radAt m flowvec n) } := by
    simp only [statsStep, u32_of_lt (n := 2 * n) (by omega),
      u32_of_lt (n := 2 * n + 1) (by omega), hu]
    rfl
  exact ⟨_, e, std_max_eq_max _ _⟩

/-- With an unknown vector among the first `N`, the loop has returned. -/
theorem stats_none (m : FloatEnv K) (flowvec : Nat → FVal K) (init : FlowStats K) (N : Nat)
    (hN : N ≤ 1073741824) (hex : ∃ n, n < N ∧ unknownAt flowvec n = true) :
    forRange N (fun n acc => acc.bind (statsStep m flowvec n)) (some init) = none := by
  induction N with
  | zero =>
    obtain ⟨n, hn, _⟩ := hex
    omega
  | succ k ih =>
    rw [forRange_succ]
    obtain ⟨n, hn, hu⟩ := hex
    by_cases hk : n = k
    · subst hk
      cases hprev : forRange n (fun n acc => acc.bind (statsStep m flowvec n)) (some init) with
      | none => rfl
      | some st => exact statsStep_unknown m flowvec n st (by omega) hu
    · rw [ih (by omega) ⟨n, by omega, hu⟩]
      rfl

/-- With no unknown vector among the first `N`, the loop has not returned and `maxrad`
is the running maximum of the radii, starting from its initial value. -/
theorem stats_some (m : FloatEnv K) (flowvec : Nat → FVal K) (init : FlowStats K) (N : Nat)
    (hN : N ≤ 1073741824) (hall : ∀ n, n < N → unknownAt flowvec n = false) :
    ∃ st, forRange N (fun n acc => acc.bind (statsStep m flowvec n)) (some init) = some st ∧
      st.maxrad = ((List.range N).map (radAt m flowvec)).foldl max init.maxrad := by
  induction N with
  | zero => exact ⟨init, forRange_zero _ _, rfl⟩
  | succ k ih =>
    obtain ⟨st, hst, hmax⟩ := ih (by omega) (fun n hn => hall n (by omega))
    obtain ⟨st2, hst2, hmax2⟩ := statsStep_known m flowvec k st (by omega) (hall k (by omega))
    refine ⟨st2, ?_, ?_⟩
    · rw [forRange_succ, hst]
      exact hst2
    · rw [hmax2, hmax, List.range_succ, List.map_append, List.foldl_append]
      rfl

/-- A running maximum dominates its start and every element, and is one of them. -/
theorem foldl_max_spec (r : Nat → K) (a : K) (N : Nat) :
    a ≤ ((List.range N).map r).foldl max a ∧
    (∀ n, n < N → r n ≤ ((List.range N).map r).foldl max a) ∧
    (((List.range N).map r).foldl max a = a ∨
      ∃ n, n < N ∧ ((List.range N).map r).foldl max a = r n) := by
  induction N with
  | zero => exact ⟨le_refl _, fun n hn => absurd hn (Nat.not_lt_zero n), Or.inl rfl⟩
  | succ k ih =>
    obtain ⟨h1, h2, h3⟩ := ih
    have e : ((List.range (k + 1)).map r).foldl max a =
        max (((List.range k).map r).foldl max a) (r k) := by
      rw [List.range_succ, List.map_append, List.foldl_append]
      rfl
    rw [e]
    refine ⟨le_trans h1 (le_max_left _ _), ?_, ?_⟩
    · intro n hn
      by_cases hk : n = k
      · subst hk; exact le_max_right _ _
      · exact le_trans (h2 n (by omega)) (le_max_left _ _)
    · rcases max_cases (((List.range k).map r).foldl max a) (r k) with ⟨hm, _⟩ | ⟨hm, _⟩
      · rw [hm]
        rcases h3 with h3 | ⟨n, hn, h3⟩
        · exact Or.inl h3
        · exact Or.inr ⟨n, by omega, h3⟩
      · rw [hm]
        exact Or.inr ⟨k, by omega, rfl⟩

/-- Moving the floor 1 from the end of the running maximum to its start. -/
theorem foldl_max_floor (r : Nat → K) (N : Nat) :
    max (((List.range N).map r).foldl max (-1)) 1 = ((List.range N).map r).foldl max 1 := by
  induction N with
  | zero =>
    show max (-1 : K) 1 = 1
    exact max_eq_right (by norm_num)
  | succ k ih =>
    rw [List.range_succ, List.map_append, List.foldl_append, List.foldl_append]
    show max (max _ (r k)) 1 = max _ (r k)
    rw [← ih]
    exact sup_right_comm _ _ _

/-- With no unknown vector, `maxrad` after line 128 is the maximum of 1 and all radii. -/
theorem maxradOf_some (m : FloatEnv K) (flowvec : Nat → FVal K) (w h : Nat)
    (H : w * h * 2 < 2147483648) (hall : ∀ n, n < w * h → unknownAt flowvec n = false) :
    maxradOf m flowvec w h =
      some (((List.range (w * h)).map (radAt m flowvec)).foldl max 1) := by
  have e : u32 (h * w) = w * h := by
    rw [Nat.mul_comm h w]
    exact u32_of_lt (by omega)
  obtain ⟨st, hst, hmax⟩ := stats_some m flowvec
    { maxx := -999, maxy := -999, minx := 999, miny := 999, maxrad := -1 } (w * h)
    (by omega) hall
  unfold maxradOf statsLoop
  rw [e, hst]
  simp only [Option.map_some', std_max_eq_max, hmax]
  rw [foldl_max_floor]

/-- With an unknown vector, the function has returned before line 128. -/
theorem maxradOf_none (m : FloatEnv K) (flowvec : Nat → FVal K) (w h : Nat)
    (H : w * h * 2 < 2147483648) (hex : ∃ n, n < w * h ∧ unknownAt flowvec n = true) :
    maxradOf m flowvec w h = none := by
  have e : u32 (h * w) = w * h := by
    rw [Nat.mul_comm h w]
    exact u32_of_lt (by omega)
  unfold maxradOf statsLoop
  rw [e, stats_none m flowvec _ (w * h) (by omega) hex]
  rfl

end StatsLemmas

/-! ## `ComputeColor` and the colouring loop: lemmas -/

section ColorLemmas

variable {K : Type} [LinearOrderedField K] [FloorRing K]

/-- The three entries of `pix` after `ComputeColor`, and the untouched rest. -/
theorem ComputeColor_apply (m : FloatEnv K) (s : WheelState) (fx fy : K) (pix : Nat → Nat)
    (j : Nat) :
    ComputeColor m s fx fy pix j =
      if j = 0 then toU8 (truncToInt (m.rnd (255 * ComputeColor.col m s fx fy 2)))
      else if j = 1 then toU8 (truncToInt (m.rnd (255 * ComputeColor.col m s fx fy 1)))
      else if j = 2 then toU8 (truncToInt (m.rnd (255 * ComputeColor.col m s fx fy 0)))
      else pix j := by
  unfold ComputeColor
  rw [forRange_succ, forRange_succ, forRange_succ, forRange_zero]
  simp only [store]
  by_cases h0 : j = 0
  · subst h0; simp
  · by_cases h1 : j = 1
    · subst h1; simp
    · by_cases h2 : j = 2
      · subst h2; simp
      · simp [h0, h1, h2]

/-- The entries 0, 1, 2 of the pixel do not depend on what `pix` held before. -/
theorem pixelOf_indep (m : FloatEnv K) (wheel : WheelState) (maxrad : K) (fx fy : FVal K)
    (p q : Nat → Nat) (j : Nat) (hj : j < 3) :
    pixelOf m wheel maxrad fx fy p j = pixelOf m wheel maxrad fx fy q j := by
  unfold pixelOf
  split_ifs
  · simp only [store]
    have hcase : j = 0 ∨ j = 1 ∨ j = 2 := by omega
    rcases hcase with h | h | h <;> subst h <;> simp
  · rw [ComputeColor_apply, ComputeColor_apply]
    have hcase : j = 0 ∨ j = 1 ∨ j = 2 := by omega
    rcases hcase with h | h | h <;> subst h <;> simp

theorem colorStep_apply (m : FloatEnv K) (pix0 : Nat → Nat) (wheel : WheelState)
    (flowvec : Nat → FVal K) (maxrad : K) (w h y x : Nat) (H : w * h * 2 < 2147483648)
    (hy : y < h) (hx : x < w) (out : Nat → Nat) (j : Nat) :
    colorStep m pix0 wheel flowvec maxrad w y x out j =
      if 3 * (y * w + x) ≤ j ∧ j < 3 * (y * w + (x + 1)) then
        imageByte m pix0 wheel flowvec maxrad j
      else out j := by
  have hc := cell_lt hy hx
  simp only [colorStep, read_idx H hy hx, write_idx H hy hx,
    u32_of_lt (n := 2 * (y * w + x) + 1) (by omega),
    u32_of_lt (n := 3 * (y * w + x) + 1) (by omega),
    u32_of_lt (n := 3 * (y * w + x) + 2) (by omega), store, imageByte]
  by_cases h2 : j = 3 * (y * w + x) + 2
  · have e1 : j % 3 = 2 := by omega
    have e2 : j / 3 = y * w + x := by omega
    rw [if_pos h2, if_pos (by omega), e1, e2]
  · rw [if_neg h2]
    by_cases h1 : j = 3 * (y * w + x) + 1
    · have e1 : j % 3 = 1 := by omega
      have e2 : j / 3 = y * w + x := by omega
      rw [if_pos h1, if_pos (by omega), e1, e2]
    · rw [if_neg h1]
      by_cases h0 : j = 3 * (y * w + x)
      · have e1 : j % 3 = 0 := by omega
        have e2 : j / 3 = y * w + x := by omega
        rw [if_pos h0, if_pos (by omega), e1, e2]
      · rw [if_neg h0, if_neg (by omega)]

/-- Closed form of the image after the colouring loop: the first `3 * (w * h)` bytes
hold the pixels, the others are untouched. -/
theorem colorLoop_apply (m : FloatEnv K) (pix0 : Nat → Nat) (wheel : WheelState)
    (flowvec : Nat → FVal K) (maxrad : K) (w h : Nat) (H : w * h * 2 < 2147483648)
    (out : Nat → Nat) (j : Nat) :
    colorLoop m pix0 wheel flowvec maxrad w h out j =
      if j < 3 * (w * h) then imageByte m pix0 wheel flowvec maxrad j else out j := by
  have inner : ∀ y, y < h → ∀ arr j,
      forRange w (fun x o => colorStep m pix0 wheel flowvec maxrad w y x o) arr j =
        if 3 * (y * w) ≤ j ∧ j < 3 * ((y + 1) * w) then
          imageByte m pix0 wheel flowvec maxrad j
        else arr j := by
    intro y hy arr j
    have hfill := forRange_fill w (fun x => 3 * (y * w + x))
      (imageByte m pix0 wheel flowvec maxrad)
      (fun x o => colorStep m pix0 wheel flowvec maxrad w y x o)
      (fun i _ => by dsimp only; omega)
      (fun x hx arr j => colorStep_apply m pix0 wheel flowvec maxrad w h y x H hy hx arr j)
      arr j
    rw [hfill]
    have e : y * w + w = (y + 1) * w := by ring
    simp only [Nat.add_zero, e]
  have outer := forRange_fill h (fun y => 3 * (y * w))
    (imageByte m pix0 wheel flowvec maxrad)
    (fun y o => forRange w (fun x o => colorStep m pix0 wheel flowvec maxrad w y x o) o)
    (fun i _ => by
      have : i * w ≤ (i + 1) * w := Nat.mul_le_mul_right w (by omega)
      dsimp only
      omega)
    (fun y hy arr j => inner y hy arr j) out j
  have e : h * w = w * h := Nat.mul_comm h w
  unfold colorLoop
  rw [outer]
  simp only [Nat.zero_mul, Nat.mul_zero, Nat.zero_le, true_and, e]

end ColorLemmas

/-! ## The whole of `postProcessVectors`: lemmas -/

section WholeLemmas

variable {K : Type} [LinearOrderedField K]

/-- A 16-bit integer and its quotient by 32 are numbers a `float` holds exactly. -/
theorem int16_binary32 (v : Int) (hv : isInt16 v) :
    isBinary32 (v : K) ∧ isBinary32 ((v : K) / 32) := by
  have habs : |v| < 16777216 := by
    unfold isInt16 at hv
    rw [abs_lt]
    constructor <;> omega
  constructor
  · exact ⟨v, 0, habs, by norm_num, by norm_num, by simp⟩
  · refine ⟨v, -5, habs, by norm_num, by norm_num, ?_⟩
    rw [zpow_neg, div_eq_mul_inv]
    norm_num

/-- Decoding a 16-bit component is exact under a rounding that fixes `float` numbers. -/
theorem decode_value (m : FloatEnv K) (hfix : RoundsToFloat m) (v : Int) (hv : isInt16 v) :
    m.rnd (m.rnd (v : K) / 32) = (v : K) / 32 := by
  rw [hfix _ (int16_binary32 v hv).1, hfix _ (int16_binary32 v hv).2]

/-- A vector decoded from 16-bit components is never classified unknown. -/
theorem int16_not_unknown (x y : Int) (hx : isInt16 x) (hy : isInt16 y) :
    unknown_flow (FVal.num ((x : K) / 32)) (FVal.num ((y : K) / 32)) = false := by
  have bound : ∀ v : Int, isInt16 v → ¬ ((1000000000 : K) < |(v : K) / 32|) := by
    intro v hv
    have h1 : |v| ≤ 32768 := by
      unfold isInt16 at hv
      rw [abs_le]
      constructor <;> omega
    have h2 : |(v : K)| ≤ 32768 := by
      rw [← Int.cast_abs]
      exact_mod_cast h1
    have h3 : |(v : K) / 32| = |(v : K)| / 32 := by
      rw [abs_div, abs_of_pos (by norm_num : (0 : K) < 32)]
    rw [h3, not_lt]
    have h4 : |(v : K)| / 32 ≤ 32768 / 32 := by
      apply div_le_div_of_nonneg_right h2
      norm_num
    have h5 : (32768 : K) / 32 ≤ 1000000000 := by norm_num
    exact le_trans h4 h5
  simp [unknown_flow, FVal.isnan, FVal.fabsGt, UNKNOWN_FLOW_THRESH, bound x hx, bound y hy]

/-- The two cells of vector `n` in the decoded array. -/
theorem decodeLoop_pair (m : FloatEnv K) (hfix : RoundsToFloat m) (fv : Nat → NV_OF_FLOW_VECTOR)
    (w h : Nat) (H : w * h * 2 < 2147483648) (junk : Nat → FVal K) (n : Nat)
    (hn : n < w * h) (h16 : isInt16 (fv n).flowx ∧ isInt16 (fv n).flowy) :
    decodeLoop m fv w h junk (2 * n) = FVal.num (((fv n).flowx : K) / 32) ∧
    decodeLoop m fv w h junk (2 * n + 1) = FVal.num (((fv n).flowy : K) / 32) := by
  constructor
  · rw [decodeLoop_apply m fv w h H, if_pos (by omega)]
    have a1 : (2 * n) % 2 = 0 := by omega
    have a2 : (2 * n) / 2 = n := by omega
    simp only [decodedCell, a1, a2, if_true, decode_value m hfix _ h16.1]
  · rw [decodeLoop_apply m fv w h H, if_pos (by omega)]
    have a1 : (2 * n + 1) % 2 ≠ 0 := by omega
    have a2 : (2 * n + 1) / 2 = n := by omega
    simp only [decodedCell, a1, a2, if_false, decode_value m hfix _ h16.2]

end WholeLemmas

section WholeLemmasFloor

variable {K : Type} [LinearOrderedField K] [FloorRing K]

/-- Closed form of `postProcessVectors` on a field of 16-bit vectors: the globals are
unchanged, the first `3 * (w * h)` bytes are the pixels, the other bytes are unchanged. -/
theorem postProcessVectors_apply (m : FloatEnv K) (hfix : RoundsToFloat m) (u : Uninit K)
    (fv : Nat → NV_OF_FLOW_VECTOR) (w h : Nat) (st : VisState) (H : w * h * 2 < 2147483648)
    (h16 : ∀ n, n < w * h → isInt16 (fv n).flowx ∧ isInt16 (fv n).flowy) :
    maxradOf m (decodeLoop m fv w h u.flowvec) w h = some (fieldMaxrad m fv w h) ∧
    postProcessVectors m u fv w h st =
      { wheel := st.wheel
        output := fun j =>
          if j < 3 * (w * h) then fieldByte m st.wheel fv w h j else st.output j } := by
  have hpair := fun n hn => decodeLoop_pair m hfix fv w h H u.flowvec n hn (h16 n hn)
  have hknown : ∀ n, n < w * h → unknownAt (decodeLoop m fv w h u.flowvec) n = false := by
    intro n hn
    unfold unknownAt
    rw [(hpair n hn).1, (hpair n hn).2]
    exact int16_not_unknown _ _ (h16 n hn).1 (h16 n hn).2
  have hrad : (List.range (w * h)).map (radAt m (decodeLoop m fv w h u.flowvec)) =
      (List.range (w * h)).map (fieldRadius m fv) := by
    apply List.map_congr_left
    intro n hn
    rw [List.mem_range] at hn
    unfold radAt fieldRadius
    rw [(hpair n hn).1, (hpair n hn).2]
    rfl
  have hM : maxradOf m (decodeLoop m fv w h u.flowvec) w h =
      some (fieldMaxrad m fv w h) := by
    rw [maxradOf_some m _ w h H hknown, hrad]
    rfl
  refine ⟨hM, ?_⟩
  unfold postProcessVectors postProcessDecoded
  rw [hM]
  show ({ wheel := st.wheel,
          output := colorLoop m u.pix st.wheel (decodeLoop m fv w h u.flowvec)
            (fieldMaxrad m fv w h) w h st.output } : VisState) = _
  congr 1
  funext j
  rw [colorLoop_apply m u.pix st.wheel _ _ w h H]
  by_cases hj : j < 3 * (w * h)
  · rw [if_pos hj, if_pos hj]
    have hn : j / 3 < w * h := by omega
    have h3 : j % 3 < 3 := Nat.mod_lt j (by norm_num)
    unfold imageByte fieldByte
    rw [(hpair _ hn).1, (hpair _ hn).2, pixelOf_indep m st.wheel _ _ _ u.pix (fun _ => 0) _ h3]
    unfold pixelOf
    rw [int16_not_unknown _ _ (h16 _ hn).1 (h16 _ hn).2]
    rfl
  · rw [if_neg hj, if_neg hj]

end WholeLemmasFloor

/-! ## C4: decoding -/

/-- C4: in a field of width `w` and height `h` whose size expression
`outwidth * outheight * 2` fits an `int`, under a rounding that leaves `float` numbers as
they are, the vector at row `r`, column `c` with signed 16-bit raw components `(x, y)` is
decoded to exactly `(x / 32, y / 32)`, stored at positions `2 * (r * w + c)` and
`2 * (r * w + c) + 1`; both quotients are numbers a binary32 `float` holds exactly; raw
`(32, -64)` decodes to `(1, -2)`. -/
theorem C4_decode_exact {K : Type} [LinearOrderedField K] (m : FloatEnv K)
    (fv : Nat → NV_OF_FLOW_VECTOR) (w h : Nat) (junk : Nat → FVal K) (r c : Nat)
    (hfix : RoundsToFloat m) (H : w * h * 2 < 2147483648) (hr : r < h) (hc : c < w)
    (h16 : isInt16 (fv (r * w + c)).flowx ∧ isInt16 (fv (r * w + c)).flowy) :
    decodeLoop m fv w h junk (2 * (r * w + c)) =
      FVal.num (((fv (r * w + c)).flowx : K) / 32) ∧
    decodeLoop m fv w h junk (2 * (r * w + c) + 1) =
      FVal.num (((fv (r * w + c)).flowy : K) / 32) ∧
    isBinary32 (((fv (r * w + c)).flowx : K) / 32) ∧
    isBinary32 (((fv (r * w + c)).flowy : K) / 32) ∧
    (fv (r * w + c) = { flowx := 32, flowy := -64 } →
      decodeLoop m fv w h junk (2 * (r * w + c)) = FVal.num 1 ∧
      decodeLoop m fv w h junk (2 * (r * w + c) + 1) = FVal.num (-2)) := by
  obtain ⟨e0, e1⟩ := decodeLoop_pair m hfix fv w h H junk (r * w + c) (cell_lt hr hc) h16
  refine ⟨e0, e1, (int16_binary32 _ h16.1).2, (int16_binary32 _ h16.2).2, ?_⟩
  intro hv
  rw [e0, e1, hv]
  norm_num

/-- Witness for C4: a 1 by 1 field holding raw `(32, -64)`, decoded without rounding. -/
theorem C4_decode_exact_witness :
    let m : FloatEnv ℝ :=
      { rnd := fun x => x, rndd := fun x => x, sqrt := Real.sqrt, sqrtf := Real.sqrt,
        atan2f := fun y x => Complex.arg (Complex.mk x y), M_PI := Real.pi }
    decodeLoop m (fun _ => { flowx := 32, flowy := -64 }) 1 1 (fun _ => FVal.nan)
        (2 * (0 * 1 + 0)) = FVal.num 1 ∧
    decodeLoop m (fun _ => { flowx := 32, flowy := -64 }) 1 1 (fun _ => FVal.nan)
        (2 * (0 * 1 + 0) + 1) = FVal.num (-2) := by
  intro m
  exact (C4_decode_exact m (fun _ => { flowx := 32, flowy := -64 }) 1 1 (fun _ => FVal.nan)
    0 0 (fun _ _ => rfl) (by norm_num) (by norm_num) (by norm_num)
    ⟨by unfold isInt16; norm_num, by unfold isInt16; norm_num⟩).2.2.2.2 rfl

/-! ## C5: an unknown vector suppresses the image -/

/-- C5: `unknown_flow` holds exactly when a component is not-a-number or has magnitude
above 1e9; and if vector `n` of the decoded field is classified unknown, the part of
`postProcessVectors` after the decode loop returns with the image (and the globals) as
they were before the call, whatever the other vectors are. -/
theorem C5_unknown_suppresses_output {K : Type} [LinearOrderedField K] [FloorRing K]
    (m : FloatEnv K) (pix0 : Nat → Nat) (flowvec : Nat → FVal K) (w h : Nat) (st : VisState)
    (n : Nat) (H : w * h * 2 < 2147483648) (hn : n < w * h)
    (hu : unknown_flow (flowvec (2 * n)) (flowvec (2 * n + 1)) = true) :
    postProcessDecoded m pix0 flowvec w h st = st ∧
    (postProcessDecoded m pix0 flowvec w h st).output = st.output ∧
    (∀ u v : FVal K, unknown_flow u v = true ↔
      (u = FVal.nan ∨ v = FVal.nan ∨ (∃ x, u = FVal.num x ∧ 1000000000 < |x|) ∨
        (∃ y, v = FVal.num y ∧ 1000000000 < |y|))) := by
  have hret : postProcessDecoded m pix0 flowvec w h st = st := by
    unfold postProcessDecoded
    rw [maxradOf_none m flowvec w h H ⟨n, hn, hu⟩]
  refine ⟨hret, by rw [hret], ?_⟩
  intro u v
  cases u with
  | nan => simp [unknown_flow, FVal.isnan]
  | num x =>
    cases v with
    | nan => simp [unknown_flow, FVal.isnan]
    | num y => simp [unknown_flow, FVal.isnan, FVal.fabsGt, UNKNOWN_FLOW_THRESH]

/-- Witness for C5: a 2 by 1 field whose second vector has a not-a-number component,
with the exact real library functions. -/
theorem C5_unknown_suppresses_output_witness :
    postProcessDecoded
      ({ rnd := fun x => x, rndd := fun x => x, sqrt := Real.sqrt, sqrtf := Real.sqrt,
         atan2f := fun y x => Complex.arg (Complex.mk x y), M_PI := Real.pi } : FloatEnv ℝ)
      (fun _ => 0) (fun j => if j = 2 then FVal.nan else FVal.num 1) 2 1
      { wheel := MakeColorWheel initialWheel, output := fun _ => 7 } =
    { wheel := MakeColorWheel initialWheel, output := fun _ => 7 } :=
  (C5_unknown_suppresses_output _ _ (fun j => if j = 2 then FVal.nan else FVal.num 1) 2 1 _ 1
    (by norm_num) (by norm_num) (by simp [unknown_flow, FVal.isnan])).1

/-! ## C6: the normalisation radius -/

/-- C6: for a decoded field with no unknown vector, `maxrad` after line 128 is the
maximum of 1 and the radii `sqrt(fx * fx + fy * fy)` of all vectors: it is at least 1,
at least every radius, and equal to 1 or to one of the radii; it is the value the
colouring loop is run with; for an empty field, and for a field whose radii are all at
most 1, it is exactly 1. -/
theorem C6_maxrad {K : Type} [LinearOrderedField K] [FloorRing K]
    (m : FloatEnv K) (pix0 : Nat → Nat) (flowvec : Nat → FVal K) (w h : Nat) (st : VisState)
    (H : w * h * 2 < 2147483648)
    (hall : ∀ n, n < w * h → unknown_flow (flowvec (2 * n)) (flowvec (2 * n + 1)) = false) :
    ∃ M : K, maxradOf m flowvec w h = some M ∧
      M = ((List.range (w * h)).map (radAt m flowvec)).foldl max 1 ∧
      postProcessDecoded m pix0 flowvec w h st =
        { st with output := colorLoop m pix0 st.wheel flowvec M w h st.output } ∧
      1 ≤ M ∧
      (∀ n, n < w * h → radAt m flowvec n ≤ M) ∧
      (M = 1 ∨ ∃ n, n < w * h ∧ M = radAt m flowvec n) ∧
      (w * h = 0 → M = 1) ∧
      ((∀ n, n < w * h → radAt m flowvec n ≤ 1) → M = 1) := by
  have hM := maxradOf_some m flowvec w h H hall
  obtain ⟨h1, h2, h3⟩ := foldl_max_spec (radAt m flowvec) 1 (w * h)
  refine ⟨_, hM, rfl, ?_, h1, h2, h3, ?_, ?_⟩
  · unfold postProcessDecoded
    rw [hM]
  · intro h0
    rw [h0]
    rfl
  · intro hle
    rcases h3 with h3 | ⟨n, hn, h3⟩
    · exact h3
    · exact le_antisymm (h3 ▸ hle n hn) h1

/-- Witness for C6: the 1 by 1 field holding the vector (3, 4), of radius 5, with the
exact real library functions. -/
theorem C6_maxrad_witness :
    ∃ M : ℝ,
      maxradOf
        ({ rnd := fun x => x, rndd := fun x => x, sqrt := Real.sqrt, sqrtf := Real.sqrt,
           atan2f := fun y x => Complex.arg (Complex.mk x y), M_PI := Real.pi } : FloatEnv ℝ)
        (fun j => if j = 0 then FVal.num 3 else FVal.num 4) 1 1 = some M ∧
      1 ≤ M := by
  obtain ⟨M, hM, _, _, h1, _⟩ := C6_maxrad
    ({ rnd := fun x => x, rndd := fun x => x, sqrt := Real.sqrt, sqrtf := Real.sqrt,
       atan2f := fun y x => Complex.arg (Complex.mk x y), M_PI := Real.pi } : FloatEnv ℝ)
    (fun _ => 0) (fun j => if j = 0 then FVal.num 3 else FVal.num 4) 1 1
    { wheel := MakeColorWheel initialWheel, output := fun _ => 0 }
    (by norm_num)
    (by
      intro n hn
      have h0 : n = 0 := by omega
      subst h0
      simp [unknown_flow, FVal.isnan, FVal.fabsGt, UNKNOWN_FLOW_THRESH]
      norm_num)
  exact ⟨M, hM, h1⟩

/-! ## Exact arithmetic: lemmas -/

theorem exact_rad (m : FloatEnv ℝ) (hm : IsExact m) (fx fy : ℝ) :
    ComputeColor.rad m fx fy = Real.sqrt (fx * fx + fy * fy) := by
  obtain ⟨hr, _, _, hsqf, _, _⟩ := hm
  unfold ComputeColor.rad
  simp only [hr, hsqf]

theorem exact_a (m : FloatEnv ℝ) (hm : IsExact m) (fx fy : ℝ) :
    ComputeColor.a m fx fy = Complex.arg (Complex.mk (-fx) (-fy)) / Real.pi := by
  obtain ⟨hr, hrd, _, _, hat, hpi⟩ := hm
  unfold ComputeColor.a
  simp only [hr, hrd, hat, hpi]

theorem exact_fk (m : FloatEnv ℝ) (hm : IsExact m) (s : WheelState) (fx fy : ℝ) :
    ComputeColor.fk m s fx fy =
      (ComputeColor.a m fx fy + 1) / 2 * ((s.m_ncols - 1 : Int) : ℝ) := by
  unfold ComputeColor.fk
  simp only [hm.1]

theorem exact_f (m : FloatEnv ℝ) (hm : IsExact m) (s : WheelState) (fx fy : ℝ) :
    ComputeColor.f m s fx fy =
      ComputeColor.fk m s fx fy - ((ComputeColor.k0 m s fx fy : Int) : ℝ) := by
  unfold ComputeColor.f
  simp only [hm.1]

theorem exact_interp (m : FloatEnv ℝ) (hm : IsExact m) (s : WheelState) (fx fy : ℝ) (b : Int) :
    ComputeColor.interp m s fx fy b =
      (1 - ComputeColor.f m s fx fy) *
          (((s.m_colorwheel (ComputeColor.k0 m s fx fy) b : Int) : ℝ) / 255) +
        ComputeColor.f m s fx fy *
          (((s.m_colorwheel (ComputeColor.k1 m s fx fy) b : Int) : ℝ) / 255) := by
  unfold ComputeColor.interp
  simp only [hm.1]

theorem exact_col (m : FloatEnv ℝ) (hm : IsExact m) (s : WheelState) (fx fy : ℝ) (b : Int) :
    ComputeColor.col m s fx fy b =
      if ComputeColor.rad m fx fy ≤ 1 then
        1 - ComputeColor.rad m fx fy * (1 - ComputeColor.interp m s fx fy b)
      else ComputeColor.interp m s fx fy b * (3 / 4) := by
  unfold ComputeColor.col
  simp only [hm.1]

/-- In exact arithmetic the angle `a` lies in `(-1, 1]`. -/
theorem exact_a_bounds (m : FloatEnv ℝ) (hm : IsExact m) (fx fy : ℝ) :
    -1 < ComputeColor.a m fx fy ∧ ComputeColor.a m fx fy ≤ 1 := by
  rw [exact_a m hm]
  constructor
  · rw [lt_div_iff₀ Real.pi_pos]
    have := Complex.neg_pi_lt_arg (Complex.mk (-fx) (-fy))
    linarith
  · rw [div_le_one Real.pi_pos]
    exact Complex.arg_le_pi _

/-- In exact arithmetic, with a 55-entry table, `fk` is `(a + 1) / 2 * 54`. -/
theorem fk_of_ncols (m : FloatEnv ℝ) (hm : IsExact m) (s : WheelState) (hs : s.m_ncols = 55)
    (fx fy : ℝ) :
    ComputeColor.fk m s fx fy = (ComputeColor.a m fx fy + 1) / 2 * 54 := by
  rw [exact_fk m hm, hs]
  norm_num

/-- In exact arithmetic, with a 55-entry table, `fk` lies in `(0, 54]`. -/
theorem exact_fk_bounds (m : FloatEnv ℝ) (hm : IsExact m) (s : WheelState)
    (hs : s.m_ncols = 55) (fx fy : ℝ) :
    0 < ComputeColor.fk m s fx fy ∧ ComputeColor.fk m s fx fy ≤ 54 := by
  obtain ⟨h1, h2⟩ := exact_a_bounds m hm fx fy
  rw [fk_of_ncols m hm s hs]
  constructor <;> nlinarith

/-- In exact arithmetic, with a 55-entry table, `k0` is the floor of `fk` and lies in
`0..54`. -/
theorem exact_k0 (m : FloatEnv ℝ) (hm : IsExact m) (s : WheelState)
    (hs : s.m_ncols = 55) (fx fy : ℝ) :
    ComputeColor.k0 m s fx fy = ⌊ComputeColor.fk m s fx fy⌋ ∧
      0 ≤ ComputeColor.k0 m s fx fy ∧ ComputeColor.k0 m s fx fy ≤ 54 := by
  obtain ⟨h1, h2⟩ := exact_fk_bounds m hm s hs fx fy
  have e : ComputeColor.k0 m s fx fy = ⌊ComputeColor.fk m s fx fy⌋ := by
    unfold ComputeColor.k0 truncToInt
    rw [if_pos h1.le]
  rw [e]
  refine ⟨rfl, Int.floor_nonneg.mpr h1.le, ?_⟩
  have hle : ⌊ComputeColor.fk m s fx fy⌋ ≤ ⌊(54 : ℝ)⌋ := Int.floor_le_floor h2
  have h54 : ⌊(54 : ℝ)⌋ = 54 := by
    rw [Int.floor_eq_iff]
    norm_num
  omega

/-- In exact arithmetic, with a 55-entry table, `fk` is never `(a + 1) / 2 * 59`. -/
theorem fk_ne_59 (m : FloatEnv ℝ) (hm : IsExact m) (s : WheelState)
    (hs : s.m_ncols = 55) (fx fy : ℝ) :
    ComputeColor.fk m s fx fy ≠ (ComputeColor.a m fx fy + 1) / 2 * 59 := by
  intro h
  rw [fk_of_ncols m hm s hs] at h
  have ha := (exact_a_bounds m hm fx fy).1
  linarith

/-- In exact arithmetic the vector `(0, 1)` has angle `a = -1/2`. -/
theorem exact_up_a (m : FloatEnv ℝ) (hm : IsExact m) : ComputeColor.a m 0 1 = -(1 / 2) := by
  rw [exact_a m hm]
  have e : Complex.mk (-0) (-1) = -Complex.I := by
    apply Complex.ext <;> simp
  rw [e, Complex.arg_neg_I]
  field_simp
  ring

/-- In exact arithmetic, with the table built, the vector `(0, 1)` falls between rows 13
and 14, its red channel interpolates to 1, and the radius adjustment leaves it at 1. -/
theorem exact_up_col (m : FloatEnv ℝ) (hm : IsExact m) (s0 : WheelState) :
    ComputeColor.interp m (MakeColorWheel s0) 0 1 0 = 1 ∧
    ComputeColor.col m (MakeColorWheel s0) 0 1 0 = 1 := by
  have hs := MakeColorWheel_ncols s0
  have hfk : ComputeColor.fk m (MakeColorWheel s0) 0 1 = 27 / 2 := by
    rw [fk_of_ncols m hm _ hs, exact_up_a m hm]
    norm_num
  have hk0 : ComputeColor.k0 m (MakeColorWheel s0) 0 1 = 13 := by
    rw [(exact_k0 m hm _ hs 0 1).1, hfk, Int.floor_eq_iff]
    norm_num
  have hk1 : ComputeColor.k1 m (MakeColorWheel s0) 0 1 = 14 := by
    unfold ComputeColor.k1
    rw [hk0, hs]
    decide
  have hf : ComputeColor.f m (MakeColorWheel s0) 0 1 = 1 / 2 := by
    rw [exact_f m hm, hfk, hk0]
    norm_num
  have t13 : (MakeColorWheel s0).m_colorwheel 13 0 = 255 := by
    rw [MakeColorWheel_table]
    norm_num [chan]
  have t14 : (MakeColorWheel s0).m_colorwheel 14 0 = 255 := by
    rw [MakeColorWheel_table]
    norm_num [chan]
  have hi : ComputeColor.interp m (MakeColorWheel s0) 0 1 0 = 1 := by
    rw [exact_interp m hm, hk0, hk1, hf, t13, t14]
    norm_num
  refine ⟨hi, ?_⟩
  have hrad : ComputeColor.rad m 0 1 = 1 := by
    rw [exact_rad m hm]
    norm_num
  rw [exact_col m hm, hi, hrad]
  norm_num

/-- The conversion `(int)x` of a whole non-negative number. -/
theorem truncToInt_natCast (n : Nat) : truncToInt ((n : ℝ)) = n := by
  unfold truncToInt
  rw [if_pos (Nat.cast_nonneg n)]
  exact Int.floor_natCast n

/-- The 1 by 1 field holding raw `(0, 64)`, in exact arithmetic: the radius of its vector
and its maximal radius are 2. -/
theorem up_field_radius (m : FloatEnv ℝ) (hm : IsExact m) :
    fieldRadius m (fun _ => { flowx := 0, flowy := 64 }) 0 = 2 ∧
    fieldMaxrad m (fun _ => { flowx := 0, flowy := 64 }) 1 1 = 2 := by
  have hR : fieldRadius m (fun _ => { flowx := 0, flowy := 64 }) 0 = 2 := by
    unfold fieldRadius
    simp only [hm.1, hm.2.2.1]
    have e : ((((0 : Int) : ℝ) / 32) * (((0 : Int) : ℝ) / 32) +
        (((64 : Int) : ℝ) / 32) * (((64 : Int) : ℝ) / 32)) = 2 * 2 := by norm_num
    rw [e]
    exact Real.sqrt_mul_self (by norm_num)
  refine ⟨hR, ?_⟩
  show max 1 (fieldRadius m (fun _ => { flowx := 0, flowy := 64 }) 0) = 2
  rw [hR]
  norm_num

/-! ## C7: the table index in exact arithmetic -/

/-- C7, as stated, fails: with the table built, for the vector `(-1, 0)` in exact
arithmetic, `fk` is not `(a + 1) / 2 * 59`. -/
theorem C7_counterexample :
    let m : FloatEnv ℝ :=
      { rnd := fun x => x, rndd := fun x => x, sqrt := Real.sqrt, sqrtf := Real.sqrt,
        atan2f := fun y x => Complex.arg (Complex.mk x y), M_PI := Real.pi }
    ¬ (ComputeColor.fk m (MakeColorWheel initialWheel) (-1) 0 =
          (ComputeColor.a m (-1) 0 + 1) / 2 * 59 ∧
        ComputeColor.k1 m (MakeColorWheel initialWheel) (-1) 0 =
          (ComputeColor.k0 m (MakeColorWheel initialWheel) (-1) 0 + 1) % 60) := by
  intro m h
  exact fk_ne_59 m ⟨fun _ => rfl, fun _ => rfl, rfl, rfl, fun _ _ => rfl, rfl⟩ _
    (MakeColorWheel_ncols initialWheel) _ _ h.1

/-- C7 (amended): in exact arithmetic, for every vector `(fx, fy)` passed to
`ComputeColor` with the table built (55 entries): `a = atan2(-fy, -fx) / π` lies in
`[-1, 1]`, `fk = (a + 1) / 2 * 54`, `k0 = floor(fk)`, `k1 = (k0 + 1) mod 55`,
`f = fk - k0`, and channel `b` is interpolated as
`(1 - f) * table[k0][b] / 255 + f * table[k1][b] / 255` before the radius adjustment. -/
theorem C7_table_index (m : FloatEnv ℝ) (hm : IsExact m) (s0 : WheelState) (fx fy : ℝ) :
    ComputeColor.a m fx fy = Complex.arg (Complex.mk (-fx) (-fy)) / Real.pi ∧
    -1 ≤ ComputeColor.a m fx fy ∧ ComputeColor.a m fx fy ≤ 1 ∧
    ComputeColor.fk m (MakeColorWheel s0) fx fy = (ComputeColor.a m fx fy + 1) / 2 * 54 ∧
    ComputeColor.k0 m (MakeColorWheel s0) fx fy = ⌊ComputeColor.fk m (MakeColorWheel s0) fx fy⌋ ∧
    ComputeColor.k1 m (MakeColorWheel s0) fx fy =
      (ComputeColor.k0 m (MakeColorWheel s0) fx fy + 1) % 55 ∧
    ComputeColor.f m (MakeColorWheel s0) fx fy =
      ComputeColor.fk m (MakeColorWheel s0) fx fy -
        (ComputeColor.k0 m (MakeColorWheel s0) fx fy : ℝ) ∧
    (∀ b : Int, ComputeColor.interp m (MakeColorWheel s0) fx fy b =
      (1 - ComputeColor.f m (MakeColorWheel s0) fx fy) *
          (((MakeColorWheel s0).m_colorwheel
            (ComputeColor.k0 m (MakeColorWheel s0) fx fy) b : Int) : ℝ) / 255 +
        ComputeColor.f m (MakeColorWheel s0) fx fy *
          (((MakeColorWheel s0).m_colorwheel
            (ComputeColor.k1 m (MakeColorWheel s0) fx fy) b : Int) : ℝ) / 255) := by
  have hs := MakeColorWheel_ncols s0
  obtain ⟨ha1, ha2⟩ := exact_a_bounds m hm fx fy
  obtain ⟨hk, hk0, hk54⟩ := exact_k0 m hm (MakeColorWheel s0) hs fx fy
  refine ⟨exact_a m hm fx fy, ha1.le, ha2, fk_of_ncols m hm _ hs fx fy, hk, ?_,
    exact_f m hm _ fx fy, ?_⟩
  · unfold ComputeColor.k1
    rw [hs]
    exact Int.tmod_eq_emod (by omega) (by norm_num)
  · intro b
    rw [exact_interp m hm]
    ring

/-- Witness for C7: the exact real library functions and the vector `(1, 0)`. -/
theorem C7_table_index_witness :
    let m : FloatEnv ℝ :=
      { rnd := fun x => x, rndd := fun x => x, sqrt := Real.sqrt, sqrtf := Real.sqrt,
        atan2f := fun y x => Complex.arg (Complex.mk x y), M_PI := Real.pi }
    ComputeColor.fk m (MakeColorWheel initialWheel) 1 0 =
      (ComputeColor.a m 1 0 + 1) / 2 * 54 := by
  intro m
  exact (C7_table_index m ⟨fun _ => rfl, fun _ => rfl, rfl, rfl, fun _ _ => rfl, rfl⟩
    initialWheel 1 0).2.2.2.1

/-! ## C8: the radius adjustment -/

/-- C8, as stated, fails: in the 1 by 1 field holding raw `(0, 64)`, that is the vector
`(0, 2)` of un-normalised radius 2, in exact arithmetic with the table built, the red
byte of the pixel (offset 2) is not the one obtained by choosing the branch by the
un-normalised radius (which would scale by 0.75 and give 191); the code stores 255. -/
theorem C8_counterexample :
    let m : FloatEnv ℝ :=
      { rnd := fun x => x, rndd := fun x => x, sqrt := Real.sqrt, sqrtf := Real.sqrt,
        atan2f := fun y x => Complex.arg (Complex.mk x y), M_PI := Real.pi }
    let fv : Nat → NV_OF_FLOW_VECTOR := fun _ => { flowx := 0, flowy := 64 }
    let wheel : WheelState := MakeColorWheel initialWheel
    let interp : ℝ :=
      ComputeColor.interp m wheel ((((fv 0).flowx : ℝ) / 32) / fieldMaxrad m fv 1 1)
        ((((fv 0).flowy : ℝ) / 32) / fieldMaxrad m fv 1 1) 0
    ¬ ((postProcessVectors m { flowvec := fun _ => FVal.nan, pix := fun _ => 0 } fv 1 1
          { wheel := wheel, output := fun _ => 0 }).output 2 =
        toU8 (truncToInt (255 *
          (if fieldRadius m fv 0 ≤ 1 then 1 - fieldRadius m fv 0 * (1 - interp)
           else interp * (3 / 4))))) := by
  intro m fv wheel interp
  have hm : IsExact m := ⟨fun _ => rfl, fun _ => rfl, rfl, rfl, fun _ _ => rfl, rfl⟩
  obtain ⟨hR, hM⟩ := up_field_radius m hm
  obtain ⟨hi, hcol⟩ := exact_up_col m hm initialWheel
  have hx : (((fv 0).flowx : ℝ) / 32) / fieldMaxrad m fv 1 1 = 0 := by
    rw [hM]
    show (((0 : Int) : ℝ) / 32) / 2 = 0
    norm_num
  have hy : (((fv 0).flowy : ℝ) / 32) / fieldMaxrad m fv 1 1 = 1 := by
    rw [hM]
    show (((64 : Int) : ℝ) / 32) / 2 = 1
    norm_num
  have hinterp : interp = 1 := by
    show ComputeColor.interp m wheel _ _ 0 = 1
    rw [hx, hy]
    exact hi
  have hout : (postProcessVectors m { flowvec := fun _ => FVal.nan, pix := fun _ => 0 } fv 1 1
      { wheel := wheel, output := fun _ => 0 }).output 2 = 255 := by
    rw [(postProcessVectors_apply m (fun _ _ => rfl) _ fv 1 1 _ (by norm_num)
      (fun n _ => ⟨by unfold isInt16; norm_num, by unfold isInt16; norm_num⟩)).2]
    show (if 2 < 3 * (1 * 1) then fieldByte m wheel fv 1 1 2 else 0) = 255
    rw [if_pos (by norm_num)]
    unfold fieldByte
    rw [ComputeColor_apply]
    have e3 : 2 % 3 = 2 := by norm_num
    have e4 : 2 / 3 = 0 := by norm_num
    rw [e3, e4]
    simp only [if_neg (show ¬ (2 = 0) by norm_num), if_neg (show ¬ (2 = 1) by norm_num),
      if_true]
    show toU8 (truncToInt (255 * ComputeColor.col m wheel
      ((((fv 0).flowx : ℝ) / 32) / fieldMaxrad m fv 1 1)
      ((((fv 0).flowy : ℝ) / 32) / fieldMaxrad m fv 1 1) 0)) = 255
    rw [hx, hy, hcol]
    have e5 : (255 : ℝ) * 1 = ((255 : Nat) : ℝ) := by norm_num
    rw [e5, truncToInt_natCast]
    decide
  rw [hout, hR, hinterp]
  have hgt : ¬ ((2 : ℝ) ≤ 1) := by norm_num
  rw [if_neg hgt]
  have e6 : truncToInt ((255 : ℝ) * (1 * (3 / 4))) = 191 := by
    unfold truncToInt
    rw [if_pos (by norm_num), Int.floor_eq_iff]
    norm_num
  rw [e6]
  decide

/-- C8 (amended): in a field of 16-bit vectors, the pixel of the vector at row `r`,
column `c` is computed from the vector divided by `maxrad`; its byte `2 - b` is the
truncation of `255 * col`, where `col` blends the interpolated colour of channel `b`
toward white (`1 - rad * (1 - col)`) when the normalised radius `rad`, the one
`ComputeColor` computes from the divided vector, is at most 1, and is the interpolated
colour scaled by 0.75 otherwise. -/
theorem C8_blend_by_normalised_radius {K : Type} [LinearOrderedField K] [FloorRing K]
    (m : FloatEnv K) (u : Uninit K) (fv : Nat → NV_OF_FLOW_VECTOR) (w h : Nat) (st : VisState)
    (r c : Nat) (hfix : RoundsToFloat m) (H : w * h * 2 < 2147483648) (hr : r < h)
    (hc : c < w) (h16 : ∀ n, n < w * h → isInt16 (fv n).flowx ∧ isInt16 (fv n).flowy) :
    maxradOf m (decodeLoop m fv w h u.flowvec) w h = some (fieldMaxrad m fv w h) ∧
    ∀ b : Nat, b < 3 →
      (postProcessVectors m u fv w h st).output (3 * (r * w + c) + (2 - b)) =
        toU8 (truncToInt (m.rnd (255 *
          (if ComputeColor.rad m
                (m.rnd (((fv (r * w + c)).flowx : K) / 32 / fieldMaxrad m fv w h))
                (m.rnd (((fv (r * w + c)).flowy : K) / 32 / fieldMaxrad m fv w h)) ≤ 1 then
              m.rnd (1 - m.rnd (ComputeColor.rad m
                  (m.rnd (((fv (r * w + c)).flowx : K) / 32 / fieldMaxrad m fv w h))
                  (m.rnd (((fv (r * w + c)).flowy : K) / 32 / fieldMaxrad m fv w h)) *
                m.rnd (1 - ComputeColor.interp m st.wheel
                  (m.rnd (((fv (r * w + c)).flowx : K) / 32 / fieldMaxrad m fv w h))
                  (m.rnd (((fv (r * w + c)).flowy : K) / 32 / fieldMaxrad m fv w h))
                  (b : Int))))
            else
              m.rnd (ComputeColor.interp m st.wheel
                  (m.rnd (((fv (r * w + c)).flowx : K) / 32 / fieldMaxrad m fv w h))
                  (m.rnd (((fv (r * w + c)).flowy : K) / 32 / fieldMaxrad m fv w h))
                  (b : Int) *
                (3 / 4)))))) := by
  obtain ⟨hM, hall⟩ := postProcessVectors_apply m hfix u fv w h st H h16
  refine ⟨hM, ?_⟩
  intro b hb
  have hlt := cell_lt hr hc
  rw [hall]
  show (if 3 * (r * w + c) + (2 - b) < 3 * (w * h) then
      fieldByte m st.wheel fv w h (3 * (r * w + c) + (2 - b)) else _) = _
  rw [if_pos (by omega)]
  unfold fieldByte
  have e1 : (3 * (r * w + c) + (2 - b)) / 3 = r * w + c := by omega
  have e2 : (3 * (r * w + c) + (2 - b)) % 3 = 2 - b := by omega
  rw [e1, e2, ComputeColor_apply]
  have hcase : b = 0 ∨ b = 1 ∨ b = 2 := by omega
  rcases hcase with hb0 | hb0 | hb0 <;> subst hb0 <;> simp [ComputeColor.col]

/-- Witness for C8: the 1 by 1 field holding raw `(0, 64)`, with the exact real library
functions: the loop runs with `maxrad` equal to the maximal radius of the field. -/
theorem C8_blend_by_normalised_radius_witness :
    let m : FloatEnv ℝ :=
      { rnd := fun x => x, rndd := fun x => x, sqrt := Real.sqrt, sqrtf := Real.sqrt,
        atan2f := fun y x => Complex.arg (Complex.mk x y), M_PI := Real.pi }
    let fv : Nat → NV_OF_FLOW_VECTOR := fun _ => { flowx := 0, flowy := 64 }
    maxradOf m (decodeLoop m fv 1 1 (fun _ => FVal.nan)) 1 1 =
      some (fieldMaxrad m fv 1 1) := by
  intro m fv
  exact (C8_blend_by_normalised_radius m { flowvec := fun _ => FVal.nan, pix := fun _ => 0 }
    fv 1 1 { wheel := MakeColorWheel initialWheel, output := fun _ => 0 } 0 0
    (fun _ _ => rfl) (by norm_num) (by norm_num) (by norm_num)
    (fun n _ => ⟨by unfold isInt16; norm_num, by unfold isInt16; norm_num⟩)).1

/-! ## C9: channel order and byte offsets -/

/-- C9: for every input of `ComputeColor`, entry 0 of `pix` is the truncation of
`255 * col` for table channel 2, entry 1 for channel 1, entry 2 for channel 0, where the
`col` of channel `b` reads the table only in column `b`; and in a field of 16-bit vectors
`postProcessVectors` stores the three entries of the pixel of row `r`, column `c`, in that
order, at offsets `3 * (r * w + c) + 0, + 1, + 2` of the image. -/
theorem C9_channel_order {K : Type} [LinearOrderedField K] [FloorRing K]
    (m : FloatEnv K) (u : Uninit K) (fv : Nat → NV_OF_FLOW_VECTOR) (w h : Nat) (st : VisState)
    (r c : Nat) (hfix : RoundsToFloat m) (H : w * h * 2 < 2147483648) (hr : r < h)
    (hc : c < w) (h16 : ∀ n, n < w * h → isInt16 (fv n).flowx ∧ isInt16 (fv n).flowy) :
    (∀ (s : WheelState) (fx fy : K) (pix : Nat → Nat),
      ComputeColor m s fx fy pix 0 =
        toU8 (truncToInt (m.rnd (255 * ComputeColor.col m s fx fy 2))) ∧
      ComputeColor m s fx fy pix 1 =
        toU8 (truncToInt (m.rnd (255 * ComputeColor.col m s fx fy 1))) ∧
      ComputeColor m s fx fy pix 2 =
        toU8 (truncToInt (m.rnd (255 * ComputeColor.col m s fx fy 0)))) ∧
    (∀ (s s2 : WheelState) (fx fy : K) (b : Int), s.m_ncols = s2.m_ncols →
      (∀ k : Int, s.m_colorwheel k b = s2.m_colorwheel k b) →
      ComputeColor.col m s fx fy b = ComputeColor.col m s2 fx fy b) ∧
    (∀ j : Nat, j < 3 →
      (postProcessVectors m u fv w h st).output (3 * (r * w + c) + j) =
        ComputeColor m st.wheel
          (m.rnd (((fv (r * w + c)).flowx : K) / 32 / fieldMaxrad m fv w h))
          (m.rnd (((fv (r * w + c)).flowy : K) / 32 / fieldMaxrad m fv w h)) u.pix j) := by
  refine ⟨?_, ?_, ?_⟩
  · intro s fx fy pix
    refine ⟨?_, ?_, ?_⟩ <;> rw [ComputeColor_apply] <;> simp
  · intro s s2 fx fy b hn hcol
    have hfk : ComputeColor.fk m s fx fy = ComputeColor.fk m s2 fx fy := by
      unfold ComputeColor.fk
      rw [hn]
    have hk0 : ComputeColor.k0 m s fx fy = ComputeColor.k0 m s2 fx fy := by
      unfold ComputeColor.k0
      rw [hfk]
    have hk1 : ComputeColor.k1 m s fx fy = ComputeColor.k1 m s2 fx fy := by
      unfold ComputeColor.k1
      rw [hk0, hn]
    have hf : ComputeColor.f m s fx fy = ComputeColor.f m s2 fx fy := by
      unfold ComputeColor.f
      rw [hfk, hk0]
    unfold ComputeColor.col ComputeColor.interp
    rw [hk0, hk1, hf, hcol, hcol]
  · intro j hj
    have hlt := cell_lt hr hc
    rw [(postProcessVectors_apply m hfix u fv w h st H h16).2]
    show (if 3 * (r * w + c) + j < 3 * (w * h) then
        fieldByte m st.wheel fv w h (3 * (r * w + c) + j) else _) = _
    rw [if_pos (by omega)]
    unfold fieldByte
    have e1 : (3 * (r * w + c) + j) / 3 = r * w + c := by omega
    have e2 : (3 * (r * w + c) + j) % 3 = j := by omega
    rw [e1, e2, ComputeColor_apply, ComputeColor_apply]
    have hcase : j = 0 ∨ j = 1 ∨ j = 2 := by omega
    rcases hcase with hj0 | hj0 | hj0 <;> subst hj0 <;> simp

/-- Witness for C9: the 1 by 1 field holding raw `(0, 64)`, with the exact real library
functions: image byte 0 is the blue entry of the pixel. -/
theorem C9_channel_order_witness :
    let m : FloatEnv ℝ :=
      { rnd := fun x => x, rndd := fun x => x, sqrt := Real.sqrt, sqrtf := Real.sqrt,
        atan2f := fun y x => Complex.arg (Complex.mk x y), M_PI := Real.pi }
    let fv : Nat → NV_OF_FLOW_VECTOR := fun _ => { flowx := 0, flowy := 64 }
    let st : VisState := { wheel := MakeColorWheel initialWheel, output := fun _ => 0 }
    (postProcessVectors m { flowvec := fun _ => FVal.nan, pix := fun _ => 0 } fv 1 1
        st).output (3 * (0 * 1 + 0) + 0) =
      ComputeColor m st.wheel
        (((fv (0 * 1 + 0)).flowx : ℝ) / 32 / fieldMaxrad m fv 1 1)
        (((fv (0 * 1 + 0)).flowy : ℝ) / 32 / fieldMaxrad m fv 1 1) (fun _ => 0) 0 := by
  intro m fv st
  exact (C9_channel_order m { flowvec := fun _ => FVal.nan, pix := fun _ => 0 }
    fv 1 1 st 0 0 (fun _ _ => rfl) (by norm_num) (by norm_num) (by norm_num)
    (fun n _ => ⟨by unfold isInt16; norm_num, by unfold isInt16; norm_num⟩)).2.2 0
    (by norm_num)

/-! ## C10: idempotence -/

/-- C10: on a field of 16-bit vectors, a second call of `postProcessVectors` on the same
field, whatever the uninitialised memory holds in either call, leaves the state produced
by the first call as it is; a call does not change `m_ncols` or `m_colorwheel`; and the
bytes of the image depend only on the field, the dimensions and the colour table, not on
the previous content of the image or of uninitialised memory. -/
theorem C10_idempotent {K : Type} [LinearOrderedField K] [FloorRing K]
    (m : FloatEnv K) (u1 u2 : Uninit K) (fv : Nat → NV_OF_FLOW_VECTOR) (w h : Nat)
    (st : VisState) (hfix : RoundsToFloat m) (H : w * h * 2 < 2147483648)
    (h16 : ∀ n, n < w * h → isInt16 (fv n).flowx ∧ isInt16 (fv n).flowy) :
    postProcessVectors m u2 fv w h (postProcessVectors m u1 fv w h st) =
      postProcessVectors m u1 fv w h st ∧
    (postProcessVectors m u1 fv w h st).wheel.m_ncols = st.wheel.m_ncols ∧
    (postProcessVectors m u1 fv w h st).wheel.m_colorwheel = st.wheel.m_colorwheel ∧
    (∀ (st2 : VisState) (j : Nat), st2.wheel = st.wheel → j < 3 * (w * h) →
      (postProcessVectors m u2 fv w h st2).output j =
        (postProcessVectors m u1 fv w h st).output j) := by
  have h1 := (postProcessVectors_apply m hfix u1 fv w h st H h16).2
  refine ⟨?_, by rw [h1], by rw [h1], ?_⟩
  · rw [(postProcessVectors_apply m hfix u2 fv w h _ H h16).2, h1]
    congr 1
    funext j
    by_cases hj : j < 3 * (w * h)
    · simp only [if_pos hj]
    · simp only [if_neg hj]
  · intro st2 j hw hj
    rw [(postProcessVectors_apply m hfix u2 fv w h st2 H h16).2, h1]
    simp only [if_pos hj, hw]

/-- Witness for C10: the 1 by 1 field holding raw `(0, 64)`, with the exact real library
functions and different uninitialised memory in the two calls. -/
theorem C10_idempotent_witness :
    let m : FloatEnv ℝ :=
      { rnd := fun x => x, rndd := fun x => x, sqrt := Real.sqrt, sqrtf := Real.sqrt,
        atan2f := fun y x => Complex.arg (Complex.mk x y), M_PI := Real.pi }
    let fv : Nat → NV_OF_FLOW_VECTOR := fun _ => { flowx := 0, flowy := 64 }
    let st : VisState := { wheel := MakeColorWheel initialWheel, output := fun _ => 0 }
    postProcessVectors m { flowvec := fun _ => FVal.num 5, pix := fun _ => 9 } fv 1 1
        (postProcessVectors m { flowvec := fun _ => FVal.nan, pix := fun _ => 0 } fv 1 1 st) =
      postProcessVectors m { flowvec := fun _ => FVal.nan, pix := fun _ => 0 } fv 1 1 st := by
  intro m fv st
  exact (C10_idempotent m { flowvec := fun _ => FVal.nan, pix := fun _ => 0 }
    { flowvec := fun _ => FVal.num 5, pix := fun _ => 9 } fv 1 1 st (fun _ _ => rfl)
    (by norm_num)
    (fun n _ => ⟨by unfold isInt16; norm_num, by unfold isInt16; norm_num⟩)).1

/-- The quotient `c / gridsize` of `calculateOutputDimensions`, converted to `uint32_t`,
is the floor of the quotient. -/
theorem dim_quotient (c g : Nat) (hc : c < 4294967296) :
    ((Int.tdiv (c : Int) (g : Int)) % 4294967296).toNat = c / g := by
  have e : Int.tdiv (c : Int) (g : Int) = ((c / g : Nat) : Int) := (Int.ofNat_tdiv c g).symm
  have hle : c / g ≤ c := Nat.div_le_self c g
  have hlt : ((c / g : Nat) : Int) < 4294967296 := by
    have : c / g < 4294967296 := lt_of_le_of_lt hle hc
    exact_mod_cast this
  rw [e, Int.emod_eq_of_lt (Int.ofNat_nonneg _) hlt]
  exact Int.toNat_ofNat _

theorem calculateOutputDimensions_eq (g : Nat) (hg : 1 ≤ g) :
    calculateOutputDimensions g = some (1920 / g, 1080 / g) := by
  unfold calculateOutputDimensions H_BUFF W_BUFF
  have h1 := dim_quotient 1080 g (by norm_num)
  have h2 := dim_quotient 1920 g (by norm_num)
  simp only [Nat.cast_ofNat] at h1 h2
  rw [if_neg (by omega)]
  simp only [h1, h2]

/-! ## C11: output dimensions and image size -/

/-- C11: for every grid size `g` in 1..255, `calculateOutputDimensions` gives
`outwidth = floor(1920 / g)` and `outheight = floor(1080 / g)`; the call of
`postProcessVectors` for those dimensions (a field of 16-bit vectors) determines exactly
the first `outwidth * outheight * 3` bytes of the image and leaves every later byte as it
was; for `g = 4` the field is 480 by 270 and the image has 388800 bytes. -/
theorem C11_output_dimensions {K : Type} [LinearOrderedField K] [FloorRing K]
    (m : FloatEnv K) (u : Uninit K) (fv : Nat → NV_OF_FLOW_VECTOR) (st : VisState) (g : Nat)
    (hg1 : 1 ≤ g) (_hg2 : g ≤ 255) (hfix : RoundsToFloat m)
    (h16 : ∀ n, n < 1920 / g * (1080 / g) → isInt16 (fv n).flowx ∧ isInt16 (fv n).flowy) :
    calculateOutputDimensions g = some (1920 / g, 1080 / g) ∧
    (∀ j, j < 1920 / g * (1080 / g) * 3 →
      (postProcessVectors m u fv (u16 (1920 / g)) (u16 (1080 / g)) st).output j =
        fieldByte m st.wheel fv (1920 / g) (1080 / g) j) ∧
    (∀ j, 1920 / g * (1080 / g) * 3 ≤ j →
      (postProcessVectors m u fv (u16 (1920 / g)) (u16 (1080 / g)) st).output j =
        st.output j) ∧
    calculateOutputDimensions 4 = some (480, 270) ∧
    (480 * 270 * 3 : Nat) = 388800 := by
  have hw : 1920 / g ≤ 1920 := Nat.div_le_self _ _
  have hh : 1080 / g ≤ 1080 := Nat.div_le_self _ _
  have hwh : 1920 / g * (1080 / g) ≤ 1920 * 1080 := Nat.mul_le_mul hw hh
  have e1 : u16 (1920 / g) = 1920 / g := Nat.mod_eq_of_lt (by omega)
  have e2 : u16 (1080 / g) = 1080 / g := Nat.mod_eq_of_lt (by omega)
  have hout := (postProcessVectors_apply m hfix u fv (1920 / g) (1080 / g) st
    (by omega) h16).2
  refine ⟨calculateOutputDimensions_eq g hg1, ?_, ?_, by decide, by norm_num⟩
  · intro j hj
    rw [e1, e2, hout]
    exact if_pos (by omega)
  · intro j hj
    rw [e1, e2, hout]
    exact if_neg (by omega)

/-- Witness for C11: grid size 4, a field of zero vectors, no rounding. -/
theorem C11_output_dimensions_witness :
    calculateOutputDimensions 4 = some (1920 / 4, 1080 / 4) :=
  (C11_output_dimensions
    ({ rnd := fun x => x, rndd := fun x => x, sqrt := Real.sqrt, sqrtf := Real.sqrt,
       atan2f := fun y x => Complex.arg (Complex.mk x y), M_PI := Real.pi } : FloatEnv ℝ)
    { flowvec := fun _ => FVal.nan, pix := fun _ => 0 }
    (fun _ => { flowx := 0, flowy := 0 })
    { wheel := MakeColorWheel initialWheel, output := fun _ => 0 } 4
    (by norm_num) (by norm_num) (fun _ _ => rfl)
    (fun n _ => ⟨by unfold isInt16; norm_num, by unfold isInt16; norm_num⟩)).1

/-! ## The buffer constructor: lemmas -/

/-- The element size the constructor leaves for a format. -/
theorem ctor_returned (drv : Driver) (api : API) (desc : NV_OF_BUFFER_DESCRIPTOR)
    (junkElementSize : Nat) (tr tr2 : List DriverOp) (buf : NvOFCudaBuffer)
    (hret : NvOFCudaBuffer.ctor drv api desc junkElementSize tr = (tr2, Outcome.returned buf)) :
    buf.m_eBufFmt = desc.bufferFormat ∧ buf.m_eBufUsage = desc.bufferUsage ∧
    buf.m_width = desc.width ∧ buf.m_height = desc.height ∧
    buf.m_elementSize =
      if desc.bufferFormat = NV_OF_BUFFER_FORMAT.NV_OF_BUFFER_FORMAT_ABGR8 then 4
      else if desc.bufferFormat = NV_OF_BUFFER_FORMAT.NV_OF_BUFFER_FORMAT_SHORT2 then 4
      else if desc.bufferFormat = NV_OF_BUFFER_FORMAT.NV_OF_BUFFER_FORMAT_NV12 then 1
      else junkElementSize := by
  unfold NvOFCudaBuffer.ctor at hret
  cases hfl : api.getAPI with
  | null => rw [hfl] at hret; simp at hret
  | unbound => rw [hfl] at hret; simp at hret
  | bound =>
    rw [hfl] at hret
    simp only at hret
    by_cases h1 : (drv.createGPUBufferCuda tr api.handle desc).1 ≠ NV_OF_STATUS.NV_OF_SUCCESS
    · rw [if_pos h1] at hret
      simp at hret
    · rw [if_neg h1] at hret
      by_cases h2 : (drv.getStrideInfo
          (tr ++ [DriverOp.nvOFCreateGPUBufferCuda api.handle desc] ++
            [DriverOp.nvOFGPUBufferGetCUdeviceptr (drv.createGPUBufferCuda tr api.handle desc).2])
          (drv.createGPUBufferCuda tr api.handle desc).2).1 ≠ NV_OF_STATUS.NV_OF_SUCCESS
      · rw [if_pos h2] at hret
        simp at hret
      · rw [if_neg h2] at hret
        simp only [Prod.mk.injEq, Outcome.returned.injEq] at hret
        obtain ⟨_, hbuf⟩ := hret
        subst hbuf
        exact ⟨rfl, rfl, rfl, rfl, rfl⟩

/-! ## C12, C13: element size -/

/-- C12: a buffer the constructor returns has element size 4 when its format is ABGR8 or
SHORT2 and element size 1 when its format is NV12; its format is the descriptor's. -/
theorem C12_element_size (drv : Driver) (api : API) (desc : NV_OF_BUFFER_DESCRIPTOR)
    (junkElementSize : Nat) (tr tr2 : List DriverOp) (buf : NvOFCudaBuffer)
    (hret : NvOFCudaBuffer.ctor drv api desc junkElementSize tr = (tr2, Outcome.returned buf)) :
    buf.m_eBufFmt = desc.bufferFormat ∧
    (buf.m_eBufFmt = NV_OF_BUFFER_FORMAT.NV_OF_BUFFER_FORMAT_ABGR8 → buf.getElementSize = 4) ∧
    (buf.m_eBufFmt = NV_OF_BUFFER_FORMAT.NV_OF_BUFFER_FORMAT_SHORT2 → buf.getElementSize = 4) ∧
    (buf.m_eBufFmt = NV_OF_BUFFER_FORMAT.NV_OF_BUFFER_FORMAT_NV12 → buf.getElementSize = 1) := by
  obtain ⟨hf, _, _, _, hes⟩ := ctor_returned drv api desc junkElementSize tr tr2 buf hret
  unfold NvOFCudaBuffer.getElementSize
  rw [hes]
  refine ⟨hf, ?_, ?_, ?_⟩
  · intro h
    rw [hf] at h
    simp [h]
  · intro h
    rw [hf] at h
    simp [h]
  · intro h
    rw [hf] at h
    simp [h]

/-- Witness for C12: an ABGR8 input buffer of 1920 by 1080 created under a driver for which
every call succeeds. -/
theorem C12_element_size_witness :
    (NvOFCudaBuffer.ctor
        (goodDriver 80 { strideXInBytes := 7680, strideYInBytes := 1080 })
        { libHandle := 1, nvofFuncList := FunctionList.bound, ctx := 1, inputFrame := 2,
          outputFrame := 3, handle := 1 }
        { width := 1920, height := 1080,
          bufferUsage := NV_OF_BUFFER_USAGE.NV_OF_BUFFER_USAGE_INPUT,
          bufferFormat := NV_OF_BUFFER_FORMAT.NV_OF_BUFFER_FORMAT_ABGR8 } 0 []).1 =
      [DriverOp.nvOFCreateGPUBufferCuda 1
          { width := 1920, height := 1080,
            bufferUsage := NV_OF_BUFFER_USAGE.NV_OF_BUFFER_USAGE_INPUT,
            bufferFormat := NV_OF_BUFFER_FORMAT.NV_OF_BUFFER_FORMAT_ABGR8 },
        DriverOp.nvOFGPUBufferGetCUdeviceptr 1, DriverOp.nvOFGPUBufferGetStrideInfo 1] ∧
    NvOFCudaBuffer.getElementSize
        { m_width := 1920, m_elementSize := 4, m_height := 1080,
          m_eBufUsage := NV_OF_BUFFER_USAGE.NV_OF_BUFFER_USAGE_INPUT,
          m_eBufFmt := NV_OF_BUFFER_FORMAT.NV_OF_BUFFER_FORMAT_ABGR8, m_hGPUBuffer := 1,
          m_devicePtr := 4096,
          m_strideInfo := { strideXInBytes := 7680, strideYInBytes := 1080 } } = 4 :=
  ⟨rfl, (C12_element_size
    (goodDriver 80 { strideXInBytes := 7680, strideYInBytes := 1080 })
    { libHandle := 1, nvofFuncList := FunctionList.bound, ctx := 1, inputFrame := 2,
      outputFrame := 3, handle := 1 }
    { width := 1920, height := 1080,
      bufferUsage := NV_OF_BUFFER_USAGE.NV_OF_BUFFER_USAGE_INPUT,
      bufferFormat := NV_OF_BUFFER_FORMAT.NV_OF_BUFFER_FORMAT_ABGR8 } 0 [] _ _ rfl).2.1 rfl⟩

/-- C13 fails on the code: for the format GRAYSCALE8 none of the three branches of the
constructor assigns `m_elementSize`; `getElementSize` returns whatever the storage of the
member held, here 77, not 1. -/
theorem C13_grayscale_element_size_unset :
    NvOFCudaBuffer.ctor
        (goodDriver 80 { strideXInBytes := 1920, strideYInBytes := 1080 })
        { libHandle := 1, nvofFuncList := FunctionList.bound, ctx := 1, inputFrame := 2,
          outputFrame := 3, handle := 1 }
        { width := 1920, height := 1080,
          bufferUsage := NV_OF_BUFFER_USAGE.NV_OF_BUFFER_USAGE_INPUT,
          bufferFormat := NV_OF_BUFFER_FORMAT.NV_OF_BUFFER_FORMAT_GRAYSCALE8 } 77 [] =
      ([DriverOp.nvOFCreateGPUBufferCuda 1
          { width := 1920, height := 1080,
            bufferUsage := NV_OF_BUFFER_USAGE.NV_OF_BUFFER_USAGE_INPUT,
            bufferFormat := NV_OF_BUFFER_FORMAT.NV_OF_BUFFER_FORMAT_GRAYSCALE8 },
        DriverOp.nvOFGPUBufferGetCUdeviceptr 1, DriverOp.nvOFGPUBufferGetStrideInfo 1],
       Outcome.returned
        { m_width := 1920, m_elementSize := 77, m_height := 1080,
          m_eBufUsage := NV_OF_BUFFER_USAGE.NV_OF_BUFFER_USAGE_INPUT,
          m_eBufFmt := NV_OF_BUFFER_FORMAT.NV_OF_BUFFER_FORMAT_GRAYSCALE8, m_hGPUBuffer := 1,
          m_devicePtr := 4096,
          m_strideInfo := { strideXInBytes := 1920, strideYInBytes := 1080 } }) ∧
    NvOFCudaBuffer.getElementSize
        { m_width := 1920, m_elementSize := 77, m_height := 1080,
          m_eBufUsage := NV_OF_BUFFER_USAGE.NV_OF_BUFFER_USAGE_INPUT,
          m_eBufFmt := NV_OF_BUFFER_FORMAT.NV_OF_BUFFER_FORMAT_GRAYSCALE8, m_hGPUBuffer := 1,
          m_devicePtr := 4096,
          m_strideInfo := { strideXInBytes := 1920, strideYInBytes := 1080 } } ≠ 1 := by
  refine ⟨rfl, ?_⟩
  decide

/-! ## `UploadData` and `DownloadData`: lemmas -/

/-- `UploadData`, with the parameters of its copies named. -/
theorem UploadData_eq (drv : Driver) (api : API) (buf : NvOFCudaBuffer) (data : Nat)
    (tr : List DriverOp) :
    NvOFCudaBuffer.UploadData drv api buf data tr =
      if drv.memcpy2DAsync tr (buf.uploadFirst data) (api.getCudaStream buf.m_eBufUsage) ≠ 0 then
        (tr ++ [DriverOp.cuMemcpy2DAsync (buf.uploadFirst data)
            (api.getCudaStream buf.m_eBufUsage)],
          Outcome.thrown { m_errorCode := NV_OF_STATUS.NV_OF_ERR_GENERIC })
      else if buf.m_eBufFmt = NV_OF_BUFFER_FORMAT.NV_OF_BUFFER_FORMAT_NV12 then
        if drv.memcpy2DAsync
            (tr ++ [DriverOp.cuMemcpy2DAsync (buf.uploadFirst data)
              (api.getCudaStream buf.m_eBufUsage)])
            (buf.uploadSecond data) (api.getCudaStream buf.m_eBufUsage) ≠ 0 then
          (tr ++ [DriverOp.cuMemcpy2DAsync (buf.uploadFirst data)
              (api.getCudaStream buf.m_eBufUsage)] ++
            [DriverOp.cuMemcpy2DAsync (buf.uploadSecond data)
              (api.getCudaStream buf.m_eBufUsage)],
            Outcome.thrown { m_errorCode := NV_OF_STATUS.NV_OF_ERR_GENERIC })
        else
          (tr ++ [DriverOp.cuMemcpy2DAsync (buf.uploadFirst data)
              (api.getCudaStream buf.m_eBufUsage)] ++
            [DriverOp.cuMemcpy2DAsync (buf.uploadSecond data)
              (api.getCudaStream buf.m_eBufUsage)],
            Outcome.returned ())
      else
        (tr ++ [DriverOp.cuMemcpy2DAsync (buf.uploadFirst data)
            (api.getCudaStream buf.m_eBufUsage)],
          Outcome.returned ()) := by
  rfl

/-- `DownloadData`, with the parameters of its copies named. -/
theorem DownloadData_eq (drv : Driver) (api : API) (buf : NvOFCudaBuffer) (data : Nat)
    (tr : List DriverOp) :
    NvOFCudaBuffer.DownloadData drv api buf data tr =
      if drv.memcpy2DAsync tr (buf.downloadFirst data)
          (api.getCudaStream buf.m_eBufUsage) ≠ 0 then
        (tr ++ [DriverOp.cuMemcpy2DAsync (buf.downloadFirst data)
            (api.getCudaStream buf.m_eBufUsage)],
          Outcome.thrown { m_errorCode := NV_OF_STATUS.NV_OF_ERR_GENERIC })
      else if buf.m_eBufFmt = NV_OF_BUFFER_FORMAT.NV_OF_BUFFER_FORMAT_NV12 then
        if drv.memcpy2DAsync
            (tr ++ [DriverOp.cuMemcpy2DAsync (buf.downloadFirst data)
              (api.getCudaStream buf.m_eBufUsage)])
            (buf.downloadSecond data) (api.getCudaStream buf.m_eBufUsage) ≠ 0 then
          (tr ++ [DriverOp.cuMemcpy2DAsync (buf.downloadFirst data)
              (api.getCudaStream buf.m_eBufUsage)] ++
            [DriverOp.cuMemcpy2DAsync (buf.downloadSecond data)
              (api.getCudaStream buf.m_eBufUsage)],
            Outcome.thrown { m_errorCode := NV_OF_STATUS.NV_OF_ERR_GENERIC })
        else if drv.streamSynchronize
            (tr ++ [DriverOp.cuMemcpy2DAsync (buf.downloadFirst data)
                (api.getCudaStream buf.m_eBufUsage)] ++
              [DriverOp.cuMemcpy2DAsync (buf.downloadSecond data)
                (api.getCudaStream buf.m_eBufUsage)])
            (api.getCudaStream buf.m_eBufUsage) ≠ 0 then
          (tr ++ [DriverOp.cuMemcpy2DAsync (buf.downloadFirst data)
              (api.getCudaStream buf.m_eBufUsage)] ++
            [DriverOp.cuMemcpy2DAsync (buf.downloadSecond data)
              (api.getCudaStream buf.m_eBufUsage)] ++
            [DriverOp.cuStreamSynchronize (api.getCudaStream buf.m_eBufUsage)],
            Outcome.thrown { m_errorCode := NV_OF_STATUS.NV_OF_ERR_GENERIC })
        else
          (tr ++ [DriverOp.cuMemcpy2DAsync (buf.downloadFirst data)
              (api.getCudaStream buf.m_eBufUsage)] ++
            [DriverOp.cuMemcpy2DAsync (buf.downloadSecond data)
              (api.getCudaStream buf.m_eBufUsage)] ++
            [DriverOp.cuStreamSynchronize (api.getCudaStream buf.m_eBufUsage)],
            Outcome.returned ())
      else if drv.streamSynchronize
          (tr ++ [DriverOp.cuMemcpy2DAsync (buf.downloadFirst data)
            (api.getCudaStream buf.m_eBufUsage)])
          (api.getCudaStream buf.m_eBufUsage) ≠ 0 then
        (tr ++ [DriverOp.cuMemcpy2DAsync (buf.downloadFirst data)
            (api.getCudaStream buf.m_eBufUsage)] ++
          [DriverOp.cuStreamSynchronize (api.getCudaStream buf.m_eBufUsage)],
          Outcome.thrown { m_errorCode := NV_OF_STATUS.NV_OF_ERR_GENERIC })
      else
        (tr ++ [DriverOp.cuMemcpy2DAsync (buf.downloadFirst data)
            (api.getCudaStream buf.m_eBufUsage)] ++
          [DriverOp.cuStreamSynchronize (api.getCudaStream buf.m_eBufUsage)],
          Outcome.returned ()) := by
  rfl

/-! ## Copies of rows: lemmas -/

/-- One row of a copy leaves an address that is not a destination of the row as it was. -/
theorem rowCopy_other (width : Nat) (dA sA : Nat → Nat) (src d : Nat → Nat) (a : Nat)
    (hne : ∀ b, b < width → dA b ≠ a) :
    forRange width (fun b d => store d (dA b) (src (sA b))) d a = d a := by
  induction width with
  | zero => rw [forRange_zero]
  | succ n ih =>
    rw [forRange_succ]
    unfold store
    rw [if_neg (fun h => hne n (by omega) h.symm)]
    exact ih (fun b hb => hne b (by omega))

/-- One row of a copy puts the source byte at a destination that occurs once in the row. -/
theorem rowCopy_get (width : Nat) (dA sA : Nat → Nat) (src d : Nat → Nat) (b : Nat)
    (hb : b < width) (hinj : ∀ b2, b2 < width → dA b2 = dA b → b2 = b) :
    forRange width (fun b d => store d (dA b) (src (sA b))) d (dA b) = src (sA b) := by
  induction width with
  | zero => omega
  | succ n ih =>
    rw [forRange_succ]
    unfold store
    by_cases hn : b = n
    · subst hn
      rw [if_pos rfl]
    · have hne : ¬ (dA b = dA n) := fun h => hn (hinj n (by omega) h.symm).symm
      rw [if_neg hne]
      exact ih (by omega) (fun b2 hb2 h => hinj b2 (by omega) h)

/-- A copy of rows puts the source byte at every destination address, when no two bytes
of the copy share a destination. -/
theorem copyRows_get (rows width : Nat) (dstAddr srcAddr : Nat → Nat → Nat)
    (src dst : Nat → Nat) (r b : Nat) (hr : r < rows) (hb : b < width)
    (hinj : ∀ r1 b1 r2 b2, r1 < rows → b1 < width → r2 < rows → b2 < width →
      dstAddr r1 b1 = dstAddr r2 b2 → r1 = r2 ∧ b1 = b2) :
    copyRows rows width dstAddr srcAddr src dst (dstAddr r b) = src (srcAddr r b) := by
  unfold copyRows
  induction rows with
  | zero => omega
  | succ n ih =>
    rw [forRange_succ]
    by_cases hn : r = n
    · subst hn
      exact rowCopy_get width (dstAddr r) (srcAddr r) src _ b hb
        (fun b2 hb2 h => (hinj r b2 r b (by omega) hb2 (by omega) hb h).2)
    · rw [rowCopy_other width (dstAddr n) (srcAddr n) src _ (dstAddr r b)
        (fun b2 hb2 h => hn (hinj n b2 r b (by omega) hb2 (by omega) hb h).1.symm)]
      exact ih (by omega)
        (fun r1 b1 r2 b2 h1 h2 h3 h4 h => hinj r1 b1 r2 b2 (by omega) h2 (by omega) h4 h)

/-- Rows of `width` bytes laid out `pitch` apart, `width ≤ pitch`, do not overlap. -/
theorem pitch_inj (base pitch width r1 b1 r2 b2 : Nat) (hwp : width ≤ pitch)
    (h1 : b1 < width) (h2 : b2 < width)
    (h : base + r1 * pitch + b1 = base + r2 * pitch + b2) : r1 = r2 ∧ b1 = b2 := by
  have hr : r1 = r2 := by
    rcases Nat.lt_trichotomy r1 r2 with hlt | heq | hgt
    · exfalso
      have : (r1 + 1) * pitch ≤ r2 * pitch := Nat.mul_le_mul_right pitch hlt
      have e : (r1 + 1) * pitch = r1 * pitch + pitch := by ring
      omega
    · exact heq
    · exfalso
      have : (r2 + 1) * pitch ≤ r1 * pitch := Nat.mul_le_mul_right pitch hgt
      have e : (r2 + 1) * pitch = r2 * pitch + pitch := by ring
      omega
  subst hr
  exact ⟨rfl, by omega⟩


/-- The first copy of `UploadData` moves byte `b` of row `r` of the host data to the device
row `r`, when the device rows are at least as far apart as they are wide. -/
theorem upload_effect (buf : NvOFCudaBuffer) (data : Nat) (mem : Mem) (r b : Nat)
    (hr : r < buf.m_height) (hb : b < u32 (buf.m_width * buf.m_elementSize))
    (hstride : u32 (buf.m_width * buf.m_elementSize) ≤ buf.m_strideInfo.strideXInBytes) :
    (execCopy (buf.uploadFirst data) mem).host = mem.host ∧
    (execCopy (buf.uploadFirst data) mem).device
        (buf.m_devicePtr + r * buf.m_strideInfo.strideXInBytes + b) =
      mem.host (data + r * u32 (buf.m_width * buf.m_elementSize) + b) := by
  constructor
  · rfl
  · have key := copyRows_get buf.m_height (u32 (buf.m_width * buf.m_elementSize))
      (fun r b => buf.m_devicePtr + (0 + r) * buf.m_strideInfo.strideXInBytes + 0 + b)
      (fun r b => data + (0 + r) * u32 (buf.m_width * buf.m_elementSize) + 0 + b)
      mem.host mem.device r b hr hb
      (by
        intro r1 b1 r2 b2 _ h2 _ h4 h
        simp only [Nat.zero_add, Nat.add_zero] at h
        exact pitch_inj _ _ _ r1 b1 r2 b2 hstride h2 h4 h)
    simp only [Nat.zero_add, Nat.add_zero] at key
    rw [← key]
    unfold execCopy
    simp only [NvOFCudaBuffer.uploadFirst, Nat.zero_add, Nat.add_zero]

/-- The first copy of `DownloadData`, for a format other than NV12, moves byte `b` of
device row `r` to row `r` of the host data. -/
theorem download_effect (buf : NvOFCudaBuffer) (data : Nat) (mem : Mem) (r b : Nat)
    (hfmt : buf.m_eBufFmt ≠ NV_OF_BUFFER_FORMAT.NV_OF_BUFFER_FORMAT_NV12)
    (hr : r < buf.m_height) (hb : b < u32 (buf.m_width * buf.m_elementSize)) :
    (execCopy (buf.downloadFirst data) mem).host
        (data + r * u32 (buf.m_width * buf.m_elementSize) + b) =
      mem.device (buf.m_devicePtr + r * buf.m_strideInfo.strideXInBytes + b) := by
  have hH : (buf.downloadFirst data).Height = buf.m_height := by
    unfold NvOFCudaBuffer.downloadFirst
    simp only [if_neg hfmt]
  have key := copyRows_get buf.m_height (u32 (buf.m_width * buf.m_elementSize))
    (fun r b => data + (0 + r) * u32 (buf.m_width * buf.m_elementSize) + 0 + b)
    (fun r b => buf.m_devicePtr + (0 + r) * buf.m_strideInfo.strideXInBytes + 0 + b)
    mem.device mem.host r b hr hb
    (by
      intro r1 b1 r2 b2 _ h2 _ h4 h
      simp only [Nat.zero_add, Nat.add_zero] at h
      exact pitch_inj _ _ _ r1 b1 r2 b2 (le_refl _) h2 h4 h)
  simp only [Nat.zero_add, Nat.add_zero] at key
  rw [← key]
  unfold execCopy
  simp only [NvOFCudaBuffer.downloadFirst, if_neg hfmt, Nat.zero_add, Nat.add_zero]

/-! ## C14: stream selection -/

/-- C14: `getCudaStream` returns the input stream for the usage Input and the output
stream for every other usage; every copy `UploadData` requests, and every copy and the
synchronisation `DownloadData` requests, is on the stream `getCudaStream` gives for the
buffer's own usage. -/
theorem C14_stream_selection (drv : Driver) (api : API) (buf : NvOFCudaBuffer) (data : Nat)
    (tr : List DriverOp) :
    api.getCudaStream NV_OF_BUFFER_USAGE.NV_OF_BUFFER_USAGE_INPUT = api.inputFrame ∧
    (∀ use : NV_OF_BUFFER_USAGE,
      use = NV_OF_BUFFER_USAGE.NV_OF_BUFFER_USAGE_INPUT ∨
        api.getCudaStream use = api.outputFrame) ∧
    api.getCudaStream NV_OF_BUFFER_USAGE.NV_OF_BUFFER_USAGE_UNDEFINED = api.outputFrame ∧
    api.getCudaStream NV_OF_BUFFER_USAGE.NV_OF_BUFFER_USAGE_OUTPUT = api.outputFrame ∧
    api.getCudaStream NV_OF_BUFFER_USAGE.NV_OF_BUFFER_USAGE_HINT = api.outputFrame ∧
    api.getCudaStream NV_OF_BUFFER_USAGE.NV_OF_BUFFER_USAGE_COST = api.outputFrame ∧
    api.getCudaStream NV_OF_BUFFER_USAGE.NV_OF_BUFFER_USAGE_GLOBAL_FLOW = api.outputFrame ∧
    (∃ ops : List DriverOp,
      (NvOFCudaBuffer.UploadData drv api buf data tr).1 = tr ++ ops ∧
      ∀ op ∈ ops, ∃ p, op = DriverOp.cuMemcpy2DAsync p (api.getCudaStream buf.m_eBufUsage)) ∧
    (∃ ops : List DriverOp,
      (NvOFCudaBuffer.DownloadData drv api buf data tr).1 = tr ++ ops ∧
      ∀ op ∈ ops,
        (∃ p, op = DriverOp.cuMemcpy2DAsync p (api.getCudaStream buf.m_eBufUsage)) ∨
          op = DriverOp.cuStreamSynchronize (api.getCudaStream buf.m_eBufUsage)) := by
  refine ⟨rfl, ?_, rfl, rfl, rfl, rfl, rfl, ?_, ?_⟩
  · intro use
    by_cases h : use = NV_OF_BUFFER_USAGE.NV_OF_BUFFER_USAGE_INPUT
    · exact Or.inl h
    · right
      unfold API.getCudaStream
      rw [if_neg h]
  · rw [UploadData_eq]
    split_ifs
    · exact ⟨_, rfl, by simp⟩
    · exact ⟨_, List.append_assoc _ _ _, by simp⟩
    · exact ⟨_, List.append_assoc _ _ _, by simp⟩
    · exact ⟨_, rfl, by simp⟩
  · rw [DownloadData_eq]
    split_ifs
    · exact ⟨_, rfl, by simp⟩
    · exact ⟨_, List.append_assoc _ _ _, by simp⟩
    · exact ⟨_, by rw [List.append_assoc, List.append_assoc], by simp⟩
    · exact ⟨_, by rw [List.append_assoc, List.append_assoc], by simp⟩
    · exact ⟨_, List.append_assoc _ _ _, by simp⟩
    · exact ⟨_, List.append_assoc _ _ _, by simp⟩

/-! ## C15: the copy of `UploadData` -/

/-- C15: for a buffer whose format is not NV12 (its row of `width * elementSize` bytes
below `2 ^ 32`), `UploadData` adds exactly one call to the trace: a 2D copy from host to
device of `height` rows of `width * elementSize` bytes, the host rows `width * elementSize`
apart from offset 0 of `data`, the device rows `strideXInBytes` apart from offset 0 of the
device pointer. -/
theorem C15_upload_single_copy (drv : Driver) (api : API) (buf : NvOFCudaBuffer) (data : Nat)
    (tr : List DriverOp)
    (hfmt : buf.m_eBufFmt ≠ NV_OF_BUFFER_FORMAT.NV_OF_BUFFER_FORMAT_NV12)
    (hw : buf.m_width * buf.m_elementSize < 4294967296) :
    (NvOFCudaBuffer.UploadData drv api buf data tr).1 =
      tr ++ [DriverOp.cuMemcpy2DAsync
        { srcXInBytes := 0, srcY := 0, srcMemoryType := CUmemorytype.CU_MEMORYTYPE_HOST,
          srcHost := data, srcDevice := 0, srcPitch := buf.m_width * buf.m_elementSize,
          dstXInBytes := 0, dstY := 0, dstMemoryType := CUmemorytype.CU_MEMORYTYPE_DEVICE,
          dstHost := 0, dstDevice := buf.m_devicePtr,
          dstPitch := buf.m_strideInfo.strideXInBytes,
          WidthInBytes := buf.m_width * buf.m_elementSize, Height := buf.m_height }
        (api.getCudaStream buf.m_eBufUsage)] := by
  have hu : u32 (buf.m_width * buf.m_elementSize) = buf.m_width * buf.m_elementSize :=
    u32_of_lt hw
  rw [UploadData_eq]
  unfold NvOFCudaBuffer.uploadFirst
  rw [hu]
  split_ifs <;> rfl

theorem C15_upload_single_copy_witness :
    (NvOFCudaBuffer.UploadData
        (goodDriver 80 { strideXInBytes := 7680, strideYInBytes := 1080 })
        { libHandle := 1, nvofFuncList := FunctionList.bound, ctx := 1, inputFrame := 2,
          outputFrame := 3, handle := 1 }
        { m_width := 1920, m_elementSize := 4, m_height := 1080,
          m_eBufUsage := NV_OF_BUFFER_USAGE.NV_OF_BUFFER_USAGE_INPUT,
          m_eBufFmt := NV_OF_BUFFER_FORMAT.NV_OF_BUFFER_FORMAT_ABGR8, m_hGPUBuffer := 1,
          m_devicePtr := 4096,
          m_strideInfo := { strideXInBytes := 7680, strideYInBytes := 1080 } } 65536 []).1 =
      [] ++ [DriverOp.cuMemcpy2DAsync
        { srcXInBytes := 0, srcY := 0, srcMemoryType := CUmemorytype.CU_MEMORYTYPE_HOST,
          srcHost := 65536, srcDevice := 0, srcPitch := 1920 * 4,
          dstXInBytes := 0, dstY := 0, dstMemoryType := CUmemorytype.CU_MEMORYTYPE_DEVICE,
          dstHost := 0, dstDevice := 4096, dstPitch := 7680,
          WidthInBytes := 1920 * 4, Height := 1080 } 2] :=
  C15_upload_single_copy
    (goodDriver 80 { strideXInBytes := 7680, strideYInBytes := 1080 })
    { libHandle := 1, nvofFuncList := FunctionList.bound, ctx := 1, inputFrame := 2,
      outputFrame := 3, handle := 1 }
    { m_width := 1920, m_elementSize := 4, m_height := 1080,
      m_eBufUsage := NV_OF_BUFFER_USAGE.NV_OF_BUFFER_USAGE_INPUT,
      m_eBufFmt := NV_OF_BUFFER_FORMAT.NV_OF_BUFFER_FORMAT_ABGR8, m_hGPUBuffer := 1,
      m_devicePtr := 4096,
      m_strideInfo := { strideXInBytes := 7680, strideYInBytes := 1080 } } 65536 []
    (by decide) (by decide)

/-! ## C18: synchronisation -/

/-- C18: when `DownloadData` returns, the calls it added to the trace are one or two
copies followed by one synchronisation, the last call, of the stream the copies were
requested on; the calls `UploadData` adds hold no stream synchronisation. -/
theorem C18_download_synchronises (drv : Driver) (api : API) (buf : NvOFCudaBuffer)
    (data : Nat) (tr : List DriverOp)
    (hret : (NvOFCudaBuffer.DownloadData drv api buf data tr).2 = Outcome.returned ()) :
    (∃ copies : List CUDA_MEMCPY2D, copies ≠ [] ∧
      (NvOFCudaBuffer.DownloadData drv api buf data tr).1 =
        tr ++ copies.map
            (fun p => DriverOp.cuMemcpy2DAsync p (api.getCudaStream buf.m_eBufUsage)) ++
          [DriverOp.cuStreamSynchronize (api.getCudaStream buf.m_eBufUsage)]) ∧
    ∀ s : Nat, DriverOp.cuStreamSynchronize s ∉
      (NvOFCudaBuffer.UploadData drv api buf data tr).1.drop tr.length := by
  constructor
  · rw [DownloadData_eq] at hret ⊢
    split_ifs at hret ⊢
    · exact ⟨[buf.downloadFirst data, buf.downloadSecond data], by simp, by simp⟩
    · exact ⟨[buf.downloadFirst data], by simp, by simp⟩
  · intro s
    rw [UploadData_eq]
    split_ifs
    · simp
    · rw [List.append_assoc]; simp
    · rw [List.append_assoc]; simp
    · simp

theorem C18_download_synchronises_witness :
    (∃ copies : List CUDA_MEMCPY2D, copies ≠ [] ∧
      (NvOFCudaBuffer.DownloadData
          (goodDriver 80 { strideXInBytes := 1920, strideYInBytes := 1080 })
          { libHandle := 1, nvofFuncList := FunctionList.bound, ctx := 1, inputFrame := 2,
            outputFrame := 3, handle := 1 }
          { m_width := 480, m_elementSize := 4, m_height := 270,
            m_eBufUsage := NV_OF_BUFFER_USAGE.NV_OF_BUFFER_USAGE_OUTPUT,
            m_eBufFmt := NV_OF_BUFFER_FORMAT.NV_OF_BUFFER_FORMAT_SHORT2, m_hGPUBuffer := 1,
            m_devicePtr := 4096,
            m_strideInfo := { strideXInBytes := 1920, strideYInBytes := 1080 } } 65536 []).1 =
        [] ++ copies.map (fun p => DriverOp.cuMemcpy2DAsync p 3) ++
          [DriverOp.cuStreamSynchronize 3]) ∧
    ∀ s : Nat, DriverOp.cuStreamSynchronize s ∉
      (NvOFCudaBuffer.UploadData
          (goodDriver 80 { strideXInBytes := 1920, strideYInBytes := 1080 })
          { libHandle := 1, nvofFuncList := FunctionList.bound, ctx := 1, inputFrame := 2,
            outputFrame := 3, handle := 1 }
          { m_width := 480, m_elementSize := 4, m_height := 270,
            m_eBufUsage := NV_OF_BUFFER_USAGE.NV_OF_BUFFER_USAGE_OUTPUT,
            m_eBufFmt := NV_OF_BUFFER_FORMAT.NV_OF_BUFFER_FORMAT_SHORT2, m_hGPUBuffer := 1,
            m_devicePtr := 4096,
            m_strideInfo := { strideXInBytes := 1920, strideYInBytes := 1080 } }
          65536 []).1.drop ([] : List DriverOp).length :=
  C18_download_synchronises
    (goodDriver 80 { strideXInBytes := 1920, strideYInBytes := 1080 })
    { libHandle := 1, nvofFuncList := FunctionList.bound, ctx := 1, inputFrame := 2,
      outputFrame := 3, handle := 1 }
    { m_width := 480, m_elementSize := 4, m_height := 270,
      m_eBufUsage := NV_OF_BUFFER_USAGE.NV_OF_BUFFER_USAGE_OUTPUT,
      m_eBufFmt := NV_OF_BUFFER_FORMAT.NV_OF_BUFFER_FORMAT_SHORT2, m_hGPUBuffer := 1,
      m_devicePtr := 4096,
      m_strideInfo := { strideXInBytes := 1920, strideYInBytes := 1080 } } 65536 [] rfl

/-! ## C16: the copies of `DownloadData` against those of `UploadData` -/

/-- C16, as stated, fails for NV12: for an NV12 buffer of 2 rows of 2 bytes, the first copy
of `UploadData` moves 2 rows and the first copy of `DownloadData` moves 3, so the copies of
`DownloadData` are not those of `UploadData` with the ends exchanged. -/
theorem C16_counterexample :
    ((copiesOf (NvOFCudaBuffer.UploadData
        (goodDriver 80 { strideXInBytes := 2, strideYInBytes := 2 })
        { libHandle := 1, nvofFuncList := FunctionList.bound, ctx := 1, inputFrame := 2,
          outputFrame := 3, handle := 1 }
        { m_width := 2, m_elementSize := 1, m_height := 2,
          m_eBufUsage := NV_OF_BUFFER_USAGE.NV_OF_BUFFER_USAGE_INPUT,
          m_eBufFmt := NV_OF_BUFFER_FORMAT.NV_OF_BUFFER_FORMAT_NV12, m_hGPUBuffer := 1,
          m_devicePtr := 4096,
          m_strideInfo := { strideXInBytes := 2, strideYInBytes := 2 } } 0 []).1).map
        (fun c => c.1.Height) = [2, 1]) ∧
    ((copiesOf (NvOFCudaBuffer.DownloadData
        (goodDriver 80 { strideXInBytes := 2, strideYInBytes := 2 })
        { libHandle := 1, nvofFuncList := FunctionList.bound, ctx := 1, inputFrame := 2,
          outputFrame := 3, handle := 1 }
        { m_width := 2, m_elementSize := 1, m_height := 2,
          m_eBufUsage := NV_OF_BUFFER_USAGE.NV_OF_BUFFER_USAGE_INPUT,
          m_eBufFmt := NV_OF_BUFFER_FORMAT.NV_OF_BUFFER_FORMAT_NV12, m_hGPUBuffer := 1,
          m_devicePtr := 4096,
          m_strideInfo := { strideXInBytes := 2, strideYInBytes := 2 } } 0 []).1).map
        (fun c => c.1.Height) = [3, 1]) ∧
    (copiesOf (NvOFCudaBuffer.DownloadData
        (goodDriver 80 { strideXInBytes := 2, strideYInBytes := 2 })
        { libHandle := 1, nvofFuncList := FunctionList.bound, ctx := 1, inputFrame := 2,
          outputFrame := 3, handle := 1 }
        { m_width := 2, m_elementSize := 1, m_height := 2,
          m_eBufUsage := NV_OF_BUFFER_USAGE.NV_OF_BUFFER_USAGE_INPUT,
          m_eBufFmt := NV_OF_BUFFER_FORMAT.NV_OF_BUFFER_FORMAT_NV12, m_hGPUBuffer := 1,
          m_devicePtr := 4096,
          m_strideInfo := { strideXInBytes := 2, strideYInBytes := 2 } } 0 []).1).map
        (fun c => c.1) ≠
      (copiesOf (NvOFCudaBuffer.UploadData
        (goodDriver 80 { strideXInBytes := 2, strideYInBytes := 2 })
        { libHandle := 1, nvofFuncList := FunctionList.bound, ctx := 1, inputFrame := 2,
          outputFrame := 3, handle := 1 }
        { m_width := 2, m_elementSize := 1, m_height := 2,
          m_eBufUsage := NV_OF_BUFFER_USAGE.NV_OF_BUFFER_USAGE_INPUT,
          m_eBufFmt := NV_OF_BUFFER_FORMAT.NV_OF_BUFFER_FORMAT_NV12, m_hGPUBuffer := 1,
          m_devicePtr := 4096,
          m_strideInfo := { strideXInBytes := 2, strideYInBytes := 2 } } 0 []).1).map
        (fun c => c.1.swapEnds) := by
  refine ⟨by decide, by decide, by decide⟩

/-- C16, amended: when both calls return, `DownloadData` requests as many copies as
`UploadData`, all on the same stream.  For a format other than NV12 that is one copy each,
and the copy of `DownloadData` is the copy of `UploadData` with source and destination
exchanged.  For NV12 it is two copies each: the second of `DownloadData` is the second of
`UploadData` with the ends exchanged, and the first of `DownloadData` is the first of
`UploadData` with the ends exchanged except for its number of rows, `height + height / 2`
instead of `height`. -/
theorem C16_download_mirrors_upload (drv : Driver) (api : API) (buf : NvOFCudaBuffer)
    (data : Nat) (tr1 tr2 : List DriverOp)
    (hup : (NvOFCudaBuffer.UploadData drv api buf data tr1).2 = Outcome.returned ())
    (hdown : (NvOFCudaBuffer.DownloadData drv api buf data tr2).2 = Outcome.returned ()) :
    (copiesOf ((NvOFCudaBuffer.DownloadData drv api buf data tr2).1.drop tr2.length)).length =
      (copiesOf ((NvOFCudaBuffer.UploadData drv api buf data tr1).1.drop tr1.length)).length ∧
    (buf.m_eBufFmt ≠ NV_OF_BUFFER_FORMAT.NV_OF_BUFFER_FORMAT_NV12 →
      copiesOf ((NvOFCudaBuffer.UploadData drv api buf data tr1).1.drop tr1.length) =
        [(buf.uploadFirst data, api.getCudaStream buf.m_eBufUsage)] ∧
      copiesOf ((NvOFCudaBuffer.DownloadData drv api buf data tr2).1.drop tr2.length) =
        [((buf.uploadFirst data).swapEnds, api.getCudaStream buf.m_eBufUsage)]) ∧
    (buf.m_eBufFmt = NV_OF_BUFFER_FORMAT.NV_OF_BUFFER_FORMAT_NV12 →
      copiesOf ((NvOFCudaBuffer.UploadData drv api buf data tr1).1.drop tr1.length) =
        [(buf.uploadFirst data, api.getCudaStream buf.m_eBufUsage),
          (buf.uploadSecond data, api.getCudaStream buf.m_eBufUsage)] ∧
      copiesOf ((NvOFCudaBuffer.DownloadData drv api buf data tr2).1.drop tr2.length) =
        [({ (buf.uploadFirst data).swapEnds with
              Height := u32 (buf.m_height + buf.m_height / 2) },
            api.getCudaStream buf.m_eBufUsage),
          ((buf.uploadSecond data).swapEnds, api.getCudaStream buf.m_eBufUsage)]) := by
  rw [UploadData_eq] at hup ⊢
  rw [DownloadData_eq] at hdown ⊢
  by_cases hfmt : buf.m_eBufFmt = NV_OF_BUFFER_FORMAT.NV_OF_BUFFER_FORMAT_NV12
  · have hd1 : buf.downloadFirst data =
        { (buf.uploadFirst data).swapEnds with
          Height := u32 (buf.m_height + buf.m_height / 2) } := by
      unfold NvOFCudaBuffer.downloadFirst NvOFCudaBuffer.uploadFirst CUDA_MEMCPY2D.swapEnds
      rw [if_pos hfmt]
    have hd2 : buf.downloadSecond data = (buf.uploadSecond data).swapEnds := rfl
    split_ifs at hup hdown ⊢
    simp only [List.append_assoc, List.drop_left]
    refine ⟨rfl, fun h => absurd hfmt h, fun _ => ⟨rfl, ?_⟩⟩
    rw [hd1, hd2]
    rfl
  · have hd1 : buf.downloadFirst data = (buf.uploadFirst data).swapEnds := by
      unfold NvOFCudaBuffer.downloadFirst NvOFCudaBuffer.uploadFirst CUDA_MEMCPY2D.swapEnds
      rw [if_neg hfmt]
    split_ifs at hup hdown ⊢
    simp only [List.append_assoc, List.drop_left]
    refine ⟨rfl, fun _ => ⟨rfl, ?_⟩, fun h => absurd h hfmt⟩
    rw [hd1]
    rfl

theorem C16_download_mirrors_upload_witness :
    (copiesOf ((NvOFCudaBuffer.DownloadData
        (goodDriver 80 { strideXInBytes := 2, strideYInBytes := 2 })
        { libHandle := 1, nvofFuncList := FunctionList.bound, ctx := 1, inputFrame := 2,
          outputFrame := 3, handle := 1 }
        { m_width := 2, m_elementSize := 1, m_height := 2,
          m_eBufUsage := NV_OF_BUFFER_USAGE.NV_OF_BUFFER_USAGE_INPUT,
          m_eBufFmt := NV_OF_BUFFER_FORMAT.NV_OF_BUFFER_FORMAT_NV12, m_hGPUBuffer := 1,
          m_devicePtr := 4096,
          m_strideInfo := { strideXInBytes := 2, strideYInBytes := 2 } } 0 []).1.drop
        ([] : List DriverOp).length)).length =
      (copiesOf ((NvOFCudaBuffer.UploadData
        (goodDriver 80 { strideXInBytes := 2, strideYInBytes := 2 })
        { libHandle := 1, nvofFuncList := FunctionList.bound, ctx := 1, inputFrame := 2,
          outputFrame := 3, handle := 1 }
        { m_width := 2, m_elementSize := 1, m_height := 2,
          m_eBufUsage := NV_OF_BUFFER_USAGE.NV_OF_BUFFER_USAGE_INPUT,
          m_eBufFmt := NV_OF_BUFFER_FORMAT.NV_OF_BUFFER_FORMAT_NV12, m_hGPUBuffer := 1,
          m_devicePtr := 4096,
          m_strideInfo := { strideXInBytes := 2, strideYInBytes := 2 } } 0 []).1.drop
        ([] : List DriverOp).length)).length :=
  (C16_download_mirrors_upload
    (goodDriver 80 { strideXInBytes := 2, strideYInBytes := 2 })
    { libHandle := 1, nvofFuncList := FunctionList.bound, ctx := 1, inputFrame := 2,
      outputFrame := 3, handle := 1 }
    { m_width := 2, m_elementSize := 1, m_height := 2,
      m_eBufUsage := NV_OF_BUFFER_USAGE.NV_OF_BUFFER_USAGE_INPUT,
      m_eBufFmt := NV_OF_BUFFER_FORMAT.NV_OF_BUFFER_FORMAT_NV12, m_hGPUBuffer := 1,
      m_devicePtr := 4096,
      m_strideInfo := { strideXInBytes := 2, strideYInBytes := 2 } } 0 [] [] rfl rfl).1

/-! ## C17: upload followed by download -/

/-- The effect on memory of the calls one `UploadData` and one `DownloadData` add, for a
format other than NV12 and both returning: the two first copies, in order. -/
theorem execOps_upload_download (drv : Driver) (api : API) (buf : NvOFCudaBuffer)
    (dataIn dataOut : Nat) (tr : List DriverOp) (mem : Mem)
    (hfmt : buf.m_eBufFmt ≠ NV_OF_BUFFER_FORMAT.NV_OF_BUFFER_FORMAT_NV12)
    (_hup : (NvOFCudaBuffer.UploadData drv api buf dataIn tr).2 = Outcome.returned ())
    (hdown : (NvOFCudaBuffer.DownloadData drv api buf dataOut
      (NvOFCudaBuffer.UploadData drv api buf dataIn tr).1).2 = Outcome.returned ()) :
    execOps ((NvOFCudaBuffer.DownloadData drv api buf dataOut
        (NvOFCudaBuffer.UploadData drv api buf dataIn tr).1).1.drop tr.length) mem =
      execCopy (buf.downloadFirst dataOut) (execCopy (buf.uploadFirst dataIn) mem) := by
  have hU : (NvOFCudaBuffer.UploadData drv api buf dataIn tr).1 =
      tr ++ [DriverOp.cuMemcpy2DAsync (buf.uploadFirst dataIn)
        (api.getCudaStream buf.m_eBufUsage)] := by
    rw [UploadData_eq]
    split_ifs <;> rfl
  rw [hU] at hdown ⊢
  rw [DownloadData_eq] at hdown ⊢
  split_ifs at hdown ⊢
  simp only [List.append_assoc, List.drop_left]
  rfl

/-- C17: for an ABGR8 buffer of usage Input that the constructor returned for a descriptor
of width `w` and height `h`, with reported row stride at least `4 * w` (and `4 * w` below
`2 ^ 32`), when `UploadData(dataIn)` and then `DownloadData(dataOut)` return, the calls they
added, executed in order on memory `mem`, leave in each of the `4 * w * h` bytes from
`dataOut` the byte that `mem` held at the same offset from `dataIn`. -/
theorem C17_round_trip (drv : Driver) (api : API) (desc : NV_OF_BUFFER_DESCRIPTOR)
    (junkElementSize : Nat) (tr0 tr : List DriverOp) (buf : NvOFCudaBuffer)
    (dataIn dataOut : Nat) (mem : Mem)
    (hctor : NvOFCudaBuffer.ctor drv api desc junkElementSize tr0 = (tr, Outcome.returned buf))
    (hfmt : desc.bufferFormat = NV_OF_BUFFER_FORMAT.NV_OF_BUFFER_FORMAT_ABGR8)
    (_huse : desc.bufferUsage = NV_OF_BUFFER_USAGE.NV_OF_BUFFER_USAGE_INPUT)
    (hstride : 4 * desc.width ≤ buf.m_strideInfo.strideXInBytes)
    (hw : 4 * desc.width < 4294967296)
    (hup : (NvOFCudaBuffer.UploadData drv api buf dataIn tr).2 = Outcome.returned ())
    (hdown : (NvOFCudaBuffer.DownloadData drv api buf dataOut
      (NvOFCudaBuffer.UploadData drv api buf dataIn tr).1).2 = Outcome.returned ()) :
    ∀ i : Nat, i < 4 * desc.width * desc.height →
      (execOps ((NvOFCudaBuffer.DownloadData drv api buf dataOut
          (NvOFCudaBuffer.UploadData drv api buf dataIn tr).1).1.drop tr.length) mem).host
        (dataOut + i) = mem.host (dataIn + i) := by
  intro i hi
  obtain ⟨hf, _, hwd, hht, hes⟩ := ctor_returned drv api desc junkElementSize tr0 tr buf hctor
  rw [hfmt] at hf
  rw [hfmt, if_pos rfl] at hes
  have hne : buf.m_eBufFmt ≠ NV_OF_BUFFER_FORMAT.NV_OF_BUFFER_FORMAT_NV12 := by
    rw [hf]; decide
  have hW : u32 (buf.m_width * buf.m_elementSize) = 4 * desc.width := by
    rw [hwd, hes, Nat.mul_comm]
    exact u32_of_lt hw
  rw [execOps_upload_download drv api buf dataIn dataOut tr mem hne hup hdown]
  have hpos : 0 < 4 * desc.width := by
    rcases Nat.eq_zero_or_pos (4 * desc.width) with h0 | h0
    · rw [h0, Nat.zero_mul] at hi
      omega
    · exact h0
  have hr : i / (4 * desc.width) < buf.m_height := by
    rw [hht]
    exact Nat.div_lt_of_lt_mul hi
  have hb : i % (4 * desc.width) < u32 (buf.m_width * buf.m_elementSize) := by
    rw [hW]
    exact Nat.mod_lt _ hpos
  have hsplit : i = i / (4 * desc.width) * (4 * desc.width) + i % (4 * desc.width) :=
    (Nat.div_add_mod' i (4 * desc.width)).symm
  have hd := download_effect buf dataOut (execCopy (buf.uploadFirst dataIn) mem)
    (i / (4 * desc.width)) (i % (4 * desc.width)) hne hr hb
  have hu := (upload_effect buf dataIn mem (i / (4 * desc.width)) (i % (4 * desc.width))
    hr hb (by rw [hW]; exact hstride)).2
  rw [hW] at hd hu
  have e1 : dataOut + i =
      dataOut + i / (4 * desc.width) * (4 * desc.width) + i % (4 * desc.width) := by omega
  have e2 : dataIn + i =
      dataIn + i / (4 * desc.width) * (4 * desc.width) + i % (4 * desc.width) := by omega
  rw [e1, e2, hd, hu]

theorem C17_round_trip_witness :
    (execOps ((NvOFCudaBuffer.DownloadData
        (goodDriver 80 { strideXInBytes := 16, strideYInBytes := 2 })
        { libHandle := 1, nvofFuncList := FunctionList.bound, ctx := 1, inputFrame := 2,
          outputFrame := 3, handle := 1 }
        { m_width := 2, m_elementSize := 4, m_height := 2,
          m_eBufUsage := NV_OF_BUFFER_USAGE.NV_OF_BUFFER_USAGE_INPUT,
          m_eBufFmt := NV_OF_BUFFER_FORMAT.NV_OF_BUFFER_FORMAT_ABGR8, m_hGPUBuffer := 1,
          m_devicePtr := 4096,
          m_strideInfo := { strideXInBytes := 16, strideYInBytes := 2 } } 200
        (NvOFCudaBuffer.UploadData
          (goodDriver 80 { strideXInBytes := 16, strideYInBytes := 2 })
          { libHandle := 1, nvofFuncList := FunctionList.bound, ctx := 1, inputFrame := 2,
            outputFrame := 3, handle := 1 }
          { m_width := 2, m_elementSize := 4, m_height := 2,
            m_eBufUsage := NV_OF_BUFFER_USAGE.NV_OF_BUFFER_USAGE_INPUT,
            m_eBufFmt := NV_OF_BUFFER_FORMAT.NV_OF_BUFFER_FORMAT_ABGR8, m_hGPUBuffer := 1,
            m_devicePtr := 4096,
            m_strideInfo := { strideXInBytes := 16, strideYInBytes := 2 } } 100
          [DriverOp.nvOFCreateGPUBufferCuda 1
              { width := 2, height := 2,
                bufferUsage := NV_OF_BUFFER_USAGE.NV_OF_BUFFER_USAGE_INPUT,
                bufferFormat := NV_OF_BUFFER_FORMAT.NV_OF_BUFFER_FORMAT_ABGR8 },
            DriverOp.nvOFGPUBufferGetCUdeviceptr 1,
            DriverOp.nvOFGPUBufferGetStrideInfo 1]).1).1.drop
        [DriverOp.nvOFCreateGPUBufferCuda 1
            { width := 2, height := 2,
              bufferUsage := NV_OF_BUFFER_USAGE.NV_OF_BUFFER_USAGE_INPUT,
              bufferFormat := NV_OF_BUFFER_FORMAT.NV_OF_BUFFER_FORMAT_ABGR8 },
          DriverOp.nvOFGPUBufferGetCUdeviceptr 1,
          DriverOp.nvOFGPUBufferGetStrideInfo 1].length)
      { host := fun a => a % 256, device := fun _ => 0 }).host (200 + 15) =
      (115 : Nat) % 256 :=
  C17_round_trip
    (goodDriver 80 { strideXInBytes := 16, strideYInBytes := 2 })
    { libHandle := 1, nvofFuncList := FunctionList.bound, ctx := 1, inputFrame := 2,
      outputFrame := 3, handle := 1 }
    { width := 2, height := 2,
      bufferUsage := NV_OF_BUFFER_USAGE.NV_OF_BUFFER_USAGE_INPUT,
      bufferFormat := NV_OF_BUFFER_FORMAT.NV_OF_BUFFER_FORMAT_ABGR8 } 0 [] _ _ 100 200
    { host := fun a => a % 256, device := fun _ => 0 } rfl rfl rfl (by decide) (by decide)
    rfl rfl 15 (by decide)

/-! ## C19: the interface version -/

/-- C19 fails: the compiled version `NV_OF_API_VERSION` is 80, but the constructor asks
`NvOFAPICreateInstanceCuda` for the version the driver reported, whatever it is, and never
compares the two.  With a driver that reports 64 (4.0, lower than 80) the request is for
version 64, the session is created and the constructor returns with nothing caught; with a
driver that reports 96 the request is for version 96. -/
theorem C19_version_not_checked :
    NV_OF_API_VERSION = 80 ∧ u32 64 < NV_OF_API_VERSION ∧
    API.ctor (goodDriver 64 { strideXInBytes := 7680, strideYInBytes := 1080 }) 1 2 3 0 0 [] =
      ([DriverOp.dlopen, DriverOp.dlsymCreateInstanceCuda,
          DriverOp.dlsymGetMaxSupportedApiVersion, DriverOp.NvOFGetMaxSupportedApiVersion,
          DriverOp.NvOFAPICreateInstanceCuda 64, DriverOp.nvCreateOpticalFlowCuda 1,
          DriverOp.nvOFSetIOCudaStreams 1 2 3],
        Outcome.returned
          ({ libHandle := 1, nvofFuncList := FunctionList.bound, ctx := 1, inputFrame := 2,
             outputFrame := 3, handle := 1 }, none)) ∧
    DriverOp.NvOFAPICreateInstanceCuda NV_OF_API_VERSION ∉
      (API.ctor (goodDriver 64 { strideXInBytes := 7680, strideYInBytes := 1080 })
        1 2 3 0 0 []).1 ∧
    (API.ctor (goodDriver 96 { strideXInBytes := 7680, strideYInBytes := 1080 })
        1 2 3 0 0 []).1 =
      [DriverOp.dlopen, DriverOp.dlsymCreateInstanceCuda,
        DriverOp.dlsymGetMaxSupportedApiVersion, DriverOp.NvOFGetMaxSupportedApiVersion,
        DriverOp.NvOFAPICreateInstanceCuda 96, DriverOp.nvCreateOpticalFlowCuda 1,
        DriverOp.nvOFSetIOCudaStreams 1 2 3] := by
  refine ⟨by decide, by decide, rfl, by decide, rfl⟩

/-! ## C20: a failed binding -/

/-- C20 fails: when `dlopen` returns null, or when the entry `NvOFAPICreateInstanceCuda` is
missing, the constructor catches its own `NV_OF_ERR_OF_NOT_AVAILABLE` and returns an object
whose function table is null, and the start of `calculateFlow` goes on to call `nvOFInit`
through that null table, which is undefined.  When the entry
`NvOFGetMaxSupportedApiVersion` is missing nothing is thrown at all: the constructor calls
through the null entry. -/
theorem C20_binding_failure_swallowed :
    API.ctor
        { goodDriver 80 { strideXInBytes := 7680, strideYInBytes := 1080 } with
          dlopen := fun _ => 0 } 1 2 3 0 0 [] =
      ([DriverOp.dlopen],
        Outcome.returned
          ({ libHandle := 0, nvofFuncList := FunctionList.null, ctx := 1, inputFrame := 2,
             outputFrame := 3, handle := 0 },
            some { m_errorCode := NV_OF_STATUS.NV_OF_ERR_OF_NOT_AVAILABLE })) ∧
    calculateFlowInit
        { goodDriver 80 { strideXInBytes := 7680, strideYInBytes := 1080 } with
          dlopen := fun _ => 0 } 1 2 3 0 0 [] =
      ([DriverOp.dlopen], Outcome.undefined) ∧
    API.ctor
        { goodDriver 80 { strideXInBytes := 7680, strideYInBytes := 1080 } with
          dlsymCreateInstanceCuda := fun _ => 0 } 1 2 3 0 0 [] =
      ([DriverOp.dlopen, DriverOp.dlsymCreateInstanceCuda,
          DriverOp.dlsymGetMaxSupportedApiVersion],
        Outcome.returned
          ({ libHandle := 1, nvofFuncList := FunctionList.null, ctx := 1, inputFrame := 2,
             outputFrame := 3, handle := 0 },
            some { m_errorCode := NV_OF_STATUS.NV_OF_ERR_OF_NOT_AVAILABLE })) ∧
    calculateFlowInit
        { goodDriver 80 { strideXInBytes := 7680, strideYInBytes := 1080 } with
          dlsymCreateInstanceCuda := fun _ => 0 } 1 2 3 0 0 [] =
      ([DriverOp.dlopen, DriverOp.dlsymCreateInstanceCuda,
          DriverOp.dlsymGetMaxSupportedApiVersion], Outcome.undefined) ∧
    API.ctor
        { goodDriver 80 { strideXInBytes := 7680, strideYInBytes := 1080 } with
          dlsymGetMaxSupportedApiVersion := fun _ => 0 } 1 2 3 0 0 [] =
      ([DriverOp.dlopen, DriverOp.dlsymCreateInstanceCuda,
          DriverOp.dlsymGetMaxSupportedApiVersion], Outcome.undefined) ∧
    calculateFlowInit
        { goodDriver 80 { strideXInBytes := 7680, strideYInBytes := 1080 } with
          dlsymGetMaxSupportedApiVersion := fun _ => 0 } 1 2 3 0 0 [] =
      ([DriverOp.dlopen, DriverOp.dlsymCreateInstanceCuda,
          DriverOp.dlsymGetMaxSupportedApiVersion], Outcome.undefined) := by
  refine ⟨rfl, rfl, rfl, rfl, rfl, rfl⟩

/-! ## C21: statuses the driver reports during `calculateFlow` -/

/-- C21 fails for three of the calls it names.  When `nvOFExecute` returns
`NV_OF_ERR_GENERIC`, `calculateFlow` drops the status: the download, the three buffer
destructions and the session destruction still run and `calculateFlow` returns.  When
`nvOFDestroy` returns an error, `calculateFlow` returns as well.  When
`nvOFDestroyGPUBufferCuda` returns an error, the exception leaves a destructor and the
program terminates: no `NvOFException` reaches the caller. -/
theorem C21_failures_not_surfaced :
    calculateFlow
        { freshDriver 80 { strideXInBytes := 7680, strideYInBytes := 1080 } with
          execute := fun _ _ _ _ _ => NV_OF_STATUS.NV_OF_ERR_GENERIC }
        4 16777216 33554432 50331648 1 2 3 0 0 0 0 0 [] =
      ([DriverOp.dlopen, DriverOp.dlsymCreateInstanceCuda,
          DriverOp.dlsymGetMaxSupportedApiVersion, DriverOp.NvOFGetMaxSupportedApiVersion,
          DriverOp.NvOFAPICreateInstanceCuda 80, DriverOp.nvCreateOpticalFlowCuda 1,
          DriverOp.nvOFSetIOCudaStreams 1 2 3, DriverOp.nvOFInit 1,
          DriverOp.nvOFCreateGPUBufferCuda 1
            { width := 1920, height := 1080,
              bufferUsage := NV_OF_BUFFER_USAGE.NV_OF_BUFFER_USAGE_INPUT,
              bufferFormat := NV_OF_BUFFER_FORMAT.NV_OF_BUFFER_FORMAT_ABGR8 },
          DriverOp.nvOFGPUBufferGetCUdeviceptr 9, DriverOp.nvOFGPUBufferGetStrideInfo 9,
          DriverOp.cuMemcpy2DAsync
            { srcXInBytes := 0, srcY := 0, srcMemoryType := CUmemorytype.CU_MEMORYTYPE_HOST,
              srcHost := 16777216, srcDevice := 0, srcPitch := 7680,
              dstXInBytes := 0, dstY := 0,
              dstMemoryType := CUmemorytype.CU_MEMORYTYPE_DEVICE,
              dstHost := 0, dstDevice := 36864, dstPitch := 7680,
              WidthInBytes := 7680, Height := 1080 } 2,
          DriverOp.nvOFCreateGPUBufferCuda 1
            { width := 1920, height := 1080,
              bufferUsage := NV_OF_BUFFER_USAGE.NV_OF_BUFFER_USAGE_INPUT,
              bufferFormat := NV_OF_BUFFER_FORMAT.NV_OF_BUFFER_FORMAT_ABGR8 },
          DriverOp.nvOFGPUBufferGetCUdeviceptr 13, DriverOp.nvOFGPUBufferGetStrideInfo 13,
          DriverOp.cuMemcpy2DAsync
            { srcXInBytes := 0, srcY := 0, srcMemoryType := CUmemorytype.CU_MEMORYTYPE_HOST,
              srcHost := 33554432, srcDevice := 0, srcPitch := 7680,
              dstXInBytes := 0, dstY := 0,
              dstMemoryType := CUmemorytype.CU_MEMORYTYPE_DEVICE,
              dstHost := 0, dstDevice := 53248, dstPitch := 7680,
              WidthInBytes := 7680, Height := 1080 } 2,
          DriverOp.nvOFCreateGPUBufferCuda 1
            { width := 480, height := 270,
              bufferUsage := NV_OF_BUFFER_USAGE.NV_OF_BUFFER_USAGE_OUTPUT,
              bufferFormat := NV_OF_BUFFER_FORMAT.NV_OF_BUFFER_FORMAT_SHORT2 },
          DriverOp.nvOFGPUBufferGetCUdeviceptr 17, DriverOp.nvOFGPUBufferGetStrideInfo 17,
          DriverOp.nvOFExecute 1 9 13 17,
          DriverOp.cuMemcpy2DAsync
            { srcXInBytes := 0, srcY := 0,
              srcMemoryType := CUmemorytype.CU_MEMORYTYPE_DEVICE,
              srcHost := 0, srcDevice := 69632, srcPitch := 7680,
              dstXInBytes := 0, dstY := 0, dstMemoryType := CUmemorytype.CU_MEMORYTYPE_HOST,
              dstHost := 50331648, dstDevice := 0, dstPitch := 1920,
              WidthInBytes := 1920, Height := 270 } 3,
          DriverOp.cuStreamSynchronize 3,
          DriverOp.nvOFDestroyGPUBufferCuda 9, DriverOp.nvOFDestroyGPUBufferCuda 13,
          DriverOp.nvOFDestroyGPUBufferCuda 17, DriverOp.nvOFDestroy 1],
        FlowExit.returned) ∧
    (calculateFlow
        { freshDriver 80 { strideXInBytes := 7680, strideYInBytes := 1080 } with
          destroy := fun _ _ => NV_OF_STATUS.NV_OF_ERR_GENERIC }
        4 16777216 33554432 50331648 1 2 3 0 0 0 0 0 []).2 = FlowExit.returned ∧
    (calculateFlow
        { freshDriver 80 { strideXInBytes := 7680, strideYInBytes := 1080 } with
          destroyGPUBufferCuda := fun _ _ => NV_OF_STATUS.NV_OF_ERR_GENERIC }
        4 16777216 33554432 50331648 1 2 3 0 0 0 0 0 []).2 = FlowExit.terminated := by
  refine ⟨by decide, by decide, by decide⟩

/-! ## C22: what is released when `calculateFlow` fails -/

/-- C22 fails: when the creation of the second buffer fails with
`NV_OF_ERR_OUT_OF_MEMORY`, the exception leaves `calculateFlow` at once; the first buffer
(handle 9) and the session (handle 1) are never destroyed. -/
theorem C22_nothing_released_on_error :
    calculateFlow
        { freshDriver 80 { strideXInBytes := 7680, strideYInBytes := 1080 } with
          createGPUBufferCuda := fun tr _ _ =>
            if tr.length = 8 then (NV_OF_STATUS.NV_OF_SUCCESS, 9)
            else (NV_OF_STATUS.NV_OF_ERR_OUT_OF_MEMORY, 0) }
        4 16777216 33554432 50331648 1 2 3 0 0 0 0 0 [] =
      ([DriverOp.dlopen, DriverOp.dlsymCreateInstanceCuda,
          DriverOp.dlsymGetMaxSupportedApiVersion, DriverOp.NvOFGetMaxSupportedApiVersion,
          DriverOp.NvOFAPICreateInstanceCuda 80, DriverOp.nvCreateOpticalFlowCuda 1,
          DriverOp.nvOFSetIOCudaStreams 1 2 3, DriverOp.nvOFInit 1,
          DriverOp.nvOFCreateGPUBufferCuda 1
            { width := 1920, height := 1080,
              bufferUsage := NV_OF_BUFFER_USAGE.NV_OF_BUFFER_USAGE_INPUT,
              bufferFormat := NV_OF_BUFFER_FORMAT.NV_OF_BUFFER_FORMAT_ABGR8 },
          DriverOp.nvOFGPUBufferGetCUdeviceptr 9, DriverOp.nvOFGPUBufferGetStrideInfo 9,
          DriverOp.cuMemcpy2DAsync
            { srcXInBytes := 0, srcY := 0, srcMemoryType := CUmemorytype.CU_MEMORYTYPE_HOST,
              srcHost := 16777216, srcDevice := 0, srcPitch := 7680,
              dstXInBytes := 0, dstY := 0,
              dstMemoryType := CUmemorytype.CU_MEMORYTYPE_DEVICE,
              dstHost := 0, dstDevice := 36864, dstPitch := 7680,
              WidthInBytes := 7680, Height := 1080 } 2,
          DriverOp.nvOFCreateGPUBufferCuda 1
            { width := 1920, height := 1080,
              bufferUsage := NV_OF_BUFFER_USAGE.NV_OF_BUFFER_USAGE_INPUT,
              bufferFormat := NV_OF_BUFFER_FORMAT.NV_OF_BUFFER_FORMAT_ABGR8 }],
        FlowExit.thrown { m_errorCode := NV_OF_STATUS.NV_OF_ERR_OUT_OF_MEMORY }) ∧
    releasesOf (calculateFlow
        { freshDriver 80 { strideXInBytes := 7680, strideYInBytes := 1080 } with
          createGPUBufferCuda := fun tr _ _ =>
            if tr.length = 8 then (NV_OF_STATUS.NV_OF_SUCCESS, 9)
            else (NV_OF_STATUS.NV_OF_ERR_OUT_OF_MEMORY, 0) }
        4 16777216 33554432 50331648 1 2 3 0 0 0 0 0 []).1 = [] := by
  refine ⟨by decide, by decide⟩

/-! ## C23: a run of `calculateFlow` without failure -/

theorem releasesOf_append (a b : List DriverOp) :
    releasesOf (a ++ b) = releasesOf a ++ releasesOf b := by
  unfold releasesOf
  exact List.filter_append _ _

theorem createdBuffers_append (drv : Driver) (a b tr : List DriverOp) :
    createdBuffers drv tr (a ++ b) =
      createdBuffers drv tr a ++ createdBuffers drv (tr ++ a) b := by
  induction a generalizing tr with
  | nil => simp [createdBuffers]
  | cons op a ih =>
    cases op <;>
      simp [createdBuffers, ih, List.append_assoc]

theorem createdSessions_append (drv : Driver) (a b tr : List DriverOp) :
    createdSessions drv tr (a ++ b) =
      createdSessions drv tr a ++ createdSessions drv (tr ++ a) b := by
  induction a generalizing tr with
  | nil => simp [createdSessions]
  | cons op a ih =>
    cases op <;>
      simp [createdSessions, ih, List.append_assoc]

/-- With no failing call, the constructor of `API` returns a bound object; its calls
create one session, the one of the object, and release nothing. -/
theorem API_ctor_ok (drv : Driver) (hs : drv.Succeeds) (c i o jl jh : Nat)
    (tr : List DriverOp) :
    ∃ api ops, API.ctor drv c i o jl jh tr = (tr ++ ops, Outcome.returned (api, none)) ∧
      api.getAPI = FunctionList.bound ∧ releasesOf ops = [] ∧
      createdBuffers drv tr ops = [] ∧ createdSessions drv tr ops = [api.handle] := by
  unfold API.ctor API.tryBlock
  simp only [hs.dlopen, hs.dlsymCreateInstanceCuda, hs.dlsymGetMaxSupportedApiVersion,
    hs.createInstanceCuda, hs.createOpticalFlowCuda, hs.setIOCudaStreams, if_false,
    ne_eq, not_true_eq_false, List.append_assoc, List.singleton_append, List.cons_append,
    List.nil_append]
  exact ⟨_, _, rfl, rfl, rfl, by simp [createdBuffers],
    by simp [createdSessions, List.append_assoc]⟩

/-- With no failing call and a bound table, the constructor of a buffer returns a buffer
with a non-null handle; its calls create that one buffer and release nothing. -/
theorem buffer_ctor_ok (drv : Driver) (hs : drv.Succeeds) (api : API)
    (hb : api.getAPI = FunctionList.bound) (desc : NV_OF_BUFFER_DESCRIPTOR) (junk : Nat)
    (tr : List DriverOp) :
    ∃ buf ops, NvOFCudaBuffer.ctor drv api desc junk tr = (tr ++ ops, Outcome.returned buf) ∧
      buf.m_hGPUBuffer ≠ 0 ∧ releasesOf ops = [] ∧
      createdBuffers drv tr ops = [buf.m_hGPUBuffer] ∧ createdSessions drv tr ops = [] := by
  unfold NvOFCudaBuffer.ctor
  rw [hb]
  simp only [(hs.createGPUBufferCuda _ _ _).1, hs.getStrideInfo, ne_eq, not_true_eq_false,
    if_false]
  simp only [List.append_assoc, List.singleton_append]
  exact ⟨_, _, rfl, (hs.createGPUBufferCuda _ _ _).2, rfl, by simp [createdBuffers],
    by simp [createdSessions]⟩

/-- With no failing call, `UploadData` returns; its calls create and release nothing. -/
theorem UploadData_ok (drv : Driver) (hs : drv.Succeeds) (api : API) (buf : NvOFCudaBuffer)
    (data : Nat) (tr : List DriverOp) :
    ∃ ops, NvOFCudaBuffer.UploadData drv api buf data tr = (tr ++ ops, Outcome.returned ()) ∧
      releasesOf ops = [] ∧ createdBuffers drv tr ops = [] ∧
      createdSessions drv tr ops = [] := by
  rw [UploadData_eq]
  simp only [hs.memcpy2DAsync, ne_eq, not_true_eq_false, if_false, List.append_assoc]
  split_ifs
  · exact ⟨_, rfl, rfl, by simp [createdBuffers], by simp [createdSessions]⟩
  · exact ⟨_, rfl, rfl, by simp [createdBuffers], by simp [createdSessions]⟩

/-- With no failing call, `DownloadData` returns; its calls create and release nothing. -/
theorem DownloadData_ok (drv : Driver) (hs : drv.Succeeds) (api : API) (buf : NvOFCudaBuffer)
    (data : Nat) (tr : List DriverOp) :
    ∃ ops, NvOFCudaBuffer.DownloadData drv api buf data tr =
        (tr ++ ops, Outcome.returned ()) ∧
      releasesOf ops = [] ∧ createdBuffers drv tr ops = [] ∧
      createdSessions drv tr ops = [] := by
  rw [DownloadData_eq]
  simp only [hs.memcpy2DAsync, hs.streamSynchronize, ne_eq, not_true_eq_false, if_false,
    List.append_assoc]
  split_ifs
  · exact ⟨_, rfl, rfl, by simp [createdBuffers], by simp [createdSessions]⟩
  · exact ⟨_, rfl, rfl, by simp [createdBuffers], by simp [createdSessions]⟩

/-- With no failing call and a bound table, the destructor of a buffer with a non-null
handle makes one call, the destruction of that handle, and returns. -/
theorem buffer_dtor_ok (drv : Driver) (hs : drv.Succeeds) (api : API)
    (hb : api.getAPI = FunctionList.bound) (buf : NvOFCudaBuffer) (hh : buf.m_hGPUBuffer ≠ 0)
    (tr : List DriverOp) :
    NvOFCudaBuffer.dtor drv api buf tr =
      (tr ++ [DriverOp.nvOFDestroyGPUBufferCuda buf.m_hGPUBuffer], Outcome.returned ()) := by
  unfold NvOFCudaBuffer.dtor
  rw [if_pos hh, hb]
  simp only [hs.destroyGPUBufferCuda, ne_eq, not_true_eq_false, if_false]

/-- With no failing call, `createAndUploadInputBuffer` returns a buffer with a non-null
handle; its calls create that one buffer and release nothing. -/
theorem createAndUploadInputBuffer_ok (drv : Driver) (hs : drv.Succeeds) (api : API)
    (hb : api.getAPI = FunctionList.bound) (frameData junk : Nat) (tr : List DriverOp) :
    ∃ buf ops, createAndUploadInputBuffer drv api frameData junk tr =
        (tr ++ ops, Outcome.returned buf) ∧
      buf.m_hGPUBuffer ≠ 0 ∧ releasesOf ops = [] ∧
      createdBuffers drv tr ops = [buf.m_hGPUBuffer] ∧ createdSessions drv tr ops = [] := by
  obtain ⟨buf, o1, h1, hn, r1, c1, s1⟩ := buffer_ctor_ok drv hs api hb
    { width := W_BUFF.toNat, height := H_BUFF.toNat,
      bufferUsage := NV_OF_BUFFER_USAGE.NV_OF_BUFFER_USAGE_INPUT,
      bufferFormat := NV_OF_BUFFER_FORMAT.NV_OF_BUFFER_FORMAT_ABGR8 } junk tr
  obtain ⟨o2, h2, r2, c2, s2⟩ := UploadData_ok drv hs api buf frameData (tr ++ o1)
  refine ⟨buf, o1 ++ o2, ?_, hn, ?_, ?_, ?_⟩
  · simp only [createAndUploadInputBuffer, h1, h2, List.append_assoc]
  · rw [releasesOf_append, r1, r2]
    rfl
  · rw [createdBuffers_append, c1, c2]
    rfl
  · rw [createdSessions_append, s1, s2]
    rfl

/-- C23: when no call fails (and the grid size is not 0), `calculateFlow` returns, and among
the calls it made exactly one session and three buffers were created; the calls that
destroy anything are, in this order, one `nvOFDestroyGPUBufferCuda` for each of the three
buffers and then one `nvOFDestroy` for the session. -/
theorem C23_release_order (drv : Driver) (hs : drv.Succeeds) (gridsize : Nat)
    (hg : 1 ≤ gridsize) (frame1 frame2 flowdata cuContext instream outstream : Nat)
    (junkLib junkHandle junkIn junkRef junkOut : Nat) (tr : List DriverOp) :
    (calculateFlow drv gridsize frame1 frame2 flowdata cuContext instream outstream
      junkLib junkHandle junkIn junkRef junkOut tr).2 = FlowExit.returned ∧
    ∃ session b1 b2 b3 : Nat,
      createdSessions drv tr
          ((calculateFlow drv gridsize frame1 frame2 flowdata cuContext instream outstream
            junkLib junkHandle junkIn junkRef junkOut tr).1.drop tr.length) = [session] ∧
      createdBuffers drv tr
          ((calculateFlow drv gridsize frame1 frame2 flowdata cuContext instream outstream
            junkLib junkHandle junkIn junkRef junkOut tr).1.drop tr.length) = [b1, b2, b3] ∧
      releasesOf
          ((calculateFlow drv gridsize frame1 frame2 flowdata cuContext instream outstream
            junkLib junkHandle junkIn junkRef junkOut tr).1.drop tr.length) =
        [DriverOp.nvOFDestroyGPUBufferCuda b1, DriverOp.nvOFDestroyGPUBufferCuda b2,
          DriverOp.nvOFDestroyGPUBufferCuda b3, DriverOp.nvOFDestroy session] := by
  obtain ⟨api, o1, h1, hb, r1, c1, s1⟩ :=
    API_ctor_ok drv hs cuContext instream outstream junkLib junkHandle tr
  have h2 : nvOFInitCall drv api (tr ++ o1) =
      (tr ++ o1 ++ [DriverOp.nvOFInit api.handle], Outcome.returned ()) := by
    unfold nvOFInitCall
    rw [hb]
    simp only [hs.init, ne_eq, not_true_eq_false, if_false]
  obtain ⟨bin, o3, h3, n3, r3, c3, s3⟩ := createAndUploadInputBuffer_ok drv hs api hb
    frame1 junkIn (tr ++ o1 ++ [DriverOp.nvOFInit api.handle])
  obtain ⟨bref, o4, h4, n4, r4, c4, s4⟩ := createAndUploadInputBuffer_ok drv hs api hb
    frame2 junkRef (tr ++ o1 ++ [DriverOp.nvOFInit api.handle] ++ o3)
  have hdim := calculateOutputDimensions_eq gridsize hg
  obtain ⟨bout, o5, h5, n5, r5, c5, s5⟩ := buffer_ctor_ok drv hs api hb
    { width := 1920 / gridsize, height := 1080 / gridsize,
      bufferUsage := NV_OF_BUFFER_USAGE.NV_OF_BUFFER_USAGE_OUTPUT,
      bufferFormat := NV_OF_BUFFER_FORMAT.NV_OF_BUFFER_FORMAT_SHORT2 } junkOut
    (tr ++ o1 ++ [DriverOp.nvOFInit api.handle] ++ o3 ++ o4)
  obtain ⟨o7, h7, r7, c7, s7⟩ := DownloadData_ok drv hs api bout flowdata
    (tr ++ o1 ++ [DriverOp.nvOFInit api.handle] ++ o3 ++ o4 ++ o5 ++
      [DriverOp.nvOFExecute api.handle bin.m_hGPUBuffer bref.m_hGPUBuffer bout.m_hGPUBuffer])
  have hT : calculateFlow drv gridsize frame1 frame2 flowdata cuContext instream outstream
      junkLib junkHandle junkIn junkRef junkOut tr =
      (tr ++ o1 ++ [DriverOp.nvOFInit api.handle] ++ o3 ++ o4 ++ o5 ++
        [DriverOp.nvOFExecute api.handle bin.m_hGPUBuffer bref.m_hGPUBuffer
          bout.m_hGPUBuffer] ++ o7 ++
        [DriverOp.nvOFDestroyGPUBufferCuda bin.m_hGPUBuffer] ++
        [DriverOp.nvOFDestroyGPUBufferCuda bref.m_hGPUBuffer] ++
        [DriverOp.nvOFDestroyGPUBufferCuda bout.m_hGPUBuffer] ++
        [DriverOp.nvOFDestroy api.handle], FlowExit.returned) := by
    simp only [calculateFlow, andThen, deleteBuffer, h1, h2, h3, h4, hdim, createOutputBuffer,
      h5, nvOFExecuteCall, nvOFDestroyCall, hb, h7, buffer_dtor_ok drv hs api hb bin n3,
      buffer_dtor_ok drv hs api hb bref n4, buffer_dtor_ok drv hs api hb bout n5]
  rw [hT]
  refine ⟨rfl, api.handle, bin.m_hGPUBuffer, bref.m_hGPUBuffer, bout.m_hGPUBuffer, ?_, ?_, ?_⟩
  · simp only [List.append_assoc, List.drop_left]
    simp only [createdSessions_append, s1, s3, s4, s5, s7]
    simp [createdSessions]
  · simp only [List.append_assoc, List.drop_left]
    simp only [createdBuffers_append, c1, c3, c4, c5, c7]
    simp [createdBuffers]
  · simp only [List.append_assoc, List.drop_left]
    simp only [releasesOf_append, r1, r3, r4, r5, r7]
    simp [releasesOf]

theorem C23_release_order_witness :
    (calculateFlow (freshDriver 80 { strideXInBytes := 7680, strideYInBytes := 1080 })
      4 16777216 33554432 50331648 1 2 3 0 0 0 0 0 []).2 = FlowExit.returned ∧
    releasesOf
        ((calculateFlow (freshDriver 80 { strideXInBytes := 7680, strideYInBytes := 1080 })
          4 16777216 33554432 50331648 1 2 3 0 0 0 0 0 []).1.drop
            ([] : List DriverOp).length) =
      [DriverOp.nvOFDestroyGPUBufferCuda 9, DriverOp.nvOFDestroyGPUBufferCuda 13,
        DriverOp.nvOFDestroyGPUBufferCuda 17, DriverOp.nvOFDestroy 1] :=
  ⟨(C23_release_order (freshDriver 80 { strideXInBytes := 7680, strideYInBytes := 1080 })
      { dlopen := fun _ => Nat.succ_ne_zero 0
        dlsymCreateInstanceCuda := fun _ => Nat.succ_ne_zero 0
        dlsymGetMaxSupportedApiVersion := fun _ => Nat.succ_ne_zero 0
        createInstanceCuda := fun _ _ => rfl
        createOpticalFlowCuda := fun _ _ => rfl
        setIOCudaStreams := fun _ _ _ _ => rfl
        init := fun _ _ => rfl
        createGPUBufferCuda := fun _ _ _ => ⟨rfl, Nat.succ_ne_zero _⟩
        getStrideInfo := fun _ _ => rfl
        execute := fun _ _ _ _ _ => rfl
        destroyGPUBufferCuda := fun _ _ => rfl
        destroy := fun _ _ => rfl
        memcpy2DAsync := fun _ _ _ => rfl
        streamSynchronize := fun _ _ => rfl }
      4 (by decide) 16777216 33554432 50331648 1 2 3 0 0 0 0 0 []).1, by decide⟩

/-! ## C24: the second copy of `UploadData` for NV12 -/

/-- C24 fails: for an NV12 buffer of 4 rows of 4 bytes uploaded from host address 65536,
the second copy has `ceil(4 / 2) = 2` rows but its source is `65536 + 4 * 2 = 65544`, not
the end of the luma plane `65536 + 4 * 4 = 65552`: the offset is computed from the number
of rows of the second copy.  The host byte at 65544 (holding 8 when every byte holds its
address modulo 256) is read by both copies: the first puts it in row 2 of the device
buffer, the second in row 4, where the byte at 65552 (holding 16) belongs. -/
theorem C24_chroma_source_inside_luma :
    copiesOf (NvOFCudaBuffer.UploadData
        (goodDriver 80 { strideXInBytes := 4, strideYInBytes := 4 })
        { libHandle := 1, nvofFuncList := FunctionList.bound, ctx := 1, inputFrame := 2,
          outputFrame := 3, handle := 1 }
        { m_width := 4, m_elementSize := 1, m_height := 4,
          m_eBufUsage := NV_OF_BUFFER_USAGE.NV_OF_BUFFER_USAGE_INPUT,
          m_eBufFmt := NV_OF_BUFFER_FORMAT.NV_OF_BUFFER_FORMAT_NV12, m_hGPUBuffer := 1,
          m_devicePtr := 4096,
          m_strideInfo := { strideXInBytes := 4, strideYInBytes := 4 } } 65536 []).1 =
      [({ srcXInBytes := 0, srcY := 0, srcMemoryType := CUmemorytype.CU_MEMORYTYPE_HOST,
          srcHost := 65536, srcDevice := 0, srcPitch := 4,
          dstXInBytes := 0, dstY := 0, dstMemoryType := CUmemorytype.CU_MEMORYTYPE_DEVICE,
          dstHost := 0, dstDevice := 4096, dstPitch := 4,
          WidthInBytes := 4, Height := 4 }, 2),
        ({ srcXInBytes := 0, srcY := 0, srcMemoryType := CUmemorytype.CU_MEMORYTYPE_HOST,
           srcHost := 65544, srcDevice := 0, srcPitch := 4,
           dstXInBytes := 0, dstY := 4, dstMemoryType := CUmemorytype.CU_MEMORYTYPE_DEVICE,
           dstHost := 0, dstDevice := 4096, dstPitch := 4,
           WidthInBytes := 4, Height := 2 }, 2)] ∧
    (NvOFCudaBuffer.uploadSecond
        { m_width := 4, m_elementSize := 1, m_height := 4,
          m_eBufUsage := NV_OF_BUFFER_USAGE.NV_OF_BUFFER_USAGE_INPUT,
          m_eBufFmt := NV_OF_BUFFER_FORMAT.NV_OF_BUFFER_FORMAT_NV12, m_hGPUBuffer := 1,
          m_devicePtr := 4096,
          m_strideInfo := { strideXInBytes := 4, strideYInBytes := 4 } } 65536).srcHost ≠
      65536 + 4 * 4 ∧
    (execCopy
        { srcXInBytes := 0, srcY := 0, srcMemoryType := CUmemorytype.CU_MEMORYTYPE_HOST,
          srcHost := 65536, srcDevice := 0, srcPitch := 4,
          dstXInBytes := 0, dstY := 0, dstMemoryType := CUmemorytype.CU_MEMORYTYPE_DEVICE,
          dstHost := 0, dstDevice := 4096, dstPitch := 4,
          WidthInBytes := 4, Height := 4 }
        { host := fun a => a % 256, device := fun _ => 255 }).device (4096 + 2 * 4) = 8 ∧
    (execCopy
        { srcXInBytes := 0, srcY := 0, srcMemoryType := CUmemorytype.CU_MEMORYTYPE_HOST,
          srcHost := 65544, srcDevice := 0, srcPitch := 4,
          dstXInBytes := 0, dstY := 4, dstMemoryType := CUmemorytype.CU_MEMORYTYPE_DEVICE,
          dstHost := 0, dstDevice := 4096, dstPitch := 4,
          WidthInBytes := 4, Height := 2 }
        { host := fun a => a % 256, device := fun _ => 255 }).device (4096 + 4 * 4) = 8 := by
  refine ⟨by decide, by decide, by decide, by decide⟩

/-! ## C25: a field of 16-bit vectors has no unknown vector -/

/-- The stores of one row of the colouring loop: positions `3 * (y * w)` to
`3 * (y * w + n) - 1`, in increasing order. -/
theorem colorRowWrites_eq (w h y : Nat) (H : w * h * 2 < 2147483648) (hy : y < h)
    (ws : List Nat) (n : Nat) (hn : n ≤ w) :
    forRange n (fun x ws =>
        ws ++ [u32 (u32 (u32 (y * w) * 3) + u32 (3 * x)),
          u32 (u32 (u32 (u32 (y * w) * 3) + u32 (3 * x)) + 1),
          u32 (u32 (u32 (u32 (y * w) * 3) + u32 (3 * x)) + 2)]) ws =
      ws ++ List.range' (3 * (y * w)) (3 * n) := by
  induction n with
  | zero => simp [forRange_zero]
  | succ n ih =>
    rw [forRange_succ, ih (by omega)]
    have hx : n < w := by omega
    have hc := cell_lt hy hx
    rw [write_idx H hy hx, u32_of_lt (n := 3 * (y * w + n) + 1) (by omega),
      u32_of_lt (n := 3 * (y * w + n) + 2) (by omega)]
    have e : 3 * (n + 1) = 3 * n + 1 + 1 + 1 := by ring
    rw [e, List.range'_concat, List.range'_concat, List.range'_concat, List.append_assoc]
    congr 1
    simp only [List.append_assoc, List.singleton_append, List.cons_append, List.nil_append,
      Nat.one_mul]
    congr 1
    have e1 : 3 * (y * w + n) = 3 * (y * w) + 3 * n := by ring
    rw [e1]
    simp only [Nat.add_assoc]

/-- The colouring loop stores to the positions `0` to `3 * (w * h) - 1`, each once, in
increasing order. -/
theorem colorLoopWrites_eq (w h : Nat) (H : w * h * 2 < 2147483648) :
    colorLoopWrites w h = List.range (3 * (w * h)) := by
  have key : ∀ k, k ≤ h →
      forRange k (fun y ws =>
        forRange w (fun x ws =>
          ws ++ [u32 (u32 (u32 (y * w) * 3) + u32 (3 * x)),
            u32 (u32 (u32 (u32 (y * w) * 3) + u32 (3 * x)) + 1),
            u32 (u32 (u32 (u32 (y * w) * 3) + u32 (3 * x)) + 2)]) ws) [] =
        List.range' 0 (3 * (w * k)) := by
    intro k hk
    induction k with
    | zero => simp [forRange_zero]
    | succ k ih =>
      rw [forRange_succ, ih (by omega), colorRowWrites_eq w h k H (by omega) _ w (le_refl _)]
      have e := List.range'_append 0 (3 * (w * k)) (3 * w) 1
      simp only [Nat.one_mul, Nat.zero_add] at e
      have e1 : 3 * (k * w) = 3 * (w * k) := by ring
      have e2 : 3 * (w * (k + 1)) = 3 * w + 3 * (w * k) := by ring
      rw [e1, e2]
      exact e
  unfold colorLoopWrites
  rw [key h (le_refl _), List.range_eq_range']

/-- A 16-bit component divided by 32 has magnitude at most 1024. -/
theorem int16_magnitude {K : Type} [LinearOrderedField K] (x : Int) (hx : isInt16 x) :
    |(x : K) / 32| ≤ 1024 := by
  obtain ⟨h1, h2⟩ := hx
  have a1 : (-32768 : K) ≤ (x : K) := by exact_mod_cast h1
  have a2 : (x : K) ≤ 32767 := by exact_mod_cast h2
  rw [abs_le]
  constructor
  · rw [le_div_iff₀ (by norm_num : (0 : K) < 32)]
    linarith
  · rw [div_le_iff₀ (by norm_num : (0 : K) < 32)]
    linarith

/-- C25: in a field of 16-bit vectors (decoded under a rounding that keeps binary32
numbers), each decoded component is a number, the raw component divided by 32, of
magnitude at most 1024, below the threshold 1e9, so no vector is classified unknown;
the statistics loop does not return early; every pixel is the one `ComputeColor` gives;
and the colouring loop stores to each of the `3 * outwidth * outheight` positions of
the image exactly once (and to no other position). -/
theorem C25_no_unknown_vector {K : Type} [LinearOrderedField K] [FloorRing K]
    (m : FloatEnv K) (u : Uninit K) (fv : Nat → NV_OF_FLOW_VECTOR) (w h : Nat) (st : VisState)
    (hfix : RoundsToFloat m) (H : w * h * 2 < 2147483648)
    (h16 : ∀ n, n < w * h → isInt16 (fv n).flowx ∧ isInt16 (fv n).flowy) :
    (∀ n, n < w * h →
      decodeLoop m fv w h u.flowvec (2 * n) = FVal.num (((fv n).flowx : K) / 32) ∧
      decodeLoop m fv w h u.flowvec (2 * n + 1) = FVal.num (((fv n).flowy : K) / 32) ∧
      |((fv n).flowx : K) / 32| ≤ 1024 ∧ |((fv n).flowy : K) / 32| ≤ 1024 ∧
      unknown_flow (decodeLoop m fv w h u.flowvec (2 * n))
        (decodeLoop m fv w h u.flowvec (2 * n + 1)) = false ∧
      ∀ (M : K) (pix0 : Nat → Nat),
        pixelOf m st.wheel M (decodeLoop m fv w h u.flowvec (2 * n))
            (decodeLoop m fv w h u.flowvec (2 * n + 1)) pix0 =
          ComputeColor m st.wheel (m.rnd (((fv n).flowx : K) / 32 / M))
            (m.rnd (((fv n).flowy : K) / 32 / M)) pix0) ∧
    (1024 : K) < UNKNOWN_FLOW_THRESH ∧
    maxradOf m (decodeLoop m fv w h u.flowvec) w h = some (fieldMaxrad m fv w h) ∧
    (∀ j, j < 3 * (w * h) →
      (postProcessVectors m u fv w h st).output j = fieldByte m st.wheel fv w h j) ∧
    colorLoopWrites w h = List.range (3 * (w * h)) ∧
    (∀ j, (colorLoopWrites w h).count j = if j < 3 * (w * h) then 1 else 0) := by
  have hpp := postProcessVectors_apply m hfix u fv w h st H h16
  refine ⟨?_, ?_, hpp.1, ?_, colorLoopWrites_eq w h H, ?_⟩
  · intro n hn
    obtain ⟨d1, d2⟩ := decodeLoop_pair m hfix fv w h H u.flowvec n hn (h16 n hn)
    have hu : unknown_flow (decodeLoop m fv w h u.flowvec (2 * n))
        (decodeLoop m fv w h u.flowvec (2 * n + 1)) = false := by
      rw [d1, d2]
      exact int16_not_unknown _ _ (h16 n hn).1 (h16 n hn).2
    refine ⟨d1, d2, int16_magnitude _ (h16 n hn).1, int16_magnitude _ (h16 n hn).2, hu, ?_⟩
    intro M pix0
    unfold pixelOf
    rw [hu, d1, d2]
    rfl
  · unfold UNKNOWN_FLOW_THRESH
    norm_num
  · intro j hj
    rw [hpp.2]
    exact if_pos hj
  · intro j
    rw [colorLoopWrites_eq w h H]
    by_cases hj : j < 3 * (w * h)
    · rw [if_pos hj]
      exact List.count_eq_one_of_mem (List.nodup_range _) (List.mem_range.mpr hj)
    · rw [if_neg hj]
      exact List.count_eq_zero_of_not_mem (fun hm => hj (List.mem_range.mp hm))

theorem C25_no_unknown_vector_witness :
    colorLoopWrites 2 1 = List.range (3 * (2 * 1)) :=
  (C25_no_unknown_vector
    ({ rnd := fun x => x, rndd := fun x => x, sqrt := Real.sqrt, sqrtf := Real.sqrt,
       atan2f := fun y x => Complex.arg (Complex.mk x y), M_PI := Real.pi } : FloatEnv ℝ)
    { flowvec := fun _ => FVal.nan, pix := fun _ => 0 }
    (fun _ => { flowx := 32767, flowy := -32768 }) 2 1
    { wheel := MakeColorWheel initialWheel, output := fun _ => 0 }
    (fun _ _ => rfl) (by norm_num)
    (fun n _ => ⟨by unfold isInt16; norm_num, by unfold isInt16; norm_num⟩)).2.2.2.2.1

/-! ## C26: the normalised radius -/

/-- In exact arithmetic the radius of a vector divided by `M > 0` is its radius divided by
`M`. -/
theorem exact_rad_div (m : FloatEnv ℝ) (hm : IsExact m) (fx fy M : ℝ) (hM : 0 < M) :
    ComputeColor.rad m (fx / M) (fy / M) = Real.sqrt (fx * fx + fy * fy) / M := by
  rw [exact_rad m hm]
  have e : fx / M * (fx / M) + fy / M * (fy / M) = (fx * fx + fy * fy) / M ^ 2 := by
    rw [div_mul_div_comm, div_mul_div_comm, ← add_div, sq]
  have h0 : 0 ≤ fx * fx + fy * fy := add_nonneg (mul_self_nonneg fx) (mul_self_nonneg fy)
  rw [e, Real.sqrt_div h0, Real.sqrt_sq hM.le]

/-- In exact arithmetic the radius the statistics loop computes for vector `n`. -/
theorem exact_radAt (m : FloatEnv ℝ) (hm : IsExact m) (flowvec : Nat → FVal ℝ) (n : Nat) :
    radAt m flowvec n =
      Real.sqrt ((flowvec (2 * n)).val * (flowvec (2 * n)).val +
        (flowvec (2 * n + 1)).val * (flowvec (2 * n + 1)).val) := by
  obtain ⟨h1, _, h3, _, _, _⟩ := hm
  unfold radAt
  rw [h3]
  simp only [h1]

/-- C26: in exact arithmetic, for a decoded field with no unknown vector, `maxrad` is the
maximum `M` of 1 and the radii; the pixel of vector `n` is the one `ComputeColor` gives
for `(fx / M, fy / M)`, whose radius is `sqrt(fx * fx + fy * fy) / M`, at most 1; so each
channel takes the branch `1 - rad * (1 - col)` and never the scaling by 0.75; and for a
vector whose radius is at least 1 and at least every other radius, each channel is the
interpolated wheel colour itself. -/
theorem C26_normalised_radius (m : FloatEnv ℝ) (hm : IsExact m) (pix0 : Nat → Nat)
    (flowvec : Nat → FVal ℝ) (w h : Nat) (st : VisState) (H : w * h * 2 < 2147483648)
    (hall : ∀ n, n < w * h → unknown_flow (flowvec (2 * n)) (flowvec (2 * n + 1)) = false) :
    maxradOf m flowvec w h =
      some (((List.range (w * h)).map (radAt m flowvec)).foldl max 1) ∧
    postProcessDecoded m pix0 flowvec w h st =
      { st with
        output := colorLoop m pix0 st.wheel flowvec
          (((List.range (w * h)).map (radAt m flowvec)).foldl max 1) w h st.output } ∧
    ∀ n, n < w * h →
      pixelOf m st.wheel (((List.range (w * h)).map (radAt m flowvec)).foldl max 1)
          (flowvec (2 * n)) (flowvec (2 * n + 1)) pix0 =
        ComputeColor m st.wheel
          ((flowvec (2 * n)).val / ((List.range (w * h)).map (radAt m flowvec)).foldl max 1)
          ((flowvec (2 * n + 1)).val /
            ((List.range (w * h)).map (radAt m flowvec)).foldl max 1) pix0 ∧
      ComputeColor.rad m
          ((flowvec (2 * n)).val / ((List.range (w * h)).map (radAt m flowvec)).foldl max 1)
          ((flowvec (2 * n + 1)).val /
            ((List.range (w * h)).map (radAt m flowvec)).foldl max 1) =
        Real.sqrt ((flowvec (2 * n)).val * (flowvec (2 * n)).val +
            (flowvec (2 * n + 1)).val * (flowvec (2 * n + 1)).val) /
          ((List.range (w * h)).map (radAt m flowvec)).foldl max 1 ∧
      ComputeColor.rad m
          ((flowvec (2 * n)).val / ((List.range (w * h)).map (radAt m flowvec)).foldl max 1)
          ((flowvec (2 * n + 1)).val /
            ((List.range (w * h)).map (radAt m flowvec)).foldl max 1) ≤ 1 ∧
      (∀ b : Int,
        ComputeColor.col m st.wheel
            ((flowvec (2 * n)).val / ((List.range (w * h)).map (radAt m flowvec)).foldl max 1)
            ((flowvec (2 * n + 1)).val /
              ((List.range (w * h)).map (radAt m flowvec)).foldl max 1) b =
          1 - ComputeColor.rad m
              ((flowvec (2 * n)).val /
                ((List.range (w * h)).map (radAt m flowvec)).foldl max 1)
              ((flowvec (2 * n + 1)).val /
                ((List.range (w * h)).map (radAt m flowvec)).foldl max 1) *
            (1 - ComputeColor.interp m st.wheel
              ((flowvec (2 * n)).val /
                ((List.range (w * h)).map (radAt m flowvec)).foldl max 1)
              ((flowvec (2 * n + 1)).val /
                ((List.range (w * h)).map (radAt m flowvec)).foldl max 1) b)) ∧
      (1 ≤ radAt m flowvec n → (∀ k, k < w * h → radAt m flowvec k ≤ radAt m flowvec n) →
        ∀ b : Int,
          ComputeColor.col m st.wheel
              ((flowvec (2 * n)).val /
                ((List.range (w * h)).map (radAt m flowvec)).foldl max 1)
              ((flowvec (2 * n + 1)).val /
                ((List.range (w * h)).map (radAt m flowvec)).foldl max 1) b =
            ComputeColor.interp m st.wheel
              ((flowvec (2 * n)).val /
                ((List.range (w * h)).map (radAt m flowvec)).foldl max 1)
              ((flowvec (2 * n + 1)).val /
                ((List.range (w * h)).map (radAt m flowvec)).foldl max 1) b) := by
  have hmax := maxradOf_some m flowvec w h H hall
  obtain ⟨hM1, hMge, hMcase⟩ := foldl_max_spec (radAt m flowvec) 1 (w * h)
  generalize hMdef : ((List.range (w * h)).map (radAt m flowvec)).foldl max 1 = M
    at hmax hM1 hMge hMcase ⊢
  have hMpos : 0 < M := by linarith
  refine ⟨hmax, ?_, ?_⟩
  · unfold postProcessDecoded
    rw [hmax]
  · intro n hn
    have hrad := exact_rad_div m hm (flowvec (2 * n)).val (flowvec (2 * n + 1)).val M hMpos
    have hle : ComputeColor.rad m ((flowvec (2 * n)).val / M)
        ((flowvec (2 * n + 1)).val / M) ≤ 1 := by
      rw [hrad, ← exact_radAt m hm flowvec n, div_le_one hMpos]
      exact hMge n hn
    refine ⟨?_, hrad, hle, ?_, ?_⟩
    · unfold pixelOf
      rw [hall n hn, hm.1, hm.1]
      rfl
    · intro b
      rw [exact_col m hm, if_pos hle]
    · intro h1 hall2 b
      have hMeq : M = radAt m flowvec n := by
        apply le_antisymm
        · rcases hMcase with h0 | ⟨k, hk, h0⟩
          · rw [h0]
            exact h1
          · rw [h0]
            exact hall2 k hk
        · exact hMge n hn
      have hr1 : ComputeColor.rad m ((flowvec (2 * n)).val / M)
          ((flowvec (2 * n + 1)).val / M) = 1 := by
        rw [hrad, ← exact_radAt m hm flowvec n, ← hMeq]
        exact div_self hMpos.ne'
      rw [exact_col m hm, if_pos hle, hr1]
      ring

theorem C26_normalised_radius_witness :
    let m : FloatEnv ℝ :=
      { rnd := fun x => x, rndd := fun x => x, sqrt := Real.sqrt, sqrtf := Real.sqrt,
        atan2f := fun y x => Complex.arg (Complex.mk x y), M_PI := Real.pi }
    let flowvec : Nat → FVal ℝ := fun j => if j = 0 then FVal.num 3 else FVal.num 4
    ComputeColor.rad m
        ((flowvec (2 * 0)).val / ((List.range (1 * 1)).map (radAt m flowvec)).foldl max 1)
        ((flowvec (2 * 0 + 1)).val /
          ((List.range (1 * 1)).map (radAt m flowvec)).foldl max 1) ≤ 1 := by
  intro m flowvec
  exact ((C26_normalised_radius m ⟨fun _ => rfl, fun _ => rfl, rfl, rfl, fun _ _ => rfl, rfl⟩
    (fun _ => 0) flowvec 1 1 { wheel := MakeColorWheel initialWheel, output := fun _ => 0 }
    (by norm_num)
    (by
      intro n hn
      have h0 : n = 0 := by omega
      subst h0
      simp [flowvec, unknown_flow, FVal.isnan, FVal.fabsGt, UNKNOWN_FLOW_THRESH]
      norm_num)).2.2 0 (by norm_num)).2.2.1

/-! ## C27: the rows of the table are saturated hues -/

/-- C27, as stated, fails for the indices 55 to 59: `MakeColorWheel` writes rows 0 to 54
only, so after it row 55 of the zero-initialised array is still `(0, 0, 0)` and its
largest channel is 0, not 255. -/
theorem C27_counterexample :
    wheelRow (MakeColorWheel initialWheel) 55 = (0, 0, 0) ∧
    ¬ (max (max ((MakeColorWheel initialWheel).m_colorwheel 55 0)
          ((MakeColorWheel initialWheel).m_colorwheel 55 1))
        ((MakeColorWheel initialWheel).m_colorwheel 55 2) = 255) := by
  refine ⟨by decide, by decide⟩

/-- C27 (amended): whatever the globals held before, the table has 55 rows, and in every
row 0 to 54 of the table built by `MakeColorWheel` the three channels lie in 0..255, the
largest is exactly 255 and the smallest is exactly 0. -/
theorem C27_saturated_rows (s : WheelState) :
    (MakeColorWheel s).m_ncols = 55 ∧
    ∀ k ∈ List.range 55,
      (∀ c ∈ List.range 3,
        0 ≤ (MakeColorWheel s).m_colorwheel k c ∧ (MakeColorWheel s).m_colorwheel k c ≤ 255) ∧
      max (max ((MakeColorWheel s).m_colorwheel k 0) ((MakeColorWheel s).m_colorwheel k 1))
        ((MakeColorWheel s).m_colorwheel k 2) = 255 ∧
      min (min ((MakeColorWheel s).m_colorwheel k 0) ((MakeColorWheel s).m_colorwheel k 1))
        ((MakeColorWheel s).m_colorwheel k 2) = 0 := by
  refine ⟨MakeColorWheel_ncols s, ?_⟩
  intro k hk
  have hk2 := List.mem_range.mp hk
  have hrow := MakeColorWheel_row s (k : Int) (by omega) (by omega)
  unfold wheelRow at hrow
  simp only [Prod.mk.injEq] at hrow
  obtain ⟨e0, e1, e2⟩ := hrow
  have hc : ∀ c ∈ List.range 3, (MakeColorWheel s).m_colorwheel k c =
      (MakeColorWheel initialWheel).m_colorwheel k c := by
    intro c hc
    have hc2 := List.mem_range.mp hc
    interval_cases c
    · exact e0
    · exact e1
    · exact e2
  have key : ∀ k ∈ List.range 55,
      (∀ c ∈ List.range 3,
        0 ≤ (MakeColorWheel initialWheel).m_colorwheel k c ∧
          (MakeColorWheel initialWheel).m_colorwheel k c ≤ 255) ∧
      max (max ((MakeColorWheel initialWheel).m_colorwheel k 0)
          ((MakeColorWheel initialWheel).m_colorwheel k 1))
        ((MakeColorWheel initialWheel).m_colorwheel k 2) = 255 ∧
      min (min ((MakeColorWheel initialWheel).m_colorwheel k 0)
          ((MakeColorWheel initialWheel).m_colorwheel k 1))
        ((MakeColorWheel initialWheel).m_colorwheel k 2) = 0 := by
    decide
  obtain ⟨k1, k2, k3⟩ := key k hk
  refine ⟨?_, ?_, ?_⟩
  · intro c hcm
    rw [hc c hcm]
    exact k1 c hcm
  · rw [e0, e1, e2]
    exact k2
  · rw [e0, e1, e2]
    exact k3

theorem C27_saturated_rows_witness :
    max (max ((MakeColorWheel initialWheel).m_colorwheel (14 : Nat) 0)
        ((MakeColorWheel initialWheel).m_colorwheel (14 : Nat) 1))
      ((MakeColorWheel initialWheel).m_colorwheel (14 : Nat) 2) = 255 :=
  ((C27_saturated_rows initialWheel).2 14 (by decide)).2.1

/-! ## C28: the two table indices -/

/-- In exact arithmetic, with the table built, `k1` is `k0 + 1` below the last row and 0
at the last row, 54. -/
theorem exact_k1 (m : FloatEnv ℝ) (hm : IsExact m) (s : WheelState) (hs : s.m_ncols = 55)
    (fx fy : ℝ) :
    0 ≤ ComputeColor.k1 m s fx fy ∧ ComputeColor.k1 m s fx fy ≤ 54 ∧
    (ComputeColor.k1 m s fx fy = 0 ↔ ComputeColor.k0 m s fx fy = 54) := by
  obtain ⟨_, h0, h54⟩ := exact_k0 m hm s hs fx fy
  have e : ComputeColor.k1 m s fx fy = (ComputeColor.k0 m s fx fy + 1) % 55 := by
    unfold ComputeColor.k1
    rw [hs]
    exact Int.tmod_eq_emod (by omega) (by norm_num)
  rw [e]
  omega

/-- In exact arithmetic, with the table built, the vector `(1, 0)` has `a = 1` and
`k0 = 54`. -/
theorem exact_right_k0 (m : FloatEnv ℝ) (hm : IsExact m) (s : WheelState)
    (hs : s.m_ncols = 55) : ComputeColor.k0 m s 1 0 = 54 := by
  have ha : ComputeColor.a m 1 0 = 1 := by
    rw [exact_a m hm]
    have e : Complex.mk (-1) (-0) = -1 := by
      apply Complex.ext <;> simp
    rw [e, Complex.arg_neg_one]
    exact div_self Real.pi_ne_zero
  have hfk : ComputeColor.fk m s 1 0 = ((54 : Nat) : ℝ) := by
    rw [fk_of_ncols m hm s hs, ha]
    norm_num
  unfold ComputeColor.k0
  rw [hfk, truncToInt_natCast]
  rfl

/-- C28, as stated, fails: the table has 55 rows, not 60, and for the vector `(1, 0)` in
exact arithmetic `k1` is 0 while `k0` is 54, not 59. -/
theorem C28_counterexample :
    let m : FloatEnv ℝ :=
      { rnd := fun x => x, rndd := fun x => x, sqrt := Real.sqrt, sqrtf := Real.sqrt,
        atan2f := fun y x => Complex.arg (Complex.mk x y), M_PI := Real.pi }
    (MakeColorWheel initialWheel).m_ncols ≠ 60 ∧
    ¬ (ComputeColor.k1 m (MakeColorWheel initialWheel) 1 0 = 0 ↔
        ComputeColor.k0 m (MakeColorWheel initialWheel) 1 0 = 59) := by
  intro m
  have hm : IsExact m := ⟨fun _ => rfl, fun _ => rfl, rfl, rfl, fun _ _ => rfl, rfl⟩
  have hs := MakeColorWheel_ncols initialWheel
  have h0 := exact_right_k0 m hm _ hs
  have h1 := (exact_k1 m hm _ hs 1 0).2.2.mpr h0
  refine ⟨by rw [hs]; decide, ?_⟩
  intro h
  have := h.mp h1
  omega

/-- C28 (amended): in exact arithmetic, with the table built (whatever the globals held
before; `m_ncols` is 55), for every real pair `(fx, fy)` the two indices `ComputeColor`
uses are rows of the table: `0 ≤ k0 ≤ 54` and `0 ≤ k1 ≤ 54`; `k1` is 0 exactly when `k0`
is 54, the last row, and row 0 is red. -/
theorem C28_indices_in_bounds (m : FloatEnv ℝ) (hm : IsExact m) (s0 : WheelState)
    (fx fy : ℝ) :
    (MakeColorWheel s0).m_ncols = 55 ∧
    0 ≤ ComputeColor.k0 m (MakeColorWheel s0) fx fy ∧
    ComputeColor.k0 m (MakeColorWheel s0) fx fy ≤ 54 ∧
    0 ≤ ComputeColor.k1 m (MakeColorWheel s0) fx fy ∧
    ComputeColor.k1 m (MakeColorWheel s0) fx fy ≤ 54 ∧
    (ComputeColor.k1 m (MakeColorWheel s0) fx fy = 0 ↔
      ComputeColor.k0 m (MakeColorWheel s0) fx fy = 54) ∧
    wheelRow (MakeColorWheel s0) 0 = (255, 0, 0) := by
  have hs := MakeColorWheel_ncols s0
  obtain ⟨_, h0, h54⟩ := exact_k0 m hm _ hs fx fy
  obtain ⟨g0, g54, giff⟩ := exact_k1 m hm _ hs fx fy
  refine ⟨hs, h0, h54, g0, g54, giff, ?_⟩
  rw [MakeColorWheel_row s0 0 (by norm_num) (by norm_num)]
  decide

theorem C28_indices_in_bounds_witness :
    let m : FloatEnv ℝ :=
      { rnd := fun x => x, rndd := fun x => x, sqrt := Real.sqrt, sqrtf := Real.sqrt,
        atan2f := fun y x => Complex.arg (Complex.mk x y), M_PI := Real.pi }
    ComputeColor.k0 m (MakeColorWheel initialWheel) 0 1 ≤ 54 := by
  intro m
  exact (C28_indices_in_bounds m ⟨fun _ => rfl, fun _ => rfl, rfl, rfl, fun _ _ => rfl, rfl⟩
    initialWheel 0 1).2.2.1

/-! ## C29: the size of the image buffer -/

/-- For a grid size of 1 or more the `malloc` argument of line 313 is
`((1080 / g) * 1920 / g) * 3`, all divisions rounding down. -/
theorem vecframeBytes_eq (g : Nat) (hg : 1 ≤ g) :
    vecframeBytes g = some (1080 / g * 1920 / g * 3) := by
  have hq : 1080 / g ≤ 1080 := Nat.div_le_self _ _
  have hq2 : 1080 / g * 1920 / g ≤ 1080 / g * 1920 := Nat.div_le_self _ _
  have hb : 1080 / g * 1920 / g * 3 < 18446744073709551616 := by
    have : 1080 / g * 1920 ≤ 1080 * 1920 := Nat.mul_le_mul_right _ hq
    omega
  have e1 : Int.tdiv H_BUFF (g : Int) = ((1080 / g : Nat) : Int) := by
    unfold H_BUFF
    rw [Int.tdiv_eq_ediv (by norm_num) (Int.ofNat_nonneg g)]
    norm_cast
  have e2 : Int.tdiv (((1080 / g : Nat) : Int) * W_BUFF) (g : Int) =
      ((1080 / g * 1920 / g : Nat) : Int) := by
    unfold W_BUFF
    rw [Int.tdiv_eq_ediv (by positivity) (Int.ofNat_nonneg g)]
    norm_cast
  unfold vecframeBytes
  rw [if_neg (by omega), e1, e2]
  have e3 : (((1080 / g * 1920 / g : Nat) : Int) * 3 % 18446744073709551616).toNat =
      1080 / g * 1920 / g * 3 := by
    have : (((1080 / g * 1920 / g : Nat) : Int) * 3) = ((1080 / g * 1920 / g * 3 : Nat) : Int) := by
      norm_cast
    rw [this]
    have h2 : ((1080 / g * 1920 / g * 3 : Nat) : Int) % 18446744073709551616 =
        ((1080 / g * 1920 / g * 3 : Nat) : Int) := by
      apply Int.emod_eq_of_lt (Int.ofNat_nonneg _)
      exact_mod_cast hb
    rw [h2]
    exact Int.toNat_ofNat _
  rw [e3, Nat.mul_one]
  unfold u64
  rw [Nat.mod_eq_of_lt hb]

/-- For a grid size of 1 or more the displayed matrix has `1080 / g` rows and `1920 / g`
columns. -/
theorem displayDimensions_eq (g : Nat) (hg : 1 ≤ g) :
    displayDimensions g = some (1080 / g, 1920 / g) := by
  unfold displayDimensions H_BUFF W_BUFF
  rw [if_neg (by omega), Int.tdiv_eq_ediv (by norm_num) (Int.ofNat_nonneg g),
    Int.tdiv_eq_ediv (by norm_num) (Int.ofNat_nonneg g)]
  have e1 : ((1080 : Int) / (g : Int)).toNat = 1080 / g := by
    have : (1080 : Int) / (g : Int) = ((1080 / g : Nat) : Int) := by norm_cast
    rw [this]
    exact Int.toNat_ofNat _
  have e2 : ((1920 : Int) / (g : Int)).toNat = 1920 / g := by
    have : (1920 : Int) / (g : Int) = ((1920 / g : Nat) : Int) := by norm_cast
    rw [this]
    exact Int.toNat_ofNat _
  rw [e1, e2]

/-- C29: for every grid size `g` in 1..255 the buffer `main` allocates for the image has
`((1080 / g) * 1920 / g) * 3` bytes, the divisions taken left to right; the field has
`1920 / g` by `1080 / g` vectors and the displayed matrix `1080 / g` rows of `1920 / g`
pixels of 3 bytes; the buffer has at least those `(1080 / g) * (1920 / g) * 3` bytes,
every position the colouring loop of `postProcessVectors` stores to lies inside it, and
the two sizes are equal when `g` divides 1920. -/
theorem C29_image_buffer_size (g : Nat) (hg1 : 1 ≤ g) (_hg2 : g ≤ 255) :
    vecframeBytes g = some (1080 / g * 1920 / g * 3) ∧
    calculateOutputDimensions g = some (1920 / g, 1080 / g) ∧
    displayDimensions g = some (1080 / g, 1920 / g) ∧
    1080 / g * (1920 / g) * 3 ≤ 1080 / g * 1920 / g * 3 ∧
    (∀ j ∈ colorLoopWrites (u16 (1920 / g)) (u16 (1080 / g)), j < 1080 / g * 1920 / g * 3) ∧
    (g ∣ 1920 → 1080 / g * 1920 / g * 3 = 1080 / g * (1920 / g) * 3) := by
  have hw : 1920 / g ≤ 1920 := Nat.div_le_self _ _
  have hh : 1080 / g ≤ 1080 := Nat.div_le_self _ _
  have hwh : 1920 / g * (1080 / g) ≤ 1920 * 1080 := Nat.mul_le_mul hw hh
  have e1 : u16 (1920 / g) = 1920 / g := Nat.mod_eq_of_lt (by omega)
  have e2 : u16 (1080 / g) = 1080 / g := Nat.mod_eq_of_lt (by omega)
  have hle : 1080 / g * (1920 / g) ≤ 1080 / g * 1920 / g :=
    Nat.mul_div_le_mul_div_assoc _ _ _
  refine ⟨vecframeBytes_eq g hg1, calculateOutputDimensions_eq g hg1,
    displayDimensions_eq g hg1, by omega, ?_, ?_⟩
  · intro j hj
    rw [e1, e2, colorLoopWrites_eq _ _ (by omega), List.mem_range] at hj
    have e3 : 1920 / g * (1080 / g) = 1080 / g * (1920 / g) := Nat.mul_comm _ _
    omega
  · intro hdvd
    rw [Nat.mul_div_assoc _ hdvd]

theorem C29_image_buffer_size_witness :
    vecframeBytes 7 = some (1080 / 7 * 1920 / 7 * 3) ∧
    1080 / 7 * (1920 / 7) * 3 ≤ 1080 / 7 * 1920 / 7 * 3 :=
  ⟨(C29_image_buffer_size 7 (by decide) (by decide)).1,
    (C29_image_buffer_size 7 (by decide) (by decide)).2.2.2.1⟩

end NvOF
